import Mathlib

/-!
# Trigonometricly: sine-wave sampler and Vulkan frame loop

A shallow embedding of `src/sine.cpp` and of the call sequences of
`src/InitVulkan.cpp`, with the properties of the specification proved
about it.  Parts 1 and 2 hold the definitions, part 3 the proofs.

## Part 1: floating-point arithmetic of the sampler

`sine::generateSineWave` computes in C++ `float` (IEEE-754 binary32) with one
sub-expression in `double` (binary64, because `M_PI` is a `double`).  The
sampler is embedded over an abstract arithmetic `FloatArith`, so that
properties that do not depend on rounding are proved for every arithmetic, and
the arithmetic is then instantiated with round-to-nearest-even at 24 and 53
bits of precision.  Finite values are represented by the rational number
they denote.  `t_pointCount` and the loop index are C++ `int`s: the theorems
about them take them in the range of that type where it matters.
-/

/-- Round a rational to the nearest integer, ties to the even integer. -/
def roundNearestEven (q : ℚ) : ℤ :=
  if q - ⌊q⌋ < 1 / 2 then ⌊q⌋
  else if 1 / 2 < q - ⌊q⌋ then ⌊q⌋ + 1
  else if ⌊q⌋ % 2 = 0 then ⌊q⌋ else ⌊q⌋ + 1

/-- Unit in the last place of a positive rational `q` at precision `p`:
`2 ^ (e - (p - 1))` where `2 ^ e ≤ q < 2 ^ (e + 1)`. -/
def ulp (p : ℕ) (q : ℚ) : ℚ := (2 : ℚ) ^ (Int.log 2 q - ((p : ℤ) - 1))

/-- Round a non-negative rational to `p` significant bits, to nearest, ties to
even. -/
def roundPos (p : ℕ) (q : ℚ) : ℚ :=
  if q = 0 then 0 else (roundNearestEven (q / ulp p q) : ℚ) * ulp p q

/-- Round a rational to `p` significant bits (sign and magnitude, to nearest,
ties to even), with no bound on the exponent. -/
def roundTo (p : ℕ) (q : ℚ) : ℚ :=
  if q < 0 then -roundPos p (-q) else roundPos p q

/-- Round a rational to the floating-point format with `p` significant bits,
least normal exponent `emin` and overflow threshold `2 ^ emax`.  Below
`2 ^ emin` the spacing is the constant subnormal spacing; a result of
magnitude `2 ^ emax` or more is an overflow, which IEEE-754 delivers as an
infinity: `none`. -/
def roundFinite (p : ℕ) (emin emax : ℤ) (q : ℚ) : Option ℚ :=
  let r : ℚ :=
    if |q| < (2 : ℚ) ^ emin then
      (roundNearestEven (q / (2 : ℚ) ^ (emin - ((p : ℤ) - 1))) : ℚ)
        * (2 : ℚ) ^ (emin - ((p : ℤ) - 1))
    else roundTo p q
  if |r| < (2 : ℚ) ^ emax then some r else none

/-- Rounding to binary32, the C++ `float`. -/
def round32 (q : ℚ) : Option ℚ := roundFinite 24 (-126) 128 q

/-- Rounding to binary64, the C++ `double`. -/
def round64 (q : ℚ) : Option ℚ := roundFinite 53 (-1022) 1024 q

/-- The arithmetic used by the sampler: `F` is C++ `float`, `D` is `double`. -/
structure FloatArith (F D : Type) where
  /-- Conversion `int → float`, as in `static_cast<float>(i)`. -/
  ofInt : ℤ → F
  /-- The literal `2.0f`. -/
  two : F
  /-- The literal `1.0f`. -/
  one : F
  /-- Operator `/` on `float`. -/
  divF : F → F → F
  /-- Operator `*` on `float`. -/
  mulF : F → F → F
  /-- Operator `-` on `float`. -/
  subF : F → F → F
  /-- Promotion `float → double`. -/
  toDouble : F → D
  /-- Operator `*` on `double`. -/
  mulD : D → D → D
  /-- Operator `+` on `double`. -/
  addD : D → D → D
  /-- The constant `M_PI` of `<cmath>`. -/
  M_PI : D
  /-- Conversion `double → float` of the argument passed to `sinf`. -/
  ofDouble : D → F
  /-- The function `sinf` of `<cmath>`. -/
  sinf : F → F

/-- The value of `M_PI` as a binary64 number: `0x400921FB54442D18`. -/
def M_PI_binary64 : ℚ := 884279719003555 / 281474976710656

/-- IEEE-754 arithmetic in the default rounding mode.  A value is `some q` for
the finite number `q` and `none` for an infinity or a NaN; the two zeros are
not distinguished.  A division by zero gives an infinity or a NaN, and every
operation below maps a non-finite operand to a non-finite result (the one
IEEE-754 exception, a finite number divided by an infinity, does not occur in
the sampler, whose only divisor is a converted `int`).  `sinf`, whose result
on a finite argument is finite, is a parameter. -/
def ieee (sinf : ℚ → ℚ) : FloatArith (Option ℚ) (Option ℚ) where
  ofInt i := round32 i
  two := some 2
  one := some 1
  divF a b := a.bind fun x => b.bind fun y => if y = 0 then none else round32 (x / y)
  mulF a b := a.bind fun x => b.bind fun y => round32 (x * y)
  subF a b := a.bind fun x => b.bind fun y => round32 (x - y)
  toDouble a := a
  mulD a b := a.bind fun x => b.bind fun y => round64 (x * y)
  addD a b := a.bind fun x => b.bind fun y => round64 (x + y)
  M_PI := some M_PI_binary64
  ofDouble a := a.bind round32
  sinf a := a.map sinf

/-- A vertex: `struct Vertex { glm::vec2 position; }`. -/
structure Vertex (F : Type) where
  x : F
  y : F
deriving DecidableEq, Repr

namespace sine

/-- The body of the loop of `sine::generateSineWave` for the index `i`. -/
def sample {F D : Type} (A : FloatArith F D) (t_amplitude t_frequency t_phase : F)
    (t_pointCount : ℤ) (i : ℤ) : Vertex F :=
  let x := A.subF (A.mulF (A.divF (A.ofInt i) (A.ofInt (t_pointCount - 1))) A.two) A.one
  let y := A.mulF t_amplitude
    (A.sinf (A.ofDouble (A.addD
      (A.mulD (A.toDouble (A.mulF (A.mulF t_frequency x) A.two)) A.M_PI)
      (A.toDouble t_phase))))
  { x := x, y := y }

/-- `sine::generateSineWave`: one vertex is pushed for every `i` with
`0 ≤ i < t_pointCount`, in increasing order of `i`. -/
def generateSineWave {F D : Type} (A : FloatArith F D)
    (t_amplitude t_frequency t_phase : F) (t_pointCount : ℤ) : List (Vertex F) :=
  (List.range t_pointCount.toNat).map
    (fun i : ℕ => sample A t_amplitude t_frequency t_phase t_pointCount (i : ℤ))

end sine

/-- The x-coordinate of vertex `i` of `t_pointCount` as a rational, by the
expression of the source rounded to 24 bits at every operation; it is the
value computed by `sample` over `ieee` when no operation overflows,
underflows or divides by zero (`sample_x_ieee`). -/
def sine.xValue (t_pointCount i : ℤ) : ℚ :=
  roundTo 24 (roundTo 24 (roundTo 24
    (roundTo 24 (i : ℚ) / roundTo 24 ((t_pointCount - 1 : ℤ) : ℚ)) * 2) - 1)

/-!
## Part 2: the Vulkan context and its backend

`InitVulkan.cpp` drives Vulkan and GLFW.  The backend is embedded as a
recorder: every call that creates, destroys or uses an object is appended to
a trace, with its arguments; the result code of the call at position `n` of
the trace is `Driver.result n`; every created object gets a handle never
handed out before.  Queries that only read properties (`vkGet...`,
`vkEnumerate...`, `glfwGetFramebufferSize`, file reads) are answered by the
`Driver` and not recorded.  The context `VulkanContext`, passed by reference
in the source, is part of the state.
-/

/-- A Vulkan or GLFW handle; `0` is `VK_NULL_HANDLE`, and `nullptr` for a
window. -/
abbrev Handle := ℕ

/-- A `VkResult` code; `0` is `VK_SUCCESS`. -/
abbrev VkResult := ℤ

/-- `VK_SUCCESS` of `vulkan_core.h`. -/
def VK_SUCCESS : VkResult := 0

/-- `VK_ERROR_OUT_OF_DATE_KHR` of `vulkan_core.h`. -/
def VK_ERROR_OUT_OF_DATE_KHR : VkResult := -1000001004

/-- `constexpr int MAX_FRAMES_IN_FLIGHT = 2;` -/
def MAX_FRAMES_IN_FLIGHT : ℕ := 2

/-- `sizeof(Vertex)`: one `glm::vec2`, two 32-bit floats. -/
def sizeofVertex : ℕ := 8

/-- `std::numeric_limits<uint32_t>::max()`. -/
def UINT32_MAX : ℕ := 2 ^ 32 - 1

/-- `UINT64_MAX`. -/
def UINT64_MAX : ℕ := 2 ^ 64 - 1

/-- `VK_FORMAT_B8G8R8A8_SRGB` of `vulkan_core.h`. -/
def VK_FORMAT_B8G8R8A8_SRGB : ℕ := 50

/-- `VK_COLOR_SPACE_SRGB_NONLINEAR_KHR` of `vulkan_core.h`. -/
def VK_COLOR_SPACE_SRGB_NONLINEAR_KHR : ℕ := 0

/-- `VK_PRESENT_MODE_MAILBOX_KHR` of `vulkan_core.h`. -/
def VK_PRESENT_MODE_MAILBOX_KHR : ℕ := 1

/-- `VK_PRESENT_MODE_FIFO_KHR` of `vulkan_core.h`. -/
def VK_PRESENT_MODE_FIFO_KHR : ℕ := 2

/-- `VK_QUEUE_GRAPHICS_BIT` of `vulkan_core.h`. -/
def VK_QUEUE_GRAPHICS_BIT : ℕ := 1

/-- `VK_MEMORY_PROPERTY_HOST_VISIBLE_BIT` of `vulkan_core.h`. -/
def VK_MEMORY_PROPERTY_HOST_VISIBLE_BIT : ℕ := 2

/-- `VK_MEMORY_PROPERTY_HOST_COHERENT_BIT` of `vulkan_core.h`. -/
def VK_MEMORY_PROPERTY_HOST_COHERENT_BIT : ℕ := 4

/-- `VK_BUFFER_USAGE_VERTEX_BUFFER_BIT` of `vulkan_core.h`. -/
def VK_BUFFER_USAGE_VERTEX_BUFFER_BIT : ℕ := 128

/-- `VK_PIPELINE_STAGE_COLOR_ATTACHMENT_OUTPUT_BIT` of `vulkan_core.h`. -/
def VK_PIPELINE_STAGE_COLOR_ATTACHMENT_OUTPUT_BIT : ℕ := 1024

/-- `VkExtent2D`. -/
structure VkExtent2D where
  width : ℕ
  height : ℕ
deriving DecidableEq, Repr

/-- `VkSurfaceFormatKHR`. -/
structure VkSurfaceFormatKHR where
  format : ℕ
  colorSpace : ℕ
deriving DecidableEq, Repr

/-- The fields of `VkSurfaceCapabilitiesKHR` that the source reads. -/
structure VkSurfaceCapabilitiesKHR where
  minImageCount : ℕ
  maxImageCount : ℕ
  currentExtent : VkExtent2D
  minImageExtent : VkExtent2D
  maxImageExtent : VkExtent2D
deriving DecidableEq, Repr

/-- One entry of `vkGetPhysicalDeviceQueueFamilyProperties`, with the answer
of `vkGetPhysicalDeviceSurfaceSupportKHR` for that family. -/
structure QueueFamily where
  queueFlags : ℕ
  presentOK : Bool
deriving DecidableEq, Repr

/-- `VkPhysicalDeviceMemoryProperties`: `memoryTypes` holds the
`propertyFlags` of each entry of the array. -/
structure VkPhysicalDeviceMemoryProperties where
  memoryTypeCount : ℕ
  memoryTypes : List ℕ
deriving DecidableEq, Repr

/-- The fields of `VkMemoryRequirements` that the source reads. -/
structure VkMemoryRequirements where
  size : ℕ
  memoryTypeBits : ℕ
deriving DecidableEq, Repr

/-- The calls recorded by the backend.  The last argument `out` of a creating
call is the handle it delivers. -/
inductive Call where
  | vkCreateInstance (out : Handle)
  | glfwCreateWindowSurface (inst window out : Handle)
  | vkCreateDevice (physicalDevice : Handle) (queueFamilies : List ℕ) (out : Handle)
  | vkCreateSwapchainKHR (device surface : Handle) (minImageCount : ℕ)
      (format : VkSurfaceFormatKHR) (extent : VkExtent2D) (presentMode : ℕ)
      (queueFamilyIndices : List ℕ) (out : Handle)
  | vkCreateImageView (device image out : Handle)
  | vkCreateRenderPass (device out : Handle)
  | vkCreateShaderModule (device : Handle) (codeSize : ℕ) (out : Handle)
  | vkCreatePipelineLayout (device out : Handle)
  | vkCreateGraphicsPipelines (device layout renderPass : Handle) (stages : List Handle)
      (out : Handle)
  | vkDestroyShaderModule (device shaderModule : Handle)
  | vkCreateFramebuffer (device renderPass imageView out : Handle)
  | vkCreateCommandPool (device : Handle) (queueFamilyIndex : ℕ) (out : Handle)
  | vkAllocateCommandBuffers (device commandPool : Handle) (count : ℕ) (out : List Handle)
  | vkCreateSemaphore (device out : Handle)
  | vkCreateFence (device out : Handle)
  | vkCreateBuffer (device : Handle) (size usage : ℕ) (out : Handle)
  | vkAllocateMemory (device : Handle) (allocationSize memoryTypeIndex : ℕ) (out : Handle)
  | vkBindBufferMemory (device buffer memory : Handle) (offset : ℕ)
  | vkWaitForFences (device : Handle) (fences : List Handle) (waitAll : Bool) (timeout : ℕ)
  | vkAcquireNextImageKHR (device swapchain : Handle) (timeout : ℕ)
      (semaphore fence : Handle)
  | vkMapMemory (device memory : Handle) (offset size : ℕ)
  | memcpy (size : ℕ)
  | vkUnmapMemory (device memory : Handle)
  | vkResetCommandBuffer (commandBuffer : Handle)
  | vkBeginCommandBuffer (commandBuffer : Handle)
  | vkCmdBeginRenderPass (commandBuffer renderPass framebuffer : Handle)
      (extent : VkExtent2D) (clearValues : List (List ℚ))
  | vkCmdBindPipeline (commandBuffer pipeline : Handle)
  | vkCmdBindVertexBuffers (commandBuffer : Handle) (firstBinding bindingCount : ℕ)
      (buffers : List Handle) (offsets : List ℕ)
  | vkCmdDraw (commandBuffer : Handle)
      (vertexCount instanceCount firstVertex firstInstance : ℕ)
  | vkCmdEndRenderPass (commandBuffer : Handle)
  | vkEndCommandBuffer (commandBuffer : Handle)
  | vkResetFences (device : Handle) (fences : List Handle)
  | vkQueueSubmit (queue : Handle) (waitSemaphores : List Handle)
      (waitDstStageMask : List ℕ) (commandBuffers signalSemaphores : List Handle)
      (fence : Handle)
  | vkQueuePresentKHR (queue : Handle) (waitSemaphores swapchains : List Handle)
      (imageIndices : List ℕ)
  | vkDeviceWaitIdle (device : Handle)
  | vkDestroyBuffer (device buffer : Handle)
  | vkFreeMemory (device memory : Handle)
  | vkDestroyFence (device fence : Handle)
  | vkDestroySemaphore (device semaphore : Handle)
  | vkDestroyCommandPool (device commandPool : Handle)
  | vkDestroyFramebuffer (device framebuffer : Handle)
  | vkDestroyPipeline (device pipeline : Handle)
  | vkDestroyPipelineLayout (device layout : Handle)
  | vkDestroyRenderPass (device renderPass : Handle)
  | vkDestroyImageView (device imageView : Handle)
  | vkDestroySwapchainKHR (device swapchain : Handle)
  | vkDestroyDevice (device : Handle)
  | vkDestroySurfaceKHR (inst surface : Handle)
  | vkDestroyInstance (inst : Handle)
deriving Repr

/-- `struct VulkanContext`, with the default member initialisers of the
header.  `m_currentFrame` is a `size_t`. -/
structure VulkanContext where
  m_instance : Handle := 0
  m_surface : Handle := 0
  m_physicalDevice : Handle := 0
  m_device : Handle := 0
  m_graphicsQueue : Handle := 0
  m_presentQueue : Handle := 0
  m_swapChain : Handle := 0
  m_swapChainImages : List Handle := []
  m_swapChainExtent : VkExtent2D := ⟨0, 0⟩
  m_swapChainImageViews : List Handle := []
  m_renderPass : Handle := 0
  m_pipelineLayout : Handle := 0
  m_graphicsPipeline : Handle := 0
  m_swapChainFramebuffers : List Handle := []
  m_commandPool : Handle := 0
  m_commandBuffers : List Handle := []
  m_imageAvailableSemaphores : List Handle := []
  m_renderFinishedSemaphores : List Handle := []
  m_inFlightFences : List Handle := []
  m_currentFrame : ℕ := 0
  m_vertexBuffer : Handle := 0
  m_vertexBufferMemory : Handle := 0
  m_window : Handle := 0
  m_swapChainImageFormat : ℕ := 0
deriving DecidableEq, Repr

/-- The answers of the backend: result codes by position in the trace, and
the answers to the queries. -/
structure Driver where
  /-- Result code of the call recorded at position `n` of the trace. -/
  result : ℕ → VkResult
  /-- Value left in `imageIndex` by the `vkAcquireNextImageKHR` recorded at
  position `n`. -/
  imageIndex : ℕ → ℕ
  /-- `vkEnumeratePhysicalDevices`. -/
  physicalDevices : List Handle
  /-- `vkGetPhysicalDeviceQueueFamilyProperties` and surface support. -/
  queueFamilies : List QueueFamily
  /-- `vkGetDeviceQueue` for queue 0 of a family. -/
  queue : ℕ → Handle
  /-- `vkGetPhysicalDeviceSurfaceCapabilitiesKHR`. -/
  caps : VkSurfaceCapabilitiesKHR
  /-- `vkGetPhysicalDeviceSurfaceFormatsKHR`. -/
  formats : List VkSurfaceFormatKHR
  /-- `vkGetPhysicalDeviceSurfacePresentModesKHR`. -/
  presentModes : List ℕ
  /-- `glfwGetFramebufferSize`. -/
  framebufferSize : ℤ × ℤ
  /-- `vkGetSwapchainImagesKHR`. -/
  swapchainImages : List Handle
  /-- Size in bytes of a file that can be opened, `none` when it cannot. -/
  fileSize : String → Option ℕ
  /-- `vkGetBufferMemoryRequirements`. -/
  memoryRequirements : VkMemoryRequirements
  /-- `vkGetPhysicalDeviceMemoryProperties`. -/
  memoryProperties : VkPhysicalDeviceMemoryProperties

/-- What stops a function before its end: a C++ exception, or an access whose
behaviour C++ leaves undefined (`operator[]` out of range), where the
embedding stops too. -/
inductive Exn where
  | runtime_error (what : String)
  | bad_optional_access
  | outOfRange
deriving DecidableEq, Repr

/-- The state: the trace of recorded calls, the next unused handle, and the
context. -/
structure Machine where
  trace : List Call := []
  nextHandle : Handle := 1
  context : VulkanContext := {}
deriving Repr

/-- A computation on the state that ends with a value or is stopped. -/
def Vk (α : Type) : Type := Machine → Machine × Except Exn α

namespace Vk

/-- Return a value. -/
def ret {α : Type} (a : α) : Vk α := fun m => (m, Except.ok a)

/-- Sequence two computations; a stop ends the sequence. -/
def seq {α β : Type} (x : Vk α) (f : α → Vk β) : Vk β := fun m =>
  match x m with
  | (m', Except.ok a) => f a m'
  | (m', Except.error e) => (m', Except.error e)

instance : Monad Vk where
  pure := ret
  bind := seq

/-- Stop with `e`: `throw`. -/
def raise {α : Type} (e : Exn) : Vk α := fun m => (m, Except.error e)

/-- Record a call; its value is the result code the driver gives it. -/
def call (d : Driver) (c : Call) : Vk VkResult := fun m =>
  ({ m with trace := m.trace ++ [c] }, Except.ok (d.result m.trace.length))

/-- Record a call whose result code, if it has one, is not read. -/
def exec (c : Call) : Vk Unit := fun m =>
  ({ m with trace := m.trace ++ [c] }, Except.ok ())

/-- A handle never handed out before. -/
def fresh : Vk Handle := fun m =>
  ({ m with nextHandle := m.nextHandle + 1 }, Except.ok m.nextHandle)

/-- Read the context. -/
def get : Vk VulkanContext := fun m => (m, Except.ok m.context)

/-- Update the context. -/
def modify (f : VulkanContext → VulkanContext) : Vk Unit := fun m =>
  ({ m with context := f m.context }, Except.ok ())

/-- The position the next recorded call will have in the trace. -/
def position : Vk ℕ := fun m => (m, Except.ok m.trace.length)

/-- `v[i]` on a `std::vector`. -/
def index {α : Type} (v : List α) (i : ℕ) : Vk α :=
  match v[i]? with
  | some a => ret a
  | none => raise Exn.outOfRange

/-- Run `f` on every element, in order, stopping at the first stop. -/
def forEach {α : Type} (f : α → Vk Unit) : List α → Vk Unit
  | [] => ret ()
  | a :: l => seq (f a) fun _ => forEach f l

/-- The calls a computation records when run from `m`. -/
def issued {α : Type} (x : Vk α) (m : Machine) : List Call :=
  (x m).1.trace.drop m.trace.length

end Vk

/-- `findMemoryType`: the first index below `memoryTypeCount` whose bit is set
in the filter and whose property flags contain `t_props`; `memProps` is the
answer of `vkGetPhysicalDeviceMemoryProperties` for the physical device. -/
def findMemoryType (memProps : VkPhysicalDeviceMemoryProperties)
    (t_typeFilter t_props : ℕ) : Except Exn ℕ :=
  match (List.range memProps.memoryTypeCount).find? (fun i =>
      decide (t_typeFilter &&& ((1 <<< i) % 2 ^ 32) ≠ 0) &&
      decide ((memProps.memoryTypes.getD i 0) &&& t_props = t_props)) with
  | some i => Except.ok i
  | none => Except.error (Exn.runtime_error "No suitable memory type on physical device")

/-- `struct QueueFamilyIndices`. -/
structure QueueFamilyIndices where
  m_graphicsFamily : Option ℕ := none
  m_presentFamily : Option ℕ := none
deriving DecidableEq, Repr

/-- `QueueFamilyIndices::isComplete`. -/
def QueueFamilyIndices.isComplete (q : QueueFamilyIndices) : Bool :=
  q.m_graphicsFamily.isSome && q.m_presentFamily.isSome

/-- The loop of `findQueueFamilies` from index `i` on, over the families not
yet visited. -/
def findQueueFamilies.loop : List QueueFamily → ℕ → QueueFamilyIndices → QueueFamilyIndices
  | [], _, idx => idx
  | p :: ps, i, idx =>
    let idx1 := if p.queueFlags &&& VK_QUEUE_GRAPHICS_BIT ≠ 0
      then { idx with m_graphicsFamily := some i } else idx
    let idx2 := if p.presentOK then { idx1 with m_presentFamily := some i } else idx1
    if idx2.isComplete then idx2 else findQueueFamilies.loop ps (i + 1) idx2

/-- `findQueueFamilies`; `props` lists the queue families of the device with
their support of the surface. -/
def findQueueFamilies (props : List QueueFamily) : QueueFamilyIndices :=
  findQueueFamilies.loop props 0 {}

/-- `pickSurfaceFormat`; `none` is the read of `t_avail[0]` on an empty
vector. -/
def pickSurfaceFormat (t_avail : List VkSurfaceFormatKHR) : Option VkSurfaceFormatKHR :=
  match t_avail.find? (fun f => decide (f.format = VK_FORMAT_B8G8R8A8_SRGB) &&
      decide (f.colorSpace = VK_COLOR_SPACE_SRGB_NONLINEAR_KHR)) with
  | some f => some f
  | none => t_avail[0]?

/-- `pickPresentMode`. -/
def pickPresentMode (t_avail : List ℕ) : ℕ :=
  match t_avail.find? (fun m => decide (m = VK_PRESENT_MODE_MAILBOX_KHR)) with
  | some m => m
  | none => VK_PRESENT_MODE_FIFO_KHR

/-- `std::clamp(v, lo, hi)`, by the definition of the C++ library the program
is built with (libstdc++): `std::min(std::max(v, lo), hi)`.  The C++ standard
requires `lo ≤ hi`, where this is `lo` if `v < lo`, `hi` if `hi < v` and `v`
otherwise, and leaves the behaviour undefined for `hi < lo`. -/
def clamp (v lo hi : ℕ) : ℕ := min (max v lo) hi

/-- `pickExtent`; `framebufferSize` is the answer of `glfwGetFramebufferSize`,
two `int`s that are converted to `uint32_t`. -/
def pickExtent (t_caps : VkSurfaceCapabilitiesKHR) (t_window : Handle)
    (framebufferSize : ℤ × ℤ) : Except Exn VkExtent2D :=
  if t_window = 0 then
    Except.error (Exn.runtime_error "GLFW window is null. Ensure to create a window.")
  else if t_caps.currentExtent.width ≠ UINT32_MAX then Except.ok t_caps.currentExtent
  else
    Except.ok
      { width := clamp (framebufferSize.1 % 2 ^ 32).toNat
          t_caps.minImageExtent.width t_caps.maxImageExtent.width
        height := clamp (framebufferSize.2 % 2 ^ 32).toNat
          t_caps.minImageExtent.height t_caps.maxImageExtent.height }

/-- The `imageCount` that `createSwapChain` requests, in `uint32_t`
arithmetic. -/
def swapChainImageCount (caps : VkSurfaceCapabilitiesKHR) : ℕ :=
  let imageCount := (caps.minImageCount + 1) % 2 ^ 32
  if caps.maxImageCount > 0 ∧ imageCount > caps.maxImageCount then caps.maxImageCount
  else imageCount

/-- `std::vector::resize` on a vector of handles: new elements are null. -/
def resize (v : List Handle) (n : ℕ) : List Handle :=
  v.take n ++ List.replicate (n - v.length) 0

namespace Vk

/-- `n` handles never handed out before. -/
def freshN (n : ℕ) : Vk (List Handle) := fun m =>
  ({ m with nextHandle := m.nextHandle + n },
    Except.ok ((List.range n).map fun k => m.nextHandle + k))

/-- Continue with the value of an `Except`, or stop with its exception. -/
def lift {α : Type} : Except Exn α → Vk α
  | Except.ok a => ret a
  | Except.error e => raise e

/-- `std::optional::value()`. -/
def value {α : Type} : Option α → Vk α
  | some a => ret a
  | none => raise Exn.bad_optional_access

/-- Stop with `e` when `r` is not `VK_SUCCESS`. -/
def check (r : VkResult) (e : Exn) : Vk Unit :=
  if r ≠ VK_SUCCESS then raise e else ret ()

end Vk

/-- The macro `VK_CHECK`, applied to a result code. -/
def VK_CHECK (r : VkResult) : Vk Unit := Vk.check r (Exn.runtime_error "Vulkan error")

/-- `readFile`, by the size of the buffer it returns. -/
def readFile (d : Driver) (filename : String) : Vk ℕ :=
  match d.fileSize filename with
  | none => Vk.raise (Exn.runtime_error "failed to open file")
  | some n => Vk.ret n

/-- `createBuffer`; `setBuffer` and `setMemory` write the two reference
parameters `t_buffer` and `t_bufferMem`. -/
def createBuffer (d : Driver) (t_dev : Handle) (t_size t_usage t_props : ℕ)
    (setBuffer setMemory : Handle → VulkanContext → VulkanContext) : Vk Unit := do
  let buffer ← Vk.fresh
  let r ← Vk.call d (Call.vkCreateBuffer t_dev t_size t_usage buffer)
  VK_CHECK r
  Vk.modify (setBuffer buffer)
  let mr := d.memoryRequirements
  let memoryTypeIndex ← Vk.lift (findMemoryType d.memoryProperties mr.memoryTypeBits t_props)
  let memory ← Vk.fresh
  let r ← Vk.call d (Call.vkAllocateMemory t_dev mr.size memoryTypeIndex memory)
  VK_CHECK r
  Vk.modify (setMemory memory)
  Vk.exec (Call.vkBindBufferMemory t_dev buffer memory 0)

namespace VulkanHelpers

/-- `VulkanHelpers::createInstance`. -/
def createInstance (d : Driver) : Vk Unit := do
  let out ← Vk.fresh
  let r ← Vk.call d (Call.vkCreateInstance out)
  Vk.check r (Exn.runtime_error "Failed to create Vulkan instance")
  Vk.modify fun c => { c with m_instance := out }

/-- `VulkanHelpers::createSurface`. -/
def createSurface (d : Driver) (t_window : Handle) : Vk Unit := do
  let c ← Vk.get
  let out ← Vk.fresh
  let r ← Vk.call d (Call.glfwCreateWindowSurface c.m_instance t_window out)
  Vk.check r (Exn.runtime_error "Failed to create window surface")
  Vk.modify fun c => { c with m_surface := out }

/-- `VulkanHelpers::pickPhysicalDevice`: the first device is taken. -/
def pickPhysicalDevice (d : Driver) : Vk Unit := do
  match d.physicalDevices with
  | [] => Vk.raise (Exn.runtime_error "Failed to find GPUs with Vulkan support")
  | device :: _ => Vk.modify fun c => { c with m_physicalDevice := device }
  let c ← Vk.get
  if c.m_physicalDevice = 0 then
    Vk.raise (Exn.runtime_error "Failed to find a suitable GPU")

/-- The elements of `std::set<uint32_t>{a, b}`, in increasing order. -/
def uniqueQueueFamilies (a b : ℕ) : List ℕ :=
  if a = b then [a] else if a < b then [a, b] else [b, a]

/-- `VulkanHelpers::createLogicalDevice`. -/
def createLogicalDevice (d : Driver) : Vk Unit := do
  let c ← Vk.get
  let indices := findQueueFamilies d.queueFamilies
  let graphicsFamily ← Vk.value indices.m_graphicsFamily
  let presentFamily ← Vk.value indices.m_presentFamily
  let out ← Vk.fresh
  let r ← Vk.call d (Call.vkCreateDevice c.m_physicalDevice
    (uniqueQueueFamilies graphicsFamily presentFamily) out)
  Vk.check r (Exn.runtime_error "Failed to create logical device!")
  Vk.modify fun c => { c with
    m_device := out
    m_graphicsQueue := d.queue graphicsFamily
    m_presentQueue := d.queue presentFamily }

/-- `VulkanHelpers::createSwapChain`. -/
def createSwapChain (d : Driver) : Vk Unit := do
  let c ← Vk.get
  let surfaceFormat ← match pickSurfaceFormat d.formats with
    | some f => Vk.ret f
    | none => Vk.raise Exn.outOfRange
  let presentMode := pickPresentMode d.presentModes
  let extent ← Vk.lift (pickExtent d.caps c.m_window d.framebufferSize)
  let imageCount := swapChainImageCount d.caps
  let indices := findQueueFamilies d.queueFamilies
  let graphicsFamily ← Vk.value indices.m_graphicsFamily
  let presentFamily ← Vk.value indices.m_presentFamily
  let queueFamilyIndices :=
    if graphicsFamily ≠ presentFamily then [graphicsFamily, presentFamily] else []
  let out ← Vk.fresh
  let r ← Vk.call d (Call.vkCreateSwapchainKHR c.m_device c.m_surface imageCount
    surfaceFormat extent presentMode queueFamilyIndices out)
  Vk.check r (Exn.runtime_error "Failed to create swap chain!")
  Vk.modify fun c => { c with
    m_swapChain := out
    m_swapChainImages := d.swapchainImages
    m_swapChainImageFormat := surfaceFormat.format
    m_swapChainExtent := extent }

/-- The loop of `createImageViews` from index `i` on, over the images not yet
visited. -/
def createImageViews.loop (d : Driver) : ℕ → List Handle → Vk Unit
  | _, [] => Vk.ret ()
  | i, image :: images => do
    let c ← Vk.get
    let out ← Vk.fresh
    let r ← Vk.call d (Call.vkCreateImageView c.m_device image out)
    Vk.check r (Exn.runtime_error "Failed to create image views!")
    Vk.modify fun c => { c with m_swapChainImageViews := c.m_swapChainImageViews.set i out }
    createImageViews.loop d (i + 1) images

/-- `VulkanHelpers::createImageViews`. -/
def createImageViews (d : Driver) : Vk Unit := do
  Vk.modify fun c => { c with
    m_swapChainImageViews := resize c.m_swapChainImageViews c.m_swapChainImages.length }
  let c ← Vk.get
  createImageViews.loop d 0 c.m_swapChainImages

/-- `VulkanHelpers::createRenderPass`. -/
def createRenderPass (d : Driver) : Vk Unit := do
  let c ← Vk.get
  let out ← Vk.fresh
  let r ← Vk.call d (Call.vkCreateRenderPass c.m_device out)
  Vk.check r (Exn.runtime_error "Failed to create render pass!")
  Vk.modify fun c => { c with m_renderPass := out }

/-- `VulkanHelpers::createGraphicsPipeline`; `t_shaderStages` holds the shader
modules of the two stages. -/
def createGraphicsPipeline (d : Driver) (t_shaderStages : List Handle) : Vk Unit := do
  let c ← Vk.get
  let layout ← Vk.fresh
  let r ← Vk.call d (Call.vkCreatePipelineLayout c.m_device layout)
  Vk.check r (Exn.runtime_error "Failed to create pipeline layout!")
  Vk.modify fun c => { c with m_pipelineLayout := layout }
  let c ← Vk.get
  let pipeline ← Vk.fresh
  let r ← Vk.call d (Call.vkCreateGraphicsPipelines c.m_device c.m_pipelineLayout
    c.m_renderPass t_shaderStages pipeline)
  Vk.check r (Exn.runtime_error "Failed to create graphics pipeline!")
  Vk.modify fun c => { c with m_graphicsPipeline := pipeline }

/-- The loop of `createFramebuffers` from index `i` on, over the image views
not yet visited. -/
def createFramebuffers.loop (d : Driver) : ℕ → List Handle → Vk Unit
  | _, [] => Vk.ret ()
  | i, imageView :: imageViews => do
    let c ← Vk.get
    let out ← Vk.fresh
    let r ← Vk.call d (Call.vkCreateFramebuffer c.m_device c.m_renderPass imageView out)
    Vk.check r (Exn.runtime_error "Failed to create framebuffer!")
    Vk.modify fun c => { c with
      m_swapChainFramebuffers := c.m_swapChainFramebuffers.set i out }
    createFramebuffers.loop d (i + 1) imageViews

/-- `VulkanHelpers::createFramebuffers`. -/
def createFramebuffers (d : Driver) : Vk Unit := do
  Vk.modify fun c => { c with
    m_swapChainFramebuffers :=
      resize c.m_swapChainFramebuffers c.m_swapChainImageViews.length }
  let c ← Vk.get
  createFramebuffers.loop d 0 c.m_swapChainImageViews

/-- `VulkanHelpers::createCommandPool`. -/
def createCommandPool (d : Driver) : Vk Unit := do
  let c ← Vk.get
  let queueFamilyIndices := findQueueFamilies d.queueFamilies
  let graphicsFamily ← Vk.value queueFamilyIndices.m_graphicsFamily
  let out ← Vk.fresh
  let r ← Vk.call d (Call.vkCreateCommandPool c.m_device graphicsFamily out)
  Vk.check r (Exn.runtime_error "Failed to create command pool!")
  Vk.modify fun c => { c with m_commandPool := out }

/-- `VulkanHelpers::createCommandBuffers`: the count passed is the size of the
vector converted to `uint32_t`, and that many handles are written at its
start. -/
def createCommandBuffers (d : Driver) : Vk Unit := do
  Vk.modify fun c => { c with
    m_commandBuffers := resize c.m_commandBuffers c.m_swapChainFramebuffers.length }
  let c ← Vk.get
  let count := c.m_commandBuffers.length % 2 ^ 32
  let out ← Vk.freshN count
  let r ← Vk.call d (Call.vkAllocateCommandBuffers c.m_device c.m_commandPool count out)
  Vk.check r (Exn.runtime_error "Failed to allocate command buffers!")
  Vk.modify fun c => { c with m_commandBuffers := out ++ c.m_commandBuffers.drop count }

/-- The body of the loop of `createSyncObjects` for the slot `i`: the three
creations are the operands of `||`, so the first failure skips the rest. -/
def createSyncObjects.body (d : Driver) (i : ℕ) : Vk Unit := do
  let e := Exn.runtime_error "Failed to create synchronization objects for a frame!"
  let c ← Vk.get
  let imageAvailable ← Vk.fresh
  let r ← Vk.call d (Call.vkCreateSemaphore c.m_device imageAvailable)
  Vk.check r e
  Vk.modify fun c => { c with
    m_imageAvailableSemaphores := c.m_imageAvailableSemaphores.set i imageAvailable }
  let renderFinished ← Vk.fresh
  let r ← Vk.call d (Call.vkCreateSemaphore c.m_device renderFinished)
  Vk.check r e
  Vk.modify fun c => { c with
    m_renderFinishedSemaphores := c.m_renderFinishedSemaphores.set i renderFinished }
  let inFlight ← Vk.fresh
  let r ← Vk.call d (Call.vkCreateFence c.m_device inFlight)
  Vk.check r e
  Vk.modify fun c => { c with m_inFlightFences := c.m_inFlightFences.set i inFlight }

/-- `VulkanHelpers::createSyncObjects`. -/
def createSyncObjects (d : Driver) : Vk Unit := do
  Vk.modify fun c => { c with
    m_imageAvailableSemaphores := resize c.m_imageAvailableSemaphores MAX_FRAMES_IN_FLIGHT
    m_renderFinishedSemaphores := resize c.m_renderFinishedSemaphores MAX_FRAMES_IN_FLIGHT
    m_inFlightFences := resize c.m_inFlightFences MAX_FRAMES_IN_FLIGHT }
  Vk.forEach (createSyncObjects.body d) (List.range MAX_FRAMES_IN_FLIGHT)

/-- `VulkanHelpers::createVertexBuffer`. -/
def createVertexBuffer (d : Driver) : Vk Unit := do
  let c ← Vk.get
  let bufferSize := sizeofVertex * 200
  createBuffer d c.m_device bufferSize VK_BUFFER_USAGE_VERTEX_BUFFER_BIT
    (VK_MEMORY_PROPERTY_HOST_VISIBLE_BIT ||| VK_MEMORY_PROPERTY_HOST_COHERENT_BIT)
    (fun h c => { c with m_vertexBuffer := h })
    (fun h c => { c with m_vertexBufferMemory := h })

end VulkanHelpers

/-- `createShaderModule`, on the size of the code. -/
def createShaderModule (d : Driver) (t_codeSize : ℕ) (t_device : Handle) : Vk Handle := do
  let shaderModule ← Vk.fresh
  let r ← Vk.call d (Call.vkCreateShaderModule t_device t_codeSize shaderModule)
  Vk.check r (Exn.runtime_error "failed to create shader module")
  return shaderModule

/-- `InitVulkan::initialize`. -/
def InitVulkan.initialize (d : Driver) (t_window : Handle) : Vk Unit := do
  if t_window = 0 then
    Vk.raise (Exn.runtime_error
      "GLFW window is null. Ensure the window is created before initializing Vulkan.")
  Vk.modify fun c => { c with m_window := t_window }
  VulkanHelpers.createInstance d
  VulkanHelpers.createSurface d t_window
  VulkanHelpers.pickPhysicalDevice d
  VulkanHelpers.createLogicalDevice d
  VulkanHelpers.createSwapChain d
  VulkanHelpers.createImageViews d
  VulkanHelpers.createRenderPass d
  let vertShaderCode ← readFile d "shaders/vert.spv"
  let fragShaderCode ← readFile d "shaders/frag.spv"
  let c ← Vk.get
  let vertShaderModule ← createShaderModule d vertShaderCode c.m_device
  let fragShaderModule ← createShaderModule d fragShaderCode c.m_device
  let shaderStages := [vertShaderModule, fragShaderModule]
  VulkanHelpers.createGraphicsPipeline d shaderStages
  Vk.exec (Call.vkDestroyShaderModule c.m_device vertShaderModule)
  Vk.exec (Call.vkDestroyShaderModule c.m_device fragShaderModule)
  VulkanHelpers.createGraphicsPipeline d shaderStages
  VulkanHelpers.createFramebuffers d
  VulkanHelpers.createCommandPool d
  VulkanHelpers.createCommandBuffers d
  VulkanHelpers.createSyncObjects d
  VulkanHelpers.createVertexBuffer d

namespace InitVulkan

/-- `InitVulkan::renderFrame`; of the vertices only the number is used, for
the sizes and the draw count. -/
def renderFrame {F : Type} (d : Driver) (t_vertices : List (Vertex F)) : Vk Unit := do
  let c ← Vk.get
  let fence ← Vk.index c.m_inFlightFences c.m_currentFrame
  Vk.exec (Call.vkWaitForFences c.m_device [fence] true UINT64_MAX)
  let imageAvailable ← Vk.index c.m_imageAvailableSemaphores c.m_currentFrame
  let n ← Vk.position
  Vk.exec (Call.vkAcquireNextImageKHR c.m_device c.m_swapChain UINT64_MAX imageAvailable 0)
  let imageIndex := d.imageIndex n
  -- update vertex buffer
  let size := (t_vertices.length * sizeofVertex) % 2 ^ 64
  Vk.exec (Call.vkMapMemory c.m_device c.m_vertexBufferMemory 0 size)
  Vk.exec (Call.memcpy size)
  Vk.exec (Call.vkUnmapMemory c.m_device c.m_vertexBufferMemory)
  -- record command buffer
  let commandBuffer ← Vk.index c.m_commandBuffers imageIndex
  Vk.exec (Call.vkResetCommandBuffer commandBuffer)
  Vk.exec (Call.vkBeginCommandBuffer commandBuffer)
  let framebuffer ← Vk.index c.m_swapChainFramebuffers imageIndex
  let clearColor : List ℚ := [1 / 10, 1 / 10, 1 / 10, 1]
  Vk.exec (Call.vkCmdBeginRenderPass commandBuffer c.m_renderPass framebuffer
    c.m_swapChainExtent [clearColor])
  Vk.exec (Call.vkCmdBindPipeline commandBuffer c.m_graphicsPipeline)
  Vk.exec (Call.vkCmdBindVertexBuffers commandBuffer 0 1 [c.m_vertexBuffer] [0])
  Vk.exec (Call.vkCmdDraw commandBuffer (t_vertices.length % 2 ^ 32) 1 0 0)
  Vk.exec (Call.vkCmdEndRenderPass commandBuffer)
  Vk.exec (Call.vkEndCommandBuffer commandBuffer)
  -- submit command buffer
  let renderFinished ← Vk.index c.m_renderFinishedSemaphores c.m_currentFrame
  Vk.exec (Call.vkResetFences c.m_device [fence])
  let r ← Vk.call d (Call.vkQueueSubmit c.m_graphicsQueue [imageAvailable]
    [VK_PIPELINE_STAGE_COLOR_ATTACHMENT_OUTPUT_BIT] [commandBuffer] [renderFinished] fence)
  VK_CHECK r
  -- present image
  Vk.exec (Call.vkQueuePresentKHR c.m_presentQueue [renderFinished] [c.m_swapChain] [imageIndex])
  Vk.modify fun c => { c with
    m_currentFrame := ((c.m_currentFrame + 1) % 2 ^ 64) % MAX_FRAMES_IN_FLIGHT }

/-- `InitVulkan::cleanup`. -/
def cleanup : Vk Unit := do
  let c ← Vk.get
  Vk.exec (Call.vkDeviceWaitIdle c.m_device)
  Vk.exec (Call.vkDestroyBuffer c.m_device c.m_vertexBuffer)
  Vk.exec (Call.vkFreeMemory c.m_device c.m_vertexBufferMemory)
  Vk.forEach (fun f => Vk.exec (Call.vkDestroyFence c.m_device f))
    c.m_inFlightFences
  Vk.forEach (fun s => Vk.exec (Call.vkDestroySemaphore c.m_device s))
    c.m_renderFinishedSemaphores
  Vk.forEach (fun s => Vk.exec (Call.vkDestroySemaphore c.m_device s))
    c.m_imageAvailableSemaphores
  Vk.exec (Call.vkDestroyCommandPool c.m_device c.m_commandPool)
  Vk.forEach (fun fb => Vk.exec (Call.vkDestroyFramebuffer c.m_device fb))
    c.m_swapChainFramebuffers
  Vk.exec (Call.vkDestroyPipeline c.m_device c.m_graphicsPipeline)
  Vk.exec (Call.vkDestroyPipelineLayout c.m_device c.m_pipelineLayout)
  Vk.exec (Call.vkDestroyRenderPass c.m_device c.m_renderPass)
  Vk.forEach (fun iv => Vk.exec (Call.vkDestroyImageView c.m_device iv))
    c.m_swapChainImageViews
  Vk.exec (Call.vkDestroySwapchainKHR c.m_device c.m_swapChain)
  Vk.exec (Call.vkDestroyDevice c.m_device)
  Vk.exec (Call.vkDestroySurfaceKHR c.m_instance c.m_surface)
  Vk.exec (Call.vkDestroyInstance c.m_instance)

end InitVulkan

/-- `renderFrame` called once for every vertex sequence of `frames`, in
order, as by the loop of `main`. -/
def InitVulkan.renderFrames {F : Type} (d : Driver) (frames : List (List (Vertex F))) :
    Vk Unit :=
  Vk.forEach (InitVulkan.renderFrame d) frames

/-- A backend on which every call succeeds: one device with one queue family
for graphics and presentation, three swapchain images, and the image index
`n % 3` delivered to the acquire at position `n`. -/
def demoDriver : Driver where
  result _ := VK_SUCCESS
  imageIndex n := n % 3
  physicalDevices := [1000]
  queueFamilies := [{ queueFlags := 1, presentOK := true }]
  queue f := 2000 + f
  caps := {
    minImageCount := 2
    maxImageCount := 8
    currentExtent := ⟨800, 600⟩
    minImageExtent := ⟨1, 1⟩
    maxImageExtent := ⟨4096, 4096⟩ }
  formats := [⟨VK_FORMAT_B8G8R8A8_SRGB, VK_COLOR_SPACE_SRGB_NONLINEAR_KHR⟩]
  presentModes := [VK_PRESENT_MODE_FIFO_KHR]
  framebufferSize := (800, 600)
  swapchainImages := [3000, 3001, 3002]
  fileSize _ := some 1024
  memoryRequirements := { size := 1600, memoryTypeBits := 3 }
  memoryProperties := { memoryTypeCount := 2, memoryTypes := [1, 6] }

/-! ### Reading a trace -/

/-- The name of the function called. -/
def Call.name : Call → String
  | .vkCreateInstance .. => "vkCreateInstance"
  | .glfwCreateWindowSurface .. => "glfwCreateWindowSurface"
  | .vkCreateDevice .. => "vkCreateDevice"
  | .vkCreateSwapchainKHR .. => "vkCreateSwapchainKHR"
  | .vkCreateImageView .. => "vkCreateImageView"
  | .vkCreateRenderPass .. => "vkCreateRenderPass"
  | .vkCreateShaderModule .. => "vkCreateShaderModule"
  | .vkCreatePipelineLayout .. => "vkCreatePipelineLayout"
  | .vkCreateGraphicsPipelines .. => "vkCreateGraphicsPipelines"
  | .vkDestroyShaderModule .. => "vkDestroyShaderModule"
  | .vkCreateFramebuffer .. => "vkCreateFramebuffer"
  | .vkCreateCommandPool .. => "vkCreateCommandPool"
  | .vkAllocateCommandBuffers .. => "vkAllocateCommandBuffers"
  | .vkCreateSemaphore .. => "vkCreateSemaphore"
  | .vkCreateFence .. => "vkCreateFence"
  | .vkCreateBuffer .. => "vkCreateBuffer"
  | .vkAllocateMemory .. => "vkAllocateMemory"
  | .vkBindBufferMemory .. => "vkBindBufferMemory"
  | .vkWaitForFences .. => "vkWaitForFences"
  | .vkAcquireNextImageKHR .. => "vkAcquireNextImageKHR"
  | .vkMapMemory .. => "vkMapMemory"
  | .memcpy .. => "memcpy"
  | .vkUnmapMemory .. => "vkUnmapMemory"
  | .vkResetCommandBuffer .. => "vkResetCommandBuffer"
  | .vkBeginCommandBuffer .. => "vkBeginCommandBuffer"
  | .vkCmdBeginRenderPass .. => "vkCmdBeginRenderPass"
  | .vkCmdBindPipeline .. => "vkCmdBindPipeline"
  | .vkCmdBindVertexBuffers .. => "vkCmdBindVertexBuffers"
  | .vkCmdDraw .. => "vkCmdDraw"
  | .vkCmdEndRenderPass .. => "vkCmdEndRenderPass"
  | .vkEndCommandBuffer .. => "vkEndCommandBuffer"
  | .vkResetFences .. => "vkResetFences"
  | .vkQueueSubmit .. => "vkQueueSubmit"
  | .vkQueuePresentKHR .. => "vkQueuePresentKHR"
  | .vkDeviceWaitIdle .. => "vkDeviceWaitIdle"
  | .vkDestroyBuffer .. => "vkDestroyBuffer"
  | .vkFreeMemory .. => "vkFreeMemory"
  | .vkDestroyFence .. => "vkDestroyFence"
  | .vkDestroySemaphore .. => "vkDestroySemaphore"
  | .vkDestroyCommandPool .. => "vkDestroyCommandPool"
  | .vkDestroyFramebuffer .. => "vkDestroyFramebuffer"
  | .vkDestroyPipeline .. => "vkDestroyPipeline"
  | .vkDestroyPipelineLayout .. => "vkDestroyPipelineLayout"
  | .vkDestroyRenderPass .. => "vkDestroyRenderPass"
  | .vkDestroyImageView .. => "vkDestroyImageView"
  | .vkDestroySwapchainKHR .. => "vkDestroySwapchainKHR"
  | .vkDestroyDevice .. => "vkDestroyDevice"
  | .vkDestroySurfaceKHR .. => "vkDestroySurfaceKHR"
  | .vkDestroyInstance .. => "vkDestroyInstance"

/-- The fences and semaphores a call of `renderFrame` is given. -/
def Call.syncObjects : Call → List Handle
  | .vkWaitForFences _ fences _ _ => fences
  | .vkAcquireNextImageKHR _ _ _ semaphore fence => [semaphore, fence].filter (· ≠ 0)
  | .vkResetFences _ fences => fences
  | .vkQueueSubmit _ waitSemaphores _ _ signalSemaphores fence =>
    waitSemaphores ++ signalSemaphores ++ [fence]
  | .vkQueuePresentKHR _ waitSemaphores _ _ => waitSemaphores
  | _ => []

/-- The command buffer a `vkCmd...` call records a command into. -/
def Call.recordsInto : Call → Option Handle
  | .vkCmdBeginRenderPass commandBuffer .. => some commandBuffer
  | .vkCmdBindPipeline commandBuffer .. => some commandBuffer
  | .vkCmdBindVertexBuffers commandBuffer .. => some commandBuffer
  | .vkCmdDraw commandBuffer .. => some commandBuffer
  | .vkCmdEndRenderPass commandBuffer => some commandBuffer
  | _ => none

/-- The resource categories of the teardown sequence of the specification. -/
inductive Category where
  | instance_
  | surface
  | device
  | swapchain
  | imageViews
  | renderPass
  | pipeline
  | framebuffers
  | commandPool
  | syncObjects
  | vertexBuffer
deriving DecidableEq, Repr

/-- The category of the resource a call creates, if it creates one of a
category of the teardown sequence (shader modules and command buffers are in
none). -/
def Call.creates : Call → Option Category
  | .vkCreateInstance .. => some .instance_
  | .glfwCreateWindowSurface .. => some .surface
  | .vkCreateDevice .. => some .device
  | .vkCreateSwapchainKHR .. => some .swapchain
  | .vkCreateImageView .. => some .imageViews
  | .vkCreateRenderPass .. => some .renderPass
  | .vkCreatePipelineLayout .. => some .pipeline
  | .vkCreateGraphicsPipelines .. => some .pipeline
  | .vkCreateFramebuffer .. => some .framebuffers
  | .vkCreateCommandPool .. => some .commandPool
  | .vkCreateSemaphore .. => some .syncObjects
  | .vkCreateFence .. => some .syncObjects
  | .vkCreateBuffer .. => some .vertexBuffer
  | .vkAllocateMemory .. => some .vertexBuffer
  | _ => none

/-- The category of the resource a call destroys or frees, if any. -/
def Call.destroys : Call → Option Category
  | .vkDestroyInstance .. => some .instance_
  | .vkDestroySurfaceKHR .. => some .surface
  | .vkDestroyDevice .. => some .device
  | .vkDestroySwapchainKHR .. => some .swapchain
  | .vkDestroyImageView .. => some .imageViews
  | .vkDestroyRenderPass .. => some .renderPass
  | .vkDestroyPipelineLayout .. => some .pipeline
  | .vkDestroyPipeline .. => some .pipeline
  | .vkDestroyFramebuffer .. => some .framebuffers
  | .vkDestroyCommandPool .. => some .commandPool
  | .vkDestroySemaphore .. => some .syncObjects
  | .vkDestroyFence .. => some .syncObjects
  | .vkDestroyBuffer .. => some .vertexBuffer
  | .vkFreeMemory .. => some .vertexBuffer
  | _ => none

/-- Whether a call destroys or frees an object. -/
def Call.isDestroy : Call → Bool
  | .vkDestroyShaderModule .. => true
  | c => c.destroys.isSome

/-- The handles a call creates: its `out` argument. -/
def Call.created : Call → List Handle
  | .vkCreateInstance out => [out]
  | .glfwCreateWindowSurface _ _ out => [out]
  | .vkCreateDevice _ _ out => [out]
  | .vkCreateSwapchainKHR _ _ _ _ _ _ _ out => [out]
  | .vkCreateImageView _ _ out => [out]
  | .vkCreateRenderPass _ out => [out]
  | .vkCreateShaderModule _ _ out => [out]
  | .vkCreatePipelineLayout _ out => [out]
  | .vkCreateGraphicsPipelines _ _ _ _ out => [out]
  | .vkCreateFramebuffer _ _ _ out => [out]
  | .vkCreateCommandPool _ _ out => [out]
  | .vkAllocateCommandBuffers _ _ _ out => out
  | .vkCreateSemaphore _ out => [out]
  | .vkCreateFence _ out => [out]
  | .vkCreateBuffer _ _ _ out => [out]
  | .vkAllocateMemory _ _ _ out => [out]
  | _ => []

/-- The handle a call destroys or frees, as a list of at most one handle. -/
def Call.destroyed : Call → List Handle
  | .vkDestroyShaderModule _ h => [h]
  | .vkDestroyBuffer _ h => [h]
  | .vkFreeMemory _ h => [h]
  | .vkDestroyFence _ h => [h]
  | .vkDestroySemaphore _ h => [h]
  | .vkDestroyCommandPool _ h => [h]
  | .vkDestroyFramebuffer _ h => [h]
  | .vkDestroyPipeline _ h => [h]
  | .vkDestroyPipelineLayout _ h => [h]
  | .vkDestroyRenderPass _ h => [h]
  | .vkDestroyImageView _ h => [h]
  | .vkDestroySwapchainKHR _ h => [h]
  | .vkDestroyDevice h => [h]
  | .vkDestroySurfaceKHR _ h => [h]
  | .vkDestroyInstance h => [h]
  | _ => []

/-- Merge every run of equal adjacent elements into one element. -/
def mergeAdjacent {α : Type} [DecidableEq α] : List α → List α
  | [] => []
  | [a] => [a]
  | a :: b :: l => if a = b then mergeAdjacent (b :: l) else a :: mergeAdjacent (b :: l)

/-- The categories of the resources the calls of a trace create, in order,
each run of one category taken once. -/
def creationOrder (t : List Call) : List Category := mergeAdjacent (t.filterMap Call.creates)

/-- The categories of the resources the calls of a trace destroy, in order,
each run of one category taken once. -/
def destructionOrder (t : List Call) : List Category :=
  mergeAdjacent (t.filterMap Call.destroys)

/-- The context and handle counter that `initialize` leaves on `demoDriver`
for the window `7`, with an empty trace. -/
def demoMachine : Machine where
  trace := []
  nextHandle := 30
  context := {
    m_instance := 1
    m_surface := 2
    m_physicalDevice := 1000
    m_device := 3
    m_graphicsQueue := 2000
    m_presentQueue := 2000
    m_swapChain := 4
    m_swapChainImages := [3000, 3001, 3002]
    m_swapChainExtent := ⟨800, 600⟩
    m_swapChainImageViews := [5, 6, 7]
    m_renderPass := 8
    m_pipelineLayout := 13
    m_graphicsPipeline := 14
    m_swapChainFramebuffers := [15, 16, 17]
    m_commandPool := 18
    m_commandBuffers := [19, 20, 21]
    m_imageAvailableSemaphores := [22, 25]
    m_renderFinishedSemaphores := [23, 26]
    m_inFlightFences := [24, 27]
    m_currentFrame := 0
    m_vertexBuffer := 28
    m_vertexBufferMemory := 29
    m_window := 7
    m_swapChainImageFormat := 50 }

/-! ### Descriptions used to state the lemmas about the runs -/

/-- The calls of one `renderFrame` up to the submit, for the slot objects
`fence`, `imageAvailable`, `renderFinished`, the command buffer and
framebuffer of the acquired image, and `len` vertices. -/
def frameCalls (c : VulkanContext) (len fence imageAvailable renderFinished commandBuffer
    framebuffer : ℕ) : List Call :=
  [Call.vkWaitForFences c.m_device [fence] true UINT64_MAX,
   Call.vkAcquireNextImageKHR c.m_device c.m_swapChain UINT64_MAX imageAvailable 0,
   Call.vkMapMemory c.m_device c.m_vertexBufferMemory 0 ((len * sizeofVertex) % 2 ^ 64),
   Call.memcpy ((len * sizeofVertex) % 2 ^ 64),
   Call.vkUnmapMemory c.m_device c.m_vertexBufferMemory,
   Call.vkResetCommandBuffer commandBuffer,
   Call.vkBeginCommandBuffer commandBuffer,
   Call.vkCmdBeginRenderPass commandBuffer c.m_renderPass framebuffer c.m_swapChainExtent
     [[1 / 10, 1 / 10, 1 / 10, 1]],
   Call.vkCmdBindPipeline commandBuffer c.m_graphicsPipeline,
   Call.vkCmdBindVertexBuffers commandBuffer 0 1 [c.m_vertexBuffer] [0],
   Call.vkCmdDraw commandBuffer (len % 2 ^ 32) 1 0 0,
   Call.vkCmdEndRenderPass commandBuffer,
   Call.vkEndCommandBuffer commandBuffer,
   Call.vkResetFences c.m_device [fence],
   Call.vkQueueSubmit c.m_graphicsQueue [imageAvailable]
     [VK_PIPELINE_STAGE_COLOR_ATTACHMENT_OUTPUT_BIT] [commandBuffer] [renderFinished] fence]


/-- The calls of `cleanup` on the context `c`. -/
def cleanupCalls (c : VulkanContext) : List Call :=
  [Call.vkDeviceWaitIdle c.m_device,
    Call.vkDestroyBuffer c.m_device c.m_vertexBuffer,
    Call.vkFreeMemory c.m_device c.m_vertexBufferMemory]
  ++ c.m_inFlightFences.map (Call.vkDestroyFence c.m_device)
  ++ c.m_renderFinishedSemaphores.map (Call.vkDestroySemaphore c.m_device)
  ++ c.m_imageAvailableSemaphores.map (Call.vkDestroySemaphore c.m_device)
  ++ [Call.vkDestroyCommandPool c.m_device c.m_commandPool]
  ++ c.m_swapChainFramebuffers.map (Call.vkDestroyFramebuffer c.m_device)
  ++ [Call.vkDestroyPipeline c.m_device c.m_graphicsPipeline,
    Call.vkDestroyPipelineLayout c.m_device c.m_pipelineLayout,
    Call.vkDestroyRenderPass c.m_device c.m_renderPass]
  ++ c.m_swapChainImageViews.map (Call.vkDestroyImageView c.m_device)
  ++ [Call.vkDestroySwapchainKHR c.m_device c.m_swapChain,
    Call.vkDestroyDevice c.m_device,
    Call.vkDestroySurfaceKHR c.m_instance c.m_surface,
    Call.vkDestroyInstance c.m_instance]

/-- The sizes of the vectors of a context that `cleanup` iterates over, and of
the vector of swapchain images. -/
structure Sizes where
  images : ℕ
  imageViews : ℕ
  framebuffers : ℕ
  imageAvailable : ℕ
  renderFinished : ℕ
  inFlight : ℕ
deriving DecidableEq, Repr

/-- The sizes of the vectors of the context `c`. -/
def sizes (c : VulkanContext) : Sizes where
  images := c.m_swapChainImages.length
  imageViews := c.m_swapChainImageViews.length
  framebuffers := c.m_swapChainFramebuffers.length
  imageAvailable := c.m_imageAvailableSemaphores.length
  renderFinished := c.m_renderFinishedSemaphores.length
  inFlight := c.m_inFlightFences.length

/-- What a step of `initialize` that ran from `m` to `m'` did: it recorded
calls that create resources of the categories `cs`, in that order, and
destroyed nothing of a category. -/
def Created (m m' : Machine) (cs : List Category) : Prop :=
  ∃ t, m'.trace = m.trace ++ t ∧ t.filterMap Call.creates = cs

/-! ### Reading further properties off a trace -/

/-- The image count a `vkCreateSwapchainKHR` call asks for (the `minImageCount`
field of its create info). -/
def requestedImageCount : Call → Option ℕ
  | Call.vkCreateSwapchainKHR _ _ minImageCount _ _ _ _ _ => some minImageCount
  | _ => none

/-- The backend `demoDriver`, except that the call recorded at position 15 (the
`vkQueuePresentKHR` of a first frame) returns `VK_ERROR_OUT_OF_DATE_KHR`. -/
def presentOutOfDateDriver : Driver :=
  { demoDriver with
    result := fun n => if n = 15 then VK_ERROR_OUT_OF_DATE_KHR else VK_SUCCESS }

/-- The calls that create or allocate a resource, those whose result code the
creation steps of `initialize` test. -/
def Call.isCreation : Call → Bool
  | .vkCreateInstance .. => true
  | .glfwCreateWindowSurface .. => true
  | .vkCreateDevice .. => true
  | .vkCreateSwapchainKHR .. => true
  | .vkCreateImageView .. => true
  | .vkCreateRenderPass .. => true
  | .vkCreateShaderModule .. => true
  | .vkCreatePipelineLayout .. => true
  | .vkCreateGraphicsPipelines .. => true
  | .vkCreateFramebuffer .. => true
  | .vkCreateCommandPool .. => true
  | .vkAllocateCommandBuffers .. => true
  | .vkCreateSemaphore .. => true
  | .vkCreateFence .. => true
  | .vkCreateBuffer .. => true
  | .vkAllocateMemory .. => true
  | _ => false

/-- In every run of `x`, a creation call to which the driver returns a failure
code is the last call recorded, and `x` raises a `runtime_error`. -/
def AbortsOnFailure {α : Type} (d : Driver) (x : Vk α) : Prop :=
  ∀ m : Machine, ∃ t : List Call, (x m).1.trace = m.trace ++ t ∧
    ∀ (i : ℕ) (c : Call), t[i]? = some c → c.isCreation = true →
      d.result (m.trace.length + i) ≠ VK_SUCCESS →
      t.length = i + 1 ∧ ∃ what, (x m).2 = Except.error (Exn.runtime_error what)

/-- Every call that `x` records, in any run and whatever its outcome, satisfies
`P`. -/
def Issues {α : Type} (P : Call → Prop) (x : Vk α) : Prop :=
  ∀ m : Machine, ∃ t : List Call, (x m).1.trace = m.trace ++ t ∧ ∀ c ∈ t, P c

/-- No run of `x` returns normally. -/
def Stops {α : Type} (x : Vk α) : Prop :=
  ∀ m : Machine, ∃ e, (x m).2 = Except.error e

/-- A failure code of the creation calls. -/
def VK_ERROR_INITIALIZATION_FAILED : VkResult := -3

/-- The backend `demoDriver`, except that the call recorded at position 3 (the
`vkCreateSwapchainKHR` of `initialize`) fails. -/
def swapchainFailDriver : Driver :=
  { demoDriver with
    result := fun n => if n = 3 then VK_ERROR_INITIALIZATION_FAILED else VK_SUCCESS }

/-! ### The program `main` -/

/-- The calls `main` itself makes, by the name of the function called. -/
inductive MainCall where
  | glfwInit
  | glfwWindowHint
  | glfwCreateWindow
  | InitVulkan_initialize
  | glfwWindowShouldClose
  | glfwPollEvents
  | glfwGetTime
  | sine_generateSineWave
  | InitVulkan_renderFrame
  | InitVulkan_cleanup
  | glfwDestroyWindow
  | glfwTerminate
deriving DecidableEq, Repr

/-- What the window system answers to `main`: the result of `glfwInit`, the
window returned by `glfwCreateWindow` (`0` is the null pointer), and the values
`static_cast<float>(glfwGetTime())` of the iterations of the loop, one for every
time `glfwWindowShouldClose` answers false before it answers true. -/
structure Host (F : Type) where
  glfwInit : Bool
  glfwCreateWindow : Handle
  times : List F

/-- The state of a run of `main`: the backend with the `VulkanContext` of
`main`, and the calls `main` has made. -/
structure MainState where
  machine : Machine
  calls : List MainCall

/-- The loop `while (!glfwWindowShouldClose(m_mainWindow))` of `main`, over the
times of its iterations; `half` is the literal `0.5f`. -/
def Trigonometricly.main.loop {F D : Type} (d : Driver) (A : FloatArith F D) (half : F) :
    List F → MainState → MainState × Except Exn Unit
  | [], s => ({ s with calls := s.calls ++ [MainCall.glfwWindowShouldClose] }, Except.ok ())
  | t :: ts, s =>
    let sineVertices := sine.generateSineWave A half A.one t 200
    let calls := s.calls ++ [MainCall.glfwWindowShouldClose, MainCall.glfwPollEvents,
      MainCall.glfwGetTime, MainCall.sine_generateSineWave, MainCall.InitVulkan_renderFrame]
    match InitVulkan.renderFrame d sineVertices s.machine with
    | (m, Except.ok ()) => Trigonometricly.main.loop d A half ts { machine := m, calls := calls }
    | (m, Except.error e) => ({ machine := m, calls := calls }, Except.error e)

/-- The `try` block of `main`. -/
def Trigonometricly.main.tryBlock {F D : Type} (d : Driver) (A : FloatArith F D) (half : F)
    (host : Host F) (s : MainState) : MainState × Except Exn Unit :=
  match InitVulkan.initialize d host.glfwCreateWindow s.machine with
  | (m, Except.error e) =>
    ({ machine := m, calls := s.calls ++ [MainCall.InitVulkan_initialize] }, Except.error e)
  | (m, Except.ok ()) =>
    match Trigonometricly.main.loop d A half host.times
      { machine := m, calls := s.calls ++ [MainCall.InitVulkan_initialize] } with
    | (s', Except.error e) => (s', Except.error e)
    | (s', Except.ok ()) =>
      ({ machine := (InitVulkan.cleanup s'.machine).1,
         calls := s'.calls ++ [MainCall.InitVulkan_cleanup] }, Except.ok ())

/-- The function `main` of `main.cpp`, started on the backend state `backend`: the final
state and the value returned, `none` when the `try` block indexes a vector out
of range, for which C++ defines no behaviour.  The handler
`catch (const std::exception&)` catches both kinds of exception thrown. -/
def Trigonometricly.main {F D : Type} (d : Driver) (A : FloatArith F D) (half : F) (host : Host F)
    (backend : Machine) : MainState × Option ℤ :=
  if host.glfwInit = false then
    ({ machine := backend, calls := [MainCall.glfwInit] }, some (-1))
  else if host.glfwCreateWindow = 0 then
    ({ machine := backend,
       calls := [MainCall.glfwInit, MainCall.glfwWindowHint, MainCall.glfwCreateWindow,
         MainCall.glfwTerminate] }, some (-1))
  else
    match Trigonometricly.main.tryBlock d A half host
      { machine := { backend with context := {} },
        calls := [MainCall.glfwInit, MainCall.glfwWindowHint, MainCall.glfwCreateWindow] } with
    | (s, Except.ok ()) =>
      ({ s with calls := s.calls ++ [MainCall.glfwDestroyWindow, MainCall.glfwTerminate] },
        some 0)
    | (s, Except.error Exn.outOfRange) => (s, none)
    | (s, Except.error _) =>
      ({ machine := (InitVulkan.cleanup s.machine).1,
         calls := s.calls ++ [MainCall.InitVulkan_cleanup, MainCall.glfwDestroyWindow,
           MainCall.glfwTerminate] }, some (-1))

/-- The vertex sequences `main` passes to `renderFrame`, one for every
iteration of its loop. -/
def Trigonometricly.main.frames {F D : Type} (A : FloatArith F D) (half : F) (host : Host F) :
    List (List (Vertex F)) :=
  host.times.map fun t => sine.generateSineWave A half A.one t 200
/-!
## Part 3: proofs

### Rounding
-/

theorem roundNearestEven_intCast (n : ℤ) : roundNearestEven (n : ℚ) = n := by
  simp [roundNearestEven]

theorem roundNearestEven_mono {a b : ℚ} (h : a ≤ b) :
    roundNearestEven a ≤ roundNearestEven b := by
  have hf : ⌊a⌋ ≤ ⌊b⌋ := Int.floor_mono h
  have ha0 : (⌊a⌋ : ℚ) ≤ a := Int.floor_le a
  have hb1 : b < ⌊b⌋ + 1 := Int.lt_floor_add_one b
  rcases hf.lt_or_eq with hlt | heq
  · have h1 : roundNearestEven a ≤ ⌊a⌋ + 1 := by
      unfold roundNearestEven; split_ifs <;> omega
    have h2 : ⌊b⌋ ≤ roundNearestEven b := by
      unfold roundNearestEven; split_ifs <;> omega
    omega
  · unfold roundNearestEven
    rw [heq]
    split_ifs <;> first | omega | (exfalso; linarith)

theorem roundNearestEven_sub_le (a : ℚ) : |(roundNearestEven a : ℚ) - a| ≤ 1 / 2 := by
  have ha0 : (⌊a⌋ : ℚ) ≤ a := Int.floor_le a
  have ha1 : a < ⌊a⌋ + 1 := Int.lt_floor_add_one a
  rw [abs_le]
  unfold roundNearestEven
  split_ifs <;> push_cast <;> constructor <;> linarith

theorem ulp_pos (p : ℕ) (q : ℚ) : 0 < ulp p q := by
  unfold ulp; positivity

theorem ulp_le {p : ℕ} {q : ℚ} (hq : 0 < q) : ulp p q * 2 ^ ((p : ℤ) - 1) ≤ q := by
  unfold ulp
  rw [← zpow_add₀ (by norm_num : (2:ℚ) ≠ 0)]
  have := Int.zpow_log_le_self (b := 2) (by norm_num) hq
  simpa using this

theorem lt_ulp {p : ℕ} (q : ℚ) : q < ulp p q * 2 ^ (p : ℤ) := by
  unfold ulp
  rw [← zpow_add₀ (by norm_num : (2:ℚ) ≠ 0)]
  have := Int.lt_zpow_succ_log_self (b := 2) (by norm_num) q
  have e : Int.log 2 q - ((p : ℤ) - 1) + (p : ℤ) = Int.log 2 q + 1 := by ring
  rw [e]
  simpa using this

theorem two_zpow_natCast_sub_one {p : ℕ} (hp : 1 ≤ p) :
    (2 : ℚ) ^ ((p : ℤ) - 1) = (((2 : ℤ) ^ (p - 1) : ℤ) : ℚ) := by
  have : ((p : ℤ) - 1) = ((p - 1 : ℕ) : ℤ) := by omega
  rw [this, zpow_natCast]; push_cast; rfl

theorem two_zpow_natCast (p : ℕ) : (2 : ℚ) ^ (p : ℤ) = (((2 : ℤ) ^ p : ℤ) : ℚ) := by
  rw [zpow_natCast]; push_cast; rfl

theorem roundPos_of_pos {p : ℕ} {q : ℚ} (hq : 0 < q) :
    roundPos p q = (roundNearestEven (q / ulp p q) : ℚ) * ulp p q := by
  unfold roundPos; rw [if_neg hq.ne']

theorem le_roundPos {p : ℕ} (hp : 1 ≤ p) {q : ℚ} (hq : 0 < q) :
    (2 : ℚ) ^ Int.log 2 q ≤ roundPos p q := by
  rw [roundPos_of_pos hq]
  have hu := ulp_pos p q
  have h1 : (2 : ℚ) ^ ((p : ℤ) - 1) ≤ q / ulp p q := by
    rw [le_div_iff₀ hu, mul_comm]; exact ulp_le hq
  rw [two_zpow_natCast_sub_one hp] at h1
  have h2 := roundNearestEven_mono h1
  rw [roundNearestEven_intCast] at h2
  have h3 : (((2 : ℤ) ^ (p - 1) : ℤ) : ℚ) ≤ (roundNearestEven (q / ulp p q) : ℚ) := by
    exact_mod_cast h2
  have h4 : (2 : ℚ) ^ Int.log 2 q = (((2 : ℤ) ^ (p - 1) : ℤ) : ℚ) * ulp p q := by
    rw [← two_zpow_natCast_sub_one hp]; unfold ulp
    rw [← zpow_add₀ (by norm_num : (2:ℚ) ≠ 0)]; congr 1; ring
  rw [h4]
  exact mul_le_mul_of_nonneg_right h3 hu.le

theorem roundPos_le {p : ℕ} {q : ℚ} (hq : 0 < q) :
    roundPos p q ≤ (2 : ℚ) ^ (Int.log 2 q + 1) := by
  rw [roundPos_of_pos hq]
  have hu := ulp_pos p q
  have h1 : q / ulp p q ≤ (2 : ℚ) ^ (p : ℤ) := by
    rw [div_le_iff₀ hu, mul_comm]; exact (lt_ulp q).le
  rw [two_zpow_natCast p] at h1
  have h2 := roundNearestEven_mono h1
  rw [roundNearestEven_intCast] at h2
  have h3 : (roundNearestEven (q / ulp p q) : ℚ) ≤ (((2 : ℤ) ^ p : ℤ) : ℚ) := by
    exact_mod_cast h2
  have h4 : (2 : ℚ) ^ (Int.log 2 q + 1) = (((2 : ℤ) ^ p : ℤ) : ℚ) * ulp p q := by
    rw [← two_zpow_natCast p]; unfold ulp
    rw [← zpow_add₀ (by norm_num : (2:ℚ) ≠ 0)]; congr 1; ring
  rw [h4]
  exact mul_le_mul_of_nonneg_right h3 hu.le

theorem roundPos_zero (p : ℕ) : roundPos p 0 = 0 := by simp [roundPos]

theorem roundPos_pos {p : ℕ} (hp : 1 ≤ p) {q : ℚ} (hq : 0 < q) : 0 < roundPos p q :=
  lt_of_lt_of_le (by positivity) (le_roundPos hp hq)

theorem roundPos_mono {p : ℕ} (hp : 1 ≤ p) {a b : ℚ} (ha : 0 ≤ a) (hab : a ≤ b) :
    roundPos p a ≤ roundPos p b := by
  rcases ha.lt_or_eq with ha | ha
  · have hb : 0 < b := lt_of_lt_of_le ha hab
    have hlog : Int.log 2 a ≤ Int.log 2 b := Int.log_mono_right ha hab
    rcases hlog.lt_or_eq with hlt | heq
    · calc roundPos p a ≤ (2 : ℚ) ^ (Int.log 2 a + 1) := roundPos_le ha
        _ ≤ (2 : ℚ) ^ Int.log 2 b := zpow_le_zpow_right₀ (by norm_num) (by omega)
        _ ≤ roundPos p b := le_roundPos hp hb
    · have hu : ulp p a = ulp p b := by unfold ulp; rw [heq]
      rw [roundPos_of_pos ha, roundPos_of_pos hb, hu]
      have hup := ulp_pos p b
      apply mul_le_mul_of_nonneg_right _ hup.le
      have : a / ulp p b ≤ b / ulp p b := div_le_div_of_nonneg_right hab hup.le
      exact_mod_cast roundNearestEven_mono this
  · subst ha
    rw [roundPos_zero]
    rcases hab.lt_or_eq with hb | hb
    · exact (roundPos_pos hp hb).le
    · subst hb; rw [roundPos_zero]

theorem roundTo_mono {p : ℕ} (hp : 1 ≤ p) {a b : ℚ} (hab : a ≤ b) :
    roundTo p a ≤ roundTo p b := by
  unfold roundTo
  by_cases ha : a < 0 <;> by_cases hb : b < 0
  · rw [if_pos ha, if_pos hb]
    have := roundPos_mono hp (a := -b) (b := -a) (by linarith) (by linarith)
    linarith
  · rw [if_pos ha, if_neg hb]
    have h1 := roundPos_pos hp (q := -a) (by linarith)
    have h2 := roundPos_mono hp (a := 0) (b := b) le_rfl (by linarith)
    rw [roundPos_zero] at h2
    linarith
  · exfalso; linarith
  · rw [if_neg ha, if_neg hb]
    exact roundPos_mono hp (by linarith) hab

theorem roundPos_two_zpow {p : ℕ} (hp : 1 ≤ p) (k : ℤ) :
    roundPos p ((2 : ℚ) ^ k) = (2 : ℚ) ^ k := by
  have h0 : (0 : ℚ) < 2 ^ k := by positivity
  apply le_antisymm
  · rw [roundPos_of_pos h0]
    have hu : ulp p ((2 : ℚ) ^ k) = (2 : ℚ) ^ (k - ((p : ℤ) - 1)) := by
      unfold ulp
      have := Int.log_zpow (R := ℚ) (b := 2) (by norm_num) k
      simp only [Nat.cast_ofNat] at this
      rw [this]
    rw [hu]
    have hq : (2 : ℚ) ^ k / 2 ^ (k - ((p : ℤ) - 1)) = (((2 : ℤ) ^ (p - 1) : ℤ) : ℚ) := by
      rw [← two_zpow_natCast_sub_one hp, ← zpow_sub₀ (by norm_num : (2:ℚ) ≠ 0)]
      congr 1; ring
    rw [hq, roundNearestEven_intCast, ← two_zpow_natCast_sub_one hp,
      ← zpow_add₀ (by norm_num : (2:ℚ) ≠ 0)]
    apply le_of_eq; congr 1; ring
  · have := le_roundPos hp h0 (p := p)
    have e := Int.log_zpow (R := ℚ) (b := 2) (by norm_num) k
    simp only [Nat.cast_ofNat] at e
    rwa [e] at this

theorem log_two_eq {q : ℚ} {e : ℤ} (hq : 0 < q) (h1 : (2 : ℚ) ^ e ≤ q)
    (h2 : q < (2 : ℚ) ^ (e + 1)) : Int.log 2 q = e := by
  have a := (Int.zpow_le_iff_le_log (R := ℚ) (b := 2) (by norm_num) hq (x := e)).1
    (by simpa using h1)
  have b := (Int.lt_zpow_iff_log_lt (R := ℚ) (b := 2) (by norm_num) hq (x := e + 1)).1
    (by simpa using h2)
  omega

theorem roundPos_eq_of {p : ℕ} {q : ℚ} {e : ℤ} (hq : 0 < q) (h1 : (2 : ℚ) ^ e ≤ q)
    (h2 : q < (2 : ℚ) ^ (e + 1)) :
    roundPos p q = (roundNearestEven (q / 2 ^ (e - ((p : ℤ) - 1))) : ℚ)
      * 2 ^ (e - ((p : ℤ) - 1)) := by
  rw [roundPos_of_pos hq]; unfold ulp; rw [log_two_eq hq h1 h2]

theorem roundPos_sub_le {p : ℕ} {q : ℚ} (hq : 0 ≤ q) :
    |roundPos p q - q| ≤ q * 2 ^ (-(p : ℤ)) := by
  rcases hq.lt_or_eq with hq | hq
  · rw [roundPos_of_pos hq]
    have hu := ulp_pos p q
    have h1 := roundNearestEven_sub_le (q / ulp p q)
    have h2 : (roundNearestEven (q / ulp p q) : ℚ) * ulp p q - q
        = ((roundNearestEven (q / ulp p q) : ℚ) - q / ulp p q) * ulp p q := by
      field_simp
    rw [h2, abs_mul, abs_of_pos hu]
    have h3 : ulp p q * 2 ^ ((p : ℤ) - 1) ≤ q := ulp_le hq
    have h4 : (2 : ℚ) ^ ((p : ℤ) - 1) * 2 ^ (-(p : ℤ)) = 1 / 2 := by
      rw [← zpow_add₀ (by norm_num : (2:ℚ) ≠ 0)]
      have : ((p : ℤ) - 1 + -(p : ℤ)) = -1 := by ring
      rw [this]; norm_num
    have h5 : (0 : ℚ) < 2 ^ (-(p : ℤ)) := by positivity
    calc |(roundNearestEven (q / ulp p q) : ℚ) - q / ulp p q| * ulp p q
        ≤ 1 / 2 * ulp p q := mul_le_mul_of_nonneg_right h1 hu.le
      _ = ulp p q * 2 ^ ((p : ℤ) - 1) * 2 ^ (-(p : ℤ)) := by rw [mul_assoc, h4]; ring
      _ ≤ q * 2 ^ (-(p : ℤ)) := mul_le_mul_of_nonneg_right h3 h5.le
  · subst hq; simp [roundPos_zero]

theorem roundTo_sub_le (p : ℕ) (q : ℚ) : |roundTo p q - q| ≤ |q| * 2 ^ (-(p : ℤ)) := by
  unfold roundTo
  split_ifs with h
  · have := roundPos_sub_le (p := p) (q := -q) (by linarith)
    rw [abs_of_neg h]
    have e : -roundPos p (-q) - q = -(roundPos p (-q) - -q) := by ring
    rw [e, abs_neg]; exact this
  · push_neg at h
    rw [abs_of_nonneg h]; exact roundPos_sub_le h

theorem roundPos_eq_self {p : ℕ} {q : ℚ} (hq : 0 < q) (m : ℤ) (h : q = m * ulp p q) :
    roundPos p q = q := by
  rw [roundPos_of_pos hq]
  have hu := ulp_pos p q
  have : q / ulp p q = (m : ℚ) := by
    rw [div_eq_iff hu.ne']; exact h
  rw [this, roundNearestEven_intCast]; exact h.symm

theorem log_two_mul_two {q : ℚ} (hq : 0 < q) : Int.log 2 (q * 2) = Int.log 2 q + 1 := by
  apply log_two_eq (by positivity)
  · have := Int.zpow_log_le_self (b := 2) (by norm_num) hq
    rw [zpow_add_one₀ (by norm_num : (2:ℚ) ≠ 0)]
    have h2 : ((2:ℕ) : ℚ) = 2 := by norm_num
    rw [h2] at this
    linarith
  · have := Int.lt_zpow_succ_log_self (R := ℚ) (b := 2) (by norm_num) q
    rw [zpow_add_one₀ (by norm_num : (2:ℚ) ≠ 0)]
    have h2 : ((2:ℕ) : ℚ) = 2 := by norm_num
    rw [h2] at this
    linarith

theorem roundPos_mul_two (p : ℕ) {q : ℚ} (hq : 0 ≤ q) :
    roundPos p (q * 2) = roundPos p q * 2 := by
  rcases hq.lt_or_eq with hq | hq
  · have hu : ulp p (q * 2) = ulp p q * 2 := by
      unfold ulp
      rw [log_two_mul_two hq]
      have : Int.log 2 q + 1 - ((p : ℤ) - 1) = Int.log 2 q - ((p : ℤ) - 1) + 1 := by ring
      rw [this, zpow_add_one₀ (by norm_num : (2:ℚ) ≠ 0)]
    rw [roundPos_of_pos hq, roundPos_of_pos (by positivity), hu]
    have hup := ulp_pos p q
    have : q * 2 / (ulp p q * 2) = q / ulp p q := by field_simp; ring
    rw [this]; ring
  · subst hq; simp [roundPos_zero]

theorem roundPos_idem {p : ℕ} (hp : 1 ≤ p) {q : ℚ} (hq : 0 ≤ q) :
    roundPos p (roundPos p q) = roundPos p q := by
  rcases hq.lt_or_eq with hq | hq
  · have hlo := le_roundPos hp hq
    have hhi := roundPos_le (p := p) hq
    have hpos := roundPos_pos hp hq
    rcases hhi.lt_or_eq with hlt | heq
    · have hlog : Int.log 2 (roundPos p q) = Int.log 2 q := log_two_eq hpos hlo hlt
      apply roundPos_eq_self hpos (roundNearestEven (q / ulp p q))
      have : ulp p (roundPos p q) = ulp p q := by unfold ulp; rw [hlog]
      rw [this]; exact roundPos_of_pos hq
    · rw [heq]; exact roundPos_two_zpow hp _
  · subst hq; simp [roundPos_zero]

theorem roundPos_natCast (n : ℕ) (hn : n ≤ 2 ^ 24) : roundPos 24 (n : ℚ) = n := by
  rcases Nat.eq_zero_or_pos n with h0 | hpos
  · subst h0; simp [roundPos_zero]
  rcases hn.lt_or_eq with hlt | heq
  · have hq : (0 : ℚ) < n := by exact_mod_cast hpos
    have hlog : Int.log 2 (n : ℚ) < 24 := by
      apply (Int.lt_zpow_iff_log_lt (R := ℚ) (b := 2) (by norm_num) hq (x := 24)).1
      have : (n : ℚ) < 2 ^ (24 : ℤ) := by
        rw [show ((24 : ℤ)) = ((24 : ℕ) : ℤ) from rfl, zpow_natCast]; exact_mod_cast hlt
      simpa using this
    have hlog0 : 0 ≤ Int.log 2 (n : ℚ) := by
      apply (Int.zpow_le_iff_le_log (R := ℚ) (b := 2) (by norm_num) hq (x := 0)).1
      have : (1 : ℚ) ≤ n := by exact_mod_cast hpos
      simpa using this
    obtain ⟨k, hk⟩ : ∃ k : ℕ, (k : ℤ) = 23 - Int.log 2 (n : ℚ) :=
      ⟨(23 - Int.log 2 (n : ℚ)).toNat, by omega⟩
    apply roundPos_eq_self hq ((n : ℤ) * 2 ^ k)
    unfold ulp
    have e : Int.log 2 (n : ℚ) - (((24 : ℕ) : ℤ) - 1) = -(k : ℤ) := by
      rw [hk]; push_cast; ring
    rw [e, zpow_neg, zpow_natCast]
    push_cast
    field_simp
  · subst heq
    have := roundPos_two_zpow (p := 24) (by norm_num) 24
    norm_num at this ⊢
    exact this

theorem roundTo_of_nonneg (p : ℕ) {q : ℚ} (hq : 0 ≤ q) : roundTo p q = roundPos p q := by
  unfold roundTo; rw [if_neg (not_lt.2 hq)]

theorem roundTo_zero (p : ℕ) : roundTo p 0 = 0 := by
  rw [roundTo_of_nonneg p le_rfl, roundPos_zero]

theorem roundTo_neg (p : ℕ) (q : ℚ) : roundTo p (-q) = -roundTo p q := by
  rcases lt_trichotomy q 0 with h | h | h
  · unfold roundTo
    rw [if_neg (by linarith), if_pos h, neg_neg]
  · subst h; simp [roundTo_zero]
  · unfold roundTo
    rw [if_pos (by linarith), if_neg (by linarith), neg_neg]

theorem roundTo_one {p : ℕ} (hp : 1 ≤ p) : roundTo p 1 = 1 := by
  rw [roundTo_of_nonneg p zero_le_one]
  simpa using roundPos_two_zpow hp 0

theorem roundTo_two {p : ℕ} (hp : 1 ≤ p) : roundTo p 2 = 2 := by
  rw [roundTo_of_nonneg p zero_le_two]
  simpa using roundPos_two_zpow hp 1

theorem roundTo_nonneg {p : ℕ} (hp : 1 ≤ p) {q : ℚ} (hq : 0 ≤ q) : 0 ≤ roundTo p q := by
  have := roundTo_mono hp hq
  rwa [roundTo_zero] at this

theorem roundTo_pos {p : ℕ} (hp : 1 ≤ p) {q : ℚ} (hq : 0 < q) : 0 < roundTo p q := by
  rw [roundTo_of_nonneg p hq.le]; exact roundPos_pos hp hq

theorem roundTo_mul_two (p : ℕ) (q : ℚ) : roundTo p (q * 2) = roundTo p q * 2 := by
  rcases lt_or_le q 0 with h | h
  · have e : q * 2 = -(-q * 2) := by ring
    have e2 : q = - -q := by ring
    rw [e, roundTo_neg, roundTo_of_nonneg p (by linarith), roundPos_mul_two p (by linarith)]
    conv_rhs => rw [e2, roundTo_neg, roundTo_of_nonneg p (by linarith : (0:ℚ) ≤ -q)]
    ring
  · rw [roundTo_of_nonneg p h, roundTo_of_nonneg p (by linarith), roundPos_mul_two p h]

theorem roundTo_idem {p : ℕ} (hp : 1 ≤ p) (q : ℚ) : roundTo p (roundTo p q) = roundTo p q := by
  rcases lt_or_le q 0 with h | h
  · have e2 : q = - -q := by ring
    rw [e2, roundTo_neg, roundTo_neg, roundTo_of_nonneg p (by linarith : (0:ℚ) ≤ -q),
      roundTo_of_nonneg p (roundPos_pos hp (by linarith)).le, roundPos_idem hp (by linarith)]
  · rw [roundTo_of_nonneg p h, roundTo_of_nonneg p, roundPos_idem hp h]
    rw [← roundTo_of_nonneg p h]; exact roundTo_nonneg hp h

theorem roundTo_intCast_ge_one {n : ℤ} (hn : 1 ≤ n) : 1 ≤ roundTo 24 (n : ℚ) := by
  have h : (1 : ℚ) ≤ (n : ℚ) := by exact_mod_cast hn
  have := roundTo_mono (p := 24) (by norm_num) h
  rwa [roundTo_one (by norm_num)] at this

/-! ### The x-coordinates of the sampler -/

theorem xValue_eq (N i : ℤ) :
    sine.xValue N i = roundTo 24 (roundTo 24
      (roundTo 24 (i : ℚ) / roundTo 24 ((N - 1 : ℤ) : ℚ)) * 2 - 1) := by
  unfold sine.xValue
  rw [roundTo_mul_two, roundTo_idem (by norm_num)]

theorem xValue_first (N : ℤ) : sine.xValue N 0 = -1 := by
  rw [xValue_eq]
  simp only [Int.cast_zero, roundTo_zero, zero_div, zero_mul, zero_sub]
  rw [roundTo_neg, roundTo_one (by norm_num)]

theorem xValue_last {N : ℤ} (hN : 2 ≤ N) : sine.xValue N (N - 1) = 1 := by
  rw [xValue_eq]
  have h := roundTo_intCast_ge_one (n := N - 1) (by omega)
  have hne : roundTo 24 ((N - 1 : ℤ) : ℚ) ≠ 0 := by linarith
  rw [div_self hne, roundTo_one (by norm_num)]
  norm_num
  exact roundTo_one (by norm_num)

theorem xValue_mono {N : ℤ} (hN : 2 ≤ N) {i j : ℤ} (hij : i ≤ j) :
    sine.xValue N i ≤ sine.xValue N j := by
  rw [xValue_eq, xValue_eq]
  have h := roundTo_intCast_ge_one (n := N - 1) (by omega)
  have hpos : (0 : ℚ) < roundTo 24 ((N - 1 : ℤ) : ℚ) := by linarith
  have h1 : roundTo 24 (i : ℚ) ≤ roundTo 24 (j : ℚ) :=
    roundTo_mono (by norm_num) (by exact_mod_cast hij)
  have h2 := div_le_div_of_nonneg_right h1 hpos.le
  have h3 := roundTo_mono (p := 24) (by norm_num) h2
  apply roundTo_mono (by norm_num)
  linarith

theorem roundTo_intCast {n : ℤ} (h0 : 0 ≤ n) (hn : n ≤ 2 ^ 24) : roundTo 24 (n : ℚ) = n := by
  obtain ⟨k, rfl⟩ := Int.eq_ofNat_of_zero_le h0
  rw [roundTo_of_nonneg 24 (by exact_mod_cast h0)]
  have hk : k ≤ 2 ^ 24 := by exact_mod_cast hn
  simpa using roundPos_natCast k hk

theorem roundTo_sub_le_of_abs_le_one (q : ℚ) (hq : |q| ≤ 1) :
    |roundTo 24 q - q| ≤ 1 / 16777216 := by
  have h := roundTo_sub_le 24 q
  have e : (2 : ℚ) ^ (-((24 : ℕ) : ℤ)) = 1 / 16777216 := by norm_num [zpow_neg]
  rw [e] at h
  have : |q| * (1 / 16777216) ≤ 1 * (1 / 16777216) :=
    mul_le_mul_of_nonneg_right hq (by norm_num)
  linarith

theorem xValue_sub_le {N : ℤ} (hN : 2 ≤ N) (hN' : N ≤ 2 ^ 24 + 1) {i : ℤ} (h0 : 0 ≤ i)
    (hi : i < N) :
    |sine.xValue N i - (2 * (i : ℚ) / ((N : ℚ) - 1) - 1)| ≤ 3 / 16777216 := by
  rw [xValue_eq, roundTo_intCast h0 (by omega), roundTo_intCast (by omega) (by omega)]
  have hd : (0 : ℚ) < ((N - 1 : ℤ) : ℚ) := by exact_mod_cast (by omega : 0 < N - 1)
  have hi0 : (0 : ℚ) ≤ (i : ℚ) := by exact_mod_cast h0
  have hiN : (i : ℚ) ≤ ((N - 1 : ℤ) : ℚ) := by exact_mod_cast (by omega : i ≤ N - 1)
  have hr0 : 0 ≤ (i : ℚ) / ((N - 1 : ℤ) : ℚ) := div_nonneg hi0 hd.le
  have hr1 : (i : ℚ) / ((N - 1 : ℤ) : ℚ) ≤ 1 := (div_le_one hd).2 hiN
  have hq0 := roundTo_nonneg (p := 24) (by norm_num) hr0
  have hq1 := roundTo_mono (p := 24) (by norm_num) hr1
  rw [roundTo_one (by norm_num)] at hq1
  have e1 := roundTo_sub_le_of_abs_le_one _ (by rw [abs_le]; constructor <;> linarith :
    |(i : ℚ) / ((N - 1 : ℤ) : ℚ)| ≤ 1)
  have e2 := roundTo_sub_le_of_abs_le_one
    (roundTo 24 ((i : ℚ) / ((N - 1 : ℤ) : ℚ)) * 2 - 1) (by rw [abs_le]; constructor <;> linarith)
  have hc : ((N : ℚ) - 1) = ((N - 1 : ℤ) : ℚ) := by push_cast; ring
  rw [hc, mul_div_assoc]
  rw [abs_le] at e1 e2 ⊢
  constructor <;> linarith [e1.1, e1.2, e2.1, e2.2]

theorem xValue_strictMono {N : ℤ} (hN : 2 ≤ N) (hN' : N ≤ 2 ^ 22 + 1) {i j : ℤ} (h0 : 0 ≤ i)
    (hij : i < j) (hj : j < N) : sine.xValue N i < sine.xValue N j := by
  have ei := xValue_sub_le hN (by omega) h0 (by omega : i < N)
  have ej := xValue_sub_le hN (by omega) (by omega : 0 ≤ j) hj
  have hd : (0 : ℚ) < (N : ℚ) - 1 := by
    have : (0 : ℚ) < ((N - 1 : ℤ) : ℚ) := by exact_mod_cast (by omega : 0 < N - 1)
    push_cast at this; linarith
  have hd' : (N : ℚ) - 1 ≤ 4194304 := by
    have : ((N : ℤ) : ℚ) ≤ ((2 ^ 22 + 1 : ℤ) : ℚ) := by exact_mod_cast hN'
    push_cast at this; linarith
  have hstep : (1 : ℚ) / 4194304 ≤ ((j : ℚ) - i) / ((N : ℚ) - 1) := by
    have h1 : (1 : ℚ) ≤ (j : ℚ) - i := by
      have : ((i + 1 : ℤ) : ℚ) ≤ (j : ℚ) := by exact_mod_cast (by omega : i + 1 ≤ j)
      push_cast at this; linarith
    rw [div_le_div_iff₀ (by norm_num) hd]
    nlinarith
  have hsplit : 2 * (j : ℚ) / ((N : ℚ) - 1) - 2 * (i : ℚ) / ((N : ℚ) - 1)
      = 2 * (((j : ℚ) - i) / ((N : ℚ) - 1)) := by field_simp; ring
  rw [abs_le] at ei ej
  linarith [ei.1, ei.2, ej.1, ej.2]

/-! ### The sampler over IEEE-754 arithmetic computes `xValue` -/

theorem abs_roundTo {p : ℕ} (hp : 1 ≤ p) (q : ℚ) : |roundTo p q| = roundTo p |q| := by
  rcases lt_or_le q 0 with h | h
  · have e2 : q = - -q := by ring
    rw [abs_of_neg h]
    conv_lhs => rw [e2, roundTo_neg]
    rw [abs_neg, abs_of_nonneg (roundTo_nonneg hp (by linarith))]
  · rw [abs_of_nonneg h, abs_of_nonneg (roundTo_nonneg hp h)]

theorem abs_roundTo_le {p : ℕ} (hp : 1 ≤ p) {q : ℚ} {k : ℤ} (h : |q| ≤ (2 : ℚ) ^ k) :
    |roundTo p q| ≤ (2 : ℚ) ^ k := by
  rw [abs_roundTo hp q]
  have := roundTo_mono hp h
  rwa [roundTo_of_nonneg p (by positivity : (0 : ℚ) ≤ 2 ^ k), roundPos_two_zpow hp] at this

theorem le_roundTo {p : ℕ} (hp : 1 ≤ p) {q : ℚ} {k : ℤ} (h : (2 : ℚ) ^ k ≤ q) :
    (2 : ℚ) ^ k ≤ roundTo p q := by
  have := roundTo_mono hp h
  rwa [roundTo_of_nonneg p (by positivity : (0 : ℚ) ≤ 2 ^ k), roundPos_two_zpow hp] at this

theorem round32_eq {q : ℚ} (h : q = 0 ∨ (2 : ℚ) ^ (-126 : ℤ) ≤ |q|)
    (h2 : |q| ≤ (2 : ℚ) ^ (127 : ℤ)) : round32 q = some (roundTo 24 q) := by
  unfold round32 roundFinite
  have hlt : (2 : ℚ) ^ (127 : ℤ) < (2 : ℚ) ^ (128 : ℤ) :=
    zpow_lt_zpow_right₀ (by norm_num) (by norm_num)
  rcases h with h | h
  · subst h
    have : |(0 : ℚ)| < (2 : ℚ) ^ (-126 : ℤ) := by rw [abs_zero]; positivity
    simp only [this, if_true, zero_div, roundNearestEven_intCast]
    have h0 : roundNearestEven 0 = 0 := by simpa using roundNearestEven_intCast 0
    simp only [h0, roundTo_zero, Int.cast_zero, zero_mul, abs_zero]
    rw [if_pos (by positivity)]
  · simp only [not_lt.2 h, if_false]
    have := abs_roundTo_le (p := 24) (by norm_num) h2
    rw [if_pos (lt_of_le_of_lt this hlt)]

theorem roundPos_grid {p : ℕ} {q : ℚ} {k : ℤ} (hq : 0 < q) (hk : (2 : ℚ) ^ k ≤ q) :
    ∃ M : ℤ, roundPos p q = M * (2 : ℚ) ^ (k - ((p : ℤ) - 1)) := by
  have hL : k ≤ Int.log 2 q :=
    (Int.zpow_le_iff_le_log (R := ℚ) (b := 2) (by norm_num) hq (x := k)).1 (by simpa using hk)
  obtain ⟨n, hn⟩ : ∃ n : ℕ, (n : ℤ) = Int.log 2 q - k := ⟨(Int.log 2 q - k).toNat, by omega⟩
  refine ⟨roundNearestEven (q / ulp p q) * 2 ^ n, ?_⟩
  rw [roundPos_of_pos hq]
  have : ulp p q = (2 : ℚ) ^ (n : ℤ) * (2 : ℚ) ^ (k - ((p : ℤ) - 1)) := by
    unfold ulp
    rw [← zpow_add₀ (by norm_num : (2:ℚ) ≠ 0), hn]; congr 1; ring
  rw [this, zpow_natCast]; push_cast; ring

theorem two_zpow_le_of_le {a b : ℤ} (h : a ≤ b) : (2 : ℚ) ^ a ≤ (2 : ℚ) ^ b :=
  zpow_le_zpow_right₀ (by norm_num) h

theorem round32_intCast {n : ℤ} (h0 : 0 ≤ n) (hn : n ≤ 2 ^ 31) :
    round32 (n : ℚ) = some (roundTo 24 (n : ℚ)) := by
  apply round32_eq
  · rcases h0.lt_or_eq with h | h
    · right
      have h1 : (1 : ℚ) ≤ (n : ℚ) := by exact_mod_cast (by omega : 1 ≤ n)
      rw [abs_of_nonneg (by linarith)]
      have := two_zpow_le_of_le (by norm_num : (-126 : ℤ) ≤ 0)
      rw [zpow_zero] at this; linarith
    · left; subst h; simp
  · have h1 : (n : ℚ) ≤ 2 ^ (31 : ℤ) := by
      rw [show ((31 : ℤ)) = ((31 : ℕ) : ℤ) from rfl, zpow_natCast]; exact_mod_cast hn
    rw [abs_of_nonneg (by exact_mod_cast h0)]
    exact le_trans h1 (two_zpow_le_of_le (by norm_num))

theorem sample_x_ieee (sinf : ℚ → ℚ) (a f ph : Option ℚ) {N i : ℤ} (hN : 2 ≤ N)
    (hN' : N ≤ 2 ^ 31) (h0 : 0 ≤ i) (hi : i < N) :
    (sine.sample (ieee sinf) a f ph N i).x = some (sine.xValue N i) := by
  have hp : 1 ≤ 24 := by norm_num
  have e126 : (2 : ℚ) ^ (-126 : ℤ) ≤ (2 : ℚ) ^ (-53 : ℤ) := two_zpow_le_of_le (by norm_num)
  have e53 : (2 : ℚ) ^ (-53 : ℤ) ≤ (2 : ℚ) ^ (-31 : ℤ) := two_zpow_le_of_le (by norm_num)
  have e127 : (2 : ℚ) ≤ (2 : ℚ) ^ (127 : ℤ) := by
    have := two_zpow_le_of_le (by norm_num : (1 : ℤ) ≤ 127); simpa using this
  -- the two converted integers
  have hFI := round32_intCast h0 (by omega : i ≤ 2 ^ 31)
  have hFN := round32_intCast (by omega : 0 ≤ N - 1) (by omega : N - 1 ≤ 2 ^ 31)
  have hFN1 : 1 ≤ roundTo 24 ((N - 1 : ℤ) : ℚ) := roundTo_intCast_ge_one (by omega)
  have hFN31 : roundTo 24 ((N - 1 : ℤ) : ℚ) ≤ (2 : ℚ) ^ (31 : ℤ) := by
    have h1 : ((N - 1 : ℤ) : ℚ) ≤ 2 ^ (31 : ℤ) := by
      rw [show ((31 : ℤ)) = ((31 : ℕ) : ℤ) from rfl, zpow_natCast]
      exact_mod_cast (by omega : N - 1 ≤ 2 ^ 31)
    have := roundTo_mono hp h1
    rwa [roundTo_of_nonneg 24 (by positivity : (0 : ℚ) ≤ 2 ^ (31 : ℤ)),
      roundPos_two_zpow hp] at this
  have hFI0 : 0 ≤ roundTo 24 (i : ℚ) := roundTo_nonneg hp (by exact_mod_cast h0)
  have hFIle : roundTo 24 (i : ℚ) ≤ roundTo 24 ((N - 1 : ℤ) : ℚ) :=
    roundTo_mono hp (by exact_mod_cast (by omega : i ≤ N - 1))
  have hFI1 : roundTo 24 (i : ℚ) = 0 ∨ 1 ≤ roundTo 24 (i : ℚ) := by
    rcases h0.lt_or_eq with h | h
    · right; exact roundTo_intCast_ge_one (by omega)
    · left; subst h; simp [roundTo_zero]
  -- the quotient
  set FI := roundTo 24 (i : ℚ) with hFIdef
  set FN := roundTo 24 ((N - 1 : ℤ) : ℚ) with hFNdef
  have hFNpos : 0 < FN := by linarith
  have hr0 : 0 ≤ FI / FN := div_nonneg hFI0 hFNpos.le
  have hr1 : FI / FN ≤ 1 := (div_le_one hFNpos).2 hFIle
  have hrlow : FI / FN = 0 ∨ (2 : ℚ) ^ (-31 : ℤ) ≤ FI / FN := by
    rcases hFI1 with h | h
    · left; rw [h, zero_div]
    · right
      rw [le_div_iff₀ hFNpos]
      have e : (2 : ℚ) ^ (-31 : ℤ) * (2 : ℚ) ^ (31 : ℤ) = 1 := by
        rw [← zpow_add₀ (by norm_num : (2:ℚ) ≠ 0)]; norm_num
      have hpos31 : (0 : ℚ) < (2 : ℚ) ^ (-31 : ℤ) := by positivity
      calc (2 : ℚ) ^ (-31 : ℤ) * FN ≤ (2 : ℚ) ^ (-31 : ℤ) * (2 : ℚ) ^ (31 : ℤ) :=
            mul_le_mul_of_nonneg_left hFN31 hpos31.le
        _ = 1 := e
        _ ≤ FI := h
  have hQ : round32 (FI / FN) = some (roundTo 24 (FI / FN)) := by
    apply round32_eq
    · rcases hrlow with h | h
      · left; exact h
      · right; rw [abs_of_nonneg hr0]; linarith
    · rw [abs_of_nonneg hr0]; linarith
  set Q := roundTo 24 (FI / FN) with hQdef
  have hQ0 : 0 ≤ Q := roundTo_nonneg hp hr0
  have hQ1 : Q ≤ 1 := by
    have := roundTo_mono hp hr1; rwa [roundTo_one hp] at this
  have hQlow : Q = 0 ∨ (2 : ℚ) ^ (-31 : ℤ) ≤ Q := by
    rcases hrlow with h | h
    · left; rw [hQdef, h, roundTo_zero]
    · right; exact le_roundTo hp h
  -- the doubling
  have hM : round32 (Q * 2) = some (roundTo 24 (Q * 2)) := by
    apply round32_eq
    · rcases hQlow with h | h
      · left; rw [h, zero_mul]
      · right; rw [abs_of_nonneg (by linarith)]; linarith
    · rw [abs_of_nonneg (by linarith)]; linarith
  have hMeq : roundTo 24 (Q * 2) = Q * 2 := by
    rw [roundTo_mul_two, hQdef, roundTo_idem hp]
  -- the subtraction
  have hT : round32 (Q * 2 - 1) = some (roundTo 24 (Q * 2 - 1)) := by
    apply round32_eq
    · rcases hQlow with h | h
      · right; rw [h]; norm_num
      · have hpos31 : (0 : ℚ) < (2 : ℚ) ^ (-31 : ℤ) := by positivity
        have hlow : (2 : ℚ) ^ (-31 : ℤ) ≤ FI / FN := by
          rcases hrlow with h' | h'
          · exfalso
            rw [hQdef, h', roundTo_zero] at h
            linarith
          · exact h'
        have hpos : 0 < FI / FN := lt_of_lt_of_le hpos31 hlow
        obtain ⟨K, hK⟩ := roundPos_grid (p := 24) hpos hlow
        rw [← roundTo_of_nonneg 24 hr0, ← hQdef] at hK
        have e54 : (2 : ℚ) ^ (-31 - (((24 : ℕ) : ℤ) - 1)) = (2 : ℚ) ^ (-54 : ℤ) := by norm_num
        rw [e54] at hK
        have hform : Q * 2 - 1 = ((K - 2 ^ 53 : ℤ) : ℚ) * (2 : ℚ) ^ (-53 : ℤ) := by
          rw [hK]; push_cast
          have : (2 : ℚ) ^ (-54 : ℤ) * 2 = (2 : ℚ) ^ (-53 : ℤ) := by
            rw [← zpow_add_one₀ (by norm_num : (2:ℚ) ≠ 0)]; norm_num
          have h53 : (2 : ℚ) ^ (53 : ℕ) * (2 : ℚ) ^ (-53 : ℤ) = 1 := by
            rw [← zpow_natCast, ← zpow_add₀ (by norm_num : (2:ℚ) ≠ 0)]; norm_num
          calc (K : ℚ) * (2 : ℚ) ^ (-54 : ℤ) * 2 - 1
              = (K : ℚ) * ((2 : ℚ) ^ (-54 : ℤ) * 2) - 1 := by ring
            _ = (K : ℚ) * (2 : ℚ) ^ (-53 : ℤ) - (2 : ℚ) ^ (53 : ℕ) * (2 : ℚ) ^ (-53 : ℤ) := by
                rw [this, h53]
            _ = ((K : ℚ) - 2 ^ 53) * (2 : ℚ) ^ (-53 : ℤ) := by ring
        by_cases hz : K - 2 ^ 53 = 0
        · left; rw [hform, hz]; simp
        · right
          rw [hform, abs_mul, abs_of_pos (by positivity : (0 : ℚ) < (2 : ℚ) ^ (-53 : ℤ))]
          have h1 : (1 : ℚ) ≤ |((K - 2 ^ 53 : ℤ) : ℚ)| := by
            rw [← Int.cast_abs]
            exact_mod_cast Int.one_le_abs hz
          have hpos53 : (0 : ℚ) < (2 : ℚ) ^ (-53 : ℤ) := by positivity
          nlinarith
    · rw [abs_le]; constructor <;> linarith
  -- assemble
  show (ieee sinf).subF ((ieee sinf).mulF ((ieee sinf).divF ((ieee sinf).ofInt i)
    ((ieee sinf).ofInt (N - 1))) (ieee sinf).two) (ieee sinf).one = some (sine.xValue N i)
  simp only [ieee]
  rw [hFI, hFN]
  simp only [Option.some_bind, if_neg hFNpos.ne', hQ, hM, hMeq, hT]
  unfold sine.xValue
  rw [← hFIdef, ← hFNdef, ← hQdef, hMeq]

theorem roundNearestEven_eq_of_lt {q : ℚ} {m : ℤ} (h1 : (m : ℚ) - 1 / 2 < q)
    (h2 : q < (m : ℚ) + 1 / 2) : roundNearestEven q = m := by
  have h := roundNearestEven_sub_le q
  rw [abs_le] at h
  have a : ((roundNearestEven q - m : ℤ) : ℚ) < 1 := by push_cast; linarith [h.2]
  have b : (-1 : ℚ) < ((roundNearestEven q - m : ℤ) : ℚ) := by push_cast; linarith [h.1]
  have a' : roundNearestEven q - m < 1 := by exact_mod_cast a
  have b' : -1 < roundNearestEven q - m := by exact_mod_cast b
  omega

theorem roundTo_one_third : roundTo 24 (1 / 3) = 11184811 / 33554432 := by
  rw [roundTo_of_nonneg 24 (by norm_num),
    roundPos_eq_of (e := -2) (by norm_num) (by norm_num) (by norm_num),
    roundNearestEven_eq_of_lt (m := 11184811) (by norm_num) (by norm_num)]
  norm_num

theorem roundTo_two_thirds : roundTo 24 (2 / 3) = 11184811 / 16777216 := by
  rw [roundTo_of_nonneg 24 (by norm_num),
    roundPos_eq_of (e := -1) (by norm_num) (by norm_num) (by norm_num),
    roundNearestEven_eq_of_lt (m := 11184811) (by norm_num) (by norm_num)]
  norm_num

theorem roundTo_16777217 : roundTo 24 16777217 = 16777216 := by
  rw [roundTo_of_nonneg 24 (by norm_num),
    roundPos_eq_of (e := 24) (by norm_num) (by norm_num) (by norm_num)]
  have hf : ⌊(16777217 / 2 : ℚ)⌋ = 8388608 := by norm_num [Int.floor_eq_iff]
  norm_num [roundNearestEven, hf]

theorem xValue_4_1 : sine.xValue 4 1 = -5592405 / 16777216 := by
  rw [xValue_eq]
  have h1 : roundTo 24 ((1 : ℤ) : ℚ) = 1 := by simpa using roundTo_intCast (n := 1) (by norm_num) (by norm_num)
  have h3 : roundTo 24 ((4 - 1 : ℤ) : ℚ) = 3 := by simpa using roundTo_intCast (n := 3) (by norm_num) (by norm_num)
  rw [h1, h3, roundTo_one_third]
  have e : (11184811 / 33554432 : ℚ) * 2 - 1 = -(5592405 / 16777216) := by norm_num
  rw [e, roundTo_neg, roundTo_of_nonneg 24 (by norm_num),
    roundPos_eq_of (e := -2) (by norm_num) (by norm_num) (by norm_num),
    roundNearestEven_eq_of_lt (m := 11184810) (by norm_num) (by norm_num)]
  norm_num

theorem xValue_4_2 : sine.xValue 4 2 = 2796203 / 8388608 := by
  rw [xValue_eq]
  have h1 : roundTo 24 ((2 : ℤ) : ℚ) = 2 := by simpa using roundTo_intCast (n := 2) (by norm_num) (by norm_num)
  have h3 : roundTo 24 ((4 - 1 : ℤ) : ℚ) = 3 := by simpa using roundTo_intCast (n := 3) (by norm_num) (by norm_num)
  rw [h1, h3, roundTo_two_thirds]
  have e : (11184811 / 16777216 : ℚ) * 2 - 1 = 2796203 / 8388608 := by norm_num
  rw [e, roundTo_of_nonneg 24 (by norm_num),
    roundPos_eq_of (e := -2) (by norm_num) (by norm_num) (by norm_num),
    roundNearestEven_eq_of_lt (m := 11184812) (by norm_num) (by norm_num)]
  norm_num

theorem roundTo_three_quarters : roundTo 24 (3 / 4) = 3 / 4 := by
  rw [roundTo_of_nonneg 24 (by norm_num),
    roundPos_eq_of (e := -1) (by norm_num) (by norm_num) (by norm_num),
    roundNearestEven_eq_of_lt (m := 12582912) (by norm_num) (by norm_num)]
  norm_num

theorem roundTo_half : roundTo 24 (1 / 2) = 1 / 2 := by
  rw [roundTo_of_nonneg 24 (by norm_num)]
  simpa using roundPos_two_zpow (p := 24) (by norm_num) (-1)

theorem roundTo_quarter : roundTo 24 (1 / 4) = 1 / 4 := by
  rw [roundTo_of_nonneg 24 (by norm_num)]
  have := roundPos_two_zpow (p := 24) (by norm_num) (-2)
  norm_num [zpow_neg] at this ⊢
  exact this

theorem xValue_5 :
    (List.range 5).map (fun i : ℕ => sine.xValue 5 (i : ℤ)) = [-1, -1 / 2, 0, 1 / 2, 1] := by
  have hn : ∀ k : ℤ, 0 ≤ k → k ≤ 4 → roundTo 24 (k : ℚ) = k := fun k h0 h4 =>
    roundTo_intCast h0 (by omega)
  have h4 : roundTo 24 ((5 - 1 : ℤ) : ℚ) = 4 := by simpa using hn 4 (by norm_num) (by norm_num)
  have h1 : roundTo 24 ((1 : ℤ) : ℚ) = 1 := by simpa using hn 1 (by norm_num) (by norm_num)
  have h2 : roundTo 24 ((2 : ℤ) : ℚ) = 2 := by simpa using hn 2 (by norm_num) (by norm_num)
  have h3 : roundTo 24 ((3 : ℤ) : ℚ) = 3 := by simpa using hn 3 (by norm_num) (by norm_num)
  have e1 : sine.xValue 5 1 = -1 / 2 := by
    rw [xValue_eq, h1, h4, roundTo_quarter]
    have : (1 / 4 : ℚ) * 2 - 1 = -(1 / 2) := by norm_num
    rw [this, roundTo_neg, roundTo_half]; norm_num
  have e2 : sine.xValue 5 2 = 0 := by
    rw [xValue_eq, h2, h4]
    have : (2 / 4 : ℚ) = 1 / 2 := by norm_num
    rw [this, roundTo_half]
    norm_num
    exact roundTo_zero 24
  have e3 : sine.xValue 5 3 = 1 / 2 := by
    rw [xValue_eq, h3, h4, roundTo_three_quarters]
    have : (3 / 4 : ℚ) * 2 - 1 = 1 / 2 := by norm_num
    rw [this, roundTo_half]
  have e4 : sine.xValue 5 4 = 1 := by
    have := xValue_last (N := 5) (by norm_num)
    norm_num at this
    exact this
  simp only [List.range_succ, List.range_zero, List.nil_append, List.cons_append,
    List.map_cons, List.map_nil, Nat.cast_zero, Nat.cast_one, Nat.cast_ofNat]
  rw [xValue_first, e1, e2, e3, e4]

theorem xValue_big : sine.xValue 16777218 16777216 = 1 := by
  rw [xValue_eq]
  have h1 : roundTo 24 ((16777216 : ℤ) : ℚ) = 16777216 := by
    simpa using roundTo_intCast (n := 16777216) (by norm_num) (by norm_num)
  have h3 : roundTo 24 ((16777218 - 1 : ℤ) : ℚ) = 16777216 := by
    have : ((16777218 - 1 : ℤ) : ℚ) = 16777217 := by norm_num
    rw [this]; exact roundTo_16777217
  rw [h1, h3]
  norm_num
  rw [roundTo_one (by norm_num)]
  norm_num
  exact roundTo_one (by norm_num)

theorem map_x_generateSineWave (sinf : ℚ → ℚ) (a f ph : Option ℚ) {N : ℤ} (hN : 2 ≤ N)
    (hN' : N < 2 ^ 31) :
    (sine.generateSineWave (ieee sinf) a f ph N).map Vertex.x
      = ((List.range N.toNat).map fun i : ℕ => sine.xValue N (i : ℤ)).map some := by
  unfold sine.generateSineWave
  rw [List.map_map, List.map_map]
  apply List.map_congr_left
  intro i hi
  have hi' : i < N.toNat := List.mem_range.1 hi
  exact sample_x_ieee sinf a f ph hN (by omega) (by omega) (by omega)


/-! ### Properties of the sampler -/

/-- C2: for every arithmetic, amplitude, frequency and phase, and every point
count `N ≥ 0` (so for every `N ≥ 2`), `generateSineWave` returns exactly `N`
vertices. -/
theorem generateSineWave_length {F D : Type} (A : FloatArith F D) (a f ph : F) (N : ℤ)
    (hN : 0 ≤ N) : ((sine.generateSineWave A a f ph N).length : ℤ) = N := by
  unfold sine.generateSineWave
  rw [List.length_map, List.length_range]
  exact Int.toNat_of_nonneg hN

/-- Witness of C2: the call of `main`, 200 points, over IEEE-754 arithmetic. -/
theorem generateSineWave_length_witness :
    (0 : ℤ) ≤ 200 ∧
    ((sine.generateSineWave (ieee id) (some (1 / 2)) (some 1) (some 0) 200).length : ℤ)
      = 200 :=
  ⟨by norm_num, generateSineWave_length (ieee id) (some (1 / 2)) (some 1) (some 0) 200
    (by norm_num)⟩

/-- C1, as amended: for every point count `2 ≤ N < 2 ^ 31` there is a list
`xs` of `N` finite numbers that is the list of x-coordinates returned for
every `sinf`, amplitude, frequency and phase; its first element is exactly
`-1`, its last exactly `1`, it is non-decreasing; for `N ≤ 2 ^ 24 + 1` every
`xs[i]` is within `3 / 2 ^ 24` of `2 * i / (N - 1) - 1`, and for
`N ≤ 2 ^ 22 + 1` the list is strictly increasing. -/
theorem generateSineWave_x (N : ℤ) (hN : 2 ≤ N) (hN' : N < 2 ^ 31) :
    ∃ xs : List ℚ,
      (∀ (sinf : ℚ → ℚ) (a f ph : Option ℚ),
        (sine.generateSineWave (ieee sinf) a f ph N).map Vertex.x = xs.map some) ∧
      (xs.length : ℤ) = N ∧
      xs.head? = some (-1) ∧
      xs.getLast? = some 1 ∧
      xs.Pairwise (· ≤ ·) ∧
      (N ≤ 2 ^ 24 + 1 → ∀ (i : ℕ) (h : i < xs.length),
        |xs[i] - (2 * (i : ℚ) / ((N : ℚ) - 1) - 1)| ≤ 3 / 16777216) ∧
      (N ≤ 2 ^ 22 + 1 → xs.Pairwise (· < ·)) := by
  refine ⟨(List.range N.toNat).map fun i : ℕ => sine.xValue N (i : ℤ),
    fun sinf a f ph => map_x_generateSineWave sinf a f ph hN hN', ?_, ?_, ?_, ?_, ?_, ?_⟩
  · rw [List.length_map, List.length_range]; exact Int.toNat_of_nonneg (by omega)
  · rw [List.head?_map, List.head?_range, if_neg (by omega)]
    simp only [Option.map_some', Nat.cast_zero]
    rw [xValue_first]
  · rw [List.getLast?_map, List.getLast?_range, if_neg (by omega)]
    simp only [Option.map_some']
    have : ((N.toNat - 1 : ℕ) : ℤ) = N - 1 := by omega
    rw [this, xValue_last hN]
  · apply List.Pairwise.map _ _ (List.pairwise_lt_range _)
    intro i j hij
    exact xValue_mono hN (by exact_mod_cast hij.le)
  · intro h24 i h
    rw [List.length_map, List.length_range] at h
    rw [List.getElem_map, List.getElem_range]
    have := xValue_sub_le hN h24 (i := (i : ℤ)) (by omega) (by omega)
    simpa using this
  · intro h22
    have hp := List.Pairwise.and_mem.1 (List.pairwise_lt_range N.toNat)
    apply List.Pairwise.map _ _ hp
    intro i j ⟨_, hj, hij⟩
    have hj' : j < N.toNat := List.mem_range.1 hj
    exact xValue_strictMono hN h22 (by omega) (by exact_mod_cast hij) (by omega)

/-- Witness of C1 as amended, at the point count 5 of the specification,
where the x-coordinates are exactly `-1, -0.5, 0, 0.5, 1`. -/
theorem generateSineWave_x_witness :
    (2 : ℤ) ≤ 5 ∧ (5 : ℤ) < 2 ^ 31 ∧
    (∃ xs : List ℚ,
      (∀ (sinf : ℚ → ℚ) (a f ph : Option ℚ),
        (sine.generateSineWave (ieee sinf) a f ph 5).map Vertex.x = xs.map some) ∧
      (xs.length : ℤ) = 5 ∧
      xs.head? = some (-1) ∧
      xs.getLast? = some 1 ∧
      xs.Pairwise (· ≤ ·) ∧
      ((5 : ℤ) ≤ 2 ^ 24 + 1 → ∀ (i : ℕ) (h : i < xs.length),
        |xs[i] - (2 * (i : ℚ) / (((5 : ℤ) : ℚ) - 1) - 1)| ≤ 3 / 16777216) ∧
      ((5 : ℤ) ≤ 2 ^ 22 + 1 → xs.Pairwise (· < ·))) ∧
    (sine.generateSineWave (ieee id) (some (1 / 2)) (some 1) (some 0) 5).map Vertex.x
      = [some (-1), some (-1 / 2), some 0, some (1 / 2), some 1] :=
  ⟨by norm_num, by norm_num, generateSineWave_x 5 (by norm_num) (by norm_num), by
    rw [map_x_generateSineWave id _ _ _ (by norm_num) (by norm_num)]
    have h5 : (5 : ℤ).toNat = 5 := rfl
    rw [h5, xValue_5]
    rfl⟩

/-- C1 as stated fails.  With 4 points the x-coordinates are
`-1, -5592405/2^24, 5592406/2^24, 1`: the second is not `2 * 1 / 3 - 1`, and
the first step differs from the last.  With `2 ^ 24 + 2` points the last two
x-coordinates are both `1`, so the sequence is not strictly increasing. -/
theorem generateSineWave_x_counterexample :
    (sine.generateSineWave (ieee id) (some (1 / 2)) (some 1) (some 0) 4).map Vertex.x
      = [some (-1), some (-5592405 / 16777216), some (2796203 / 8388608), some 1] ∧
    (-5592405 / 16777216 : ℚ) ≠ 2 * 1 / (4 - 1) - 1 ∧
    (-5592405 / 16777216 : ℚ) - (-1) ≠ 1 - 2796203 / 8388608 ∧
    ((sine.generateSineWave (ieee id) (some (1 / 2)) (some 1) (some 0) 16777218).map
      Vertex.x)[16777216]? = some (some 1) ∧
    ((sine.generateSineWave (ieee id) (some (1 / 2)) (some 1) (some 0) 16777218).map
      Vertex.x)[16777217]? = some (some 1) := by
  refine ⟨?_, by norm_num, by norm_num, ?_, ?_⟩
  · rw [map_x_generateSineWave id _ _ _ (by norm_num) (by norm_num)]
    have h4 : (4 : ℤ).toNat = 4 := rfl
    rw [h4]
    simp only [List.range_succ, List.range_zero, List.nil_append, List.cons_append,
      List.map_cons, List.map_nil, Nat.cast_zero, Nat.cast_one, Nat.cast_ofNat]
    rw [xValue_first, xValue_4_1, xValue_4_2]
    have := xValue_last (N := 4) (by norm_num)
    norm_num at this
    rw [this]
  · rw [map_x_generateSineWave id _ _ _ (by norm_num) (by norm_num)]
    have hN : (16777218 : ℤ).toNat = 16777218 := rfl
    rw [hN, List.getElem?_map, List.getElem?_map, List.getElem?_range (by norm_num)]
    simp only [Option.map_some', Nat.cast_ofNat]
    rw [xValue_big]
  · rw [map_x_generateSineWave id _ _ _ (by norm_num) (by norm_num)]
    have hN : (16777218 : ℤ).toNat = 16777218 := rfl
    rw [hN, List.getElem?_map, List.getElem?_map, List.getElem?_range (by norm_num)]
    simp only [Option.map_some', Nat.cast_ofNat]
    have := xValue_last (N := 16777218) (by norm_num)
    norm_num at this
    rw [this]

/-! ### The error of one rounding -/

theorem roundFinite_spec {p : ℕ} (hp : 1 ≤ p) (emin emax : ℤ) {k : ℤ} (hk1 : emin ≤ k)
    (hk2 : k < emax) {q : ℚ} (hq : |q| ≤ (2 : ℚ) ^ k) :
    ∃ r, roundFinite p emin emax q = some r ∧
      |r - q| ≤ |q| * (2 : ℚ) ^ (-(p : ℤ)) + (2 : ℚ) ^ (emin - (p : ℤ)) ∧
      |r| ≤ (2 : ℚ) ^ k := by
  have h2 : (0 : ℚ) < 2 := by norm_num
  have hkmax : (2 : ℚ) ^ k < (2 : ℚ) ^ emax := zpow_lt_zpow_right₀ (by norm_num) hk2
  have hmink : (2 : ℚ) ^ emin ≤ (2 : ℚ) ^ k := zpow_le_zpow_right₀ (by norm_num) hk1
  unfold roundFinite
  by_cases hsub : |q| < (2 : ℚ) ^ emin
  · have hs : (0 : ℚ) < (2 : ℚ) ^ (emin - ((p : ℤ) - 1)) := by positivity
    have hhalf : (2 : ℚ) ^ (emin - ((p : ℤ) - 1)) * (1 / 2) = (2 : ℚ) ^ (emin - (p : ℤ)) := by
      have : emin - (p : ℤ) = (emin - ((p : ℤ) - 1)) + (-1) := by ring
      rw [this, zpow_add₀ (by norm_num : (2 : ℚ) ≠ 0)]
      norm_num
    have hfull : ((2 : ℤ) ^ (p - 1) : ℤ) * (2 : ℚ) ^ (emin - ((p : ℤ) - 1)) = (2 : ℚ) ^ emin := by
      push_cast
      rw [← zpow_natCast, ← zpow_add₀ (by norm_num : (2 : ℚ) ≠ 0)]
      congr 1
      have : ((p - 1 : ℕ) : ℤ) = (p : ℤ) - 1 := by omega
      rw [this]; ring
    have herr : |(roundNearestEven (q / (2 : ℚ) ^ (emin - ((p : ℤ) - 1))) : ℚ)
        * (2 : ℚ) ^ (emin - ((p : ℤ) - 1)) - q| ≤ (2 : ℚ) ^ (emin - (p : ℤ)) := by
      have e1 : (roundNearestEven (q / (2 : ℚ) ^ (emin - ((p : ℤ) - 1))) : ℚ)
          * (2 : ℚ) ^ (emin - ((p : ℤ) - 1)) - q =
          ((roundNearestEven (q / (2 : ℚ) ^ (emin - ((p : ℤ) - 1))) : ℚ)
            - q / (2 : ℚ) ^ (emin - ((p : ℤ) - 1))) * (2 : ℚ) ^ (emin - ((p : ℤ) - 1)) := by
        field_simp
      rw [e1, abs_mul, abs_of_pos hs, ← hhalf, mul_comm]
      exact mul_le_mul_of_nonneg_left (roundNearestEven_sub_le _) hs.le
    have hq' := abs_le.1 hsub.le
    have hup : (roundNearestEven (q / (2 : ℚ) ^ (emin - ((p : ℤ) - 1))) : ℚ)
        ≤ ((2 : ℤ) ^ (p - 1) : ℤ) := by
      have : q / (2 : ℚ) ^ (emin - ((p : ℤ) - 1)) ≤ (((2 : ℤ) ^ (p - 1) : ℤ) : ℚ) := by
        rw [div_le_iff₀ hs, hfull]; exact hq'.2
      have := roundNearestEven_mono this
      rw [roundNearestEven_intCast] at this
      exact_mod_cast this
    have hlo : -(((2 : ℤ) ^ (p - 1) : ℤ) : ℚ)
        ≤ (roundNearestEven (q / (2 : ℚ) ^ (emin - ((p : ℤ) - 1))) : ℚ) := by
      have : ((-((2 : ℤ) ^ (p - 1)) : ℤ) : ℚ) ≤ q / (2 : ℚ) ^ (emin - ((p : ℤ) - 1)) := by
        rw [le_div_iff₀ hs]
        push_cast
        have := hfull
        push_cast at this
        rw [neg_mul, this]; exact hq'.1
      have := roundNearestEven_mono this
      rw [roundNearestEven_intCast] at this
      have h3 : ((-((2 : ℤ) ^ (p - 1)) : ℤ) : ℚ)
          ≤ (roundNearestEven (q / (2 : ℚ) ^ (emin - ((p : ℤ) - 1))) : ℚ) := by
        exact_mod_cast this
      simpa using h3
    have hbound : |(roundNearestEven (q / (2 : ℚ) ^ (emin - ((p : ℤ) - 1))) : ℚ)
        * (2 : ℚ) ^ (emin - ((p : ℤ) - 1))| ≤ (2 : ℚ) ^ emin := by
      rw [abs_mul, abs_of_pos hs, ← hfull]
      exact mul_le_mul_of_nonneg_right (abs_le.2 ⟨hlo, hup⟩) hs.le
    refine ⟨_, ?_, ?_, le_trans hbound hmink⟩
    · simp only [hsub, if_true]
      rw [if_pos (lt_of_le_of_lt (le_trans hbound hmink) hkmax)]
    · have : (0 : ℚ) ≤ |q| * (2 : ℚ) ^ (-(p : ℤ)) := by positivity
      linarith
  · have hb := abs_roundTo_le hp hq
    refine ⟨roundTo p q, ?_, ?_, hb⟩
    · simp only [hsub, if_false]
      rw [if_pos (lt_of_le_of_lt hb hkmax)]
    · have : (0 : ℚ) ≤ (2 : ℚ) ^ (emin - (p : ℤ)) := by positivity
      have := roundTo_sub_le p q
      linarith

theorem round32_spec {k : ℤ} (hk1 : -126 ≤ k) (hk2 : k < 128) {q : ℚ}
    (hq : |q| ≤ (2 : ℚ) ^ k) :
    ∃ r, round32 q = some r ∧
      |r - q| ≤ |q| * (1 / 16777216) + (2 : ℚ) ^ (-150 : ℤ) ∧ |r| ≤ (2 : ℚ) ^ k := by
  obtain ⟨r, h1, h2, h3⟩ := roundFinite_spec (p := 24) (by norm_num) (-126) 128 hk1 hk2 hq
  refine ⟨r, h1, ?_, h3⟩
  have e1 : (2 : ℚ) ^ (-((24 : ℕ) : ℤ)) = 1 / 16777216 := by norm_num [zpow_neg]
  have e2 : (-126 : ℤ) - ((24 : ℕ) : ℤ) = -150 := by norm_num
  rwa [e1, e2] at h2

theorem round64_spec {k : ℤ} (hk1 : -1022 ≤ k) (hk2 : k < 1024) {q : ℚ}
    (hq : |q| ≤ (2 : ℚ) ^ k) :
    ∃ r, round64 q = some r ∧
      |r - q| ≤ |q| * (1 / 9007199254740992) + (2 : ℚ) ^ (-150 : ℤ) ∧ |r| ≤ (2 : ℚ) ^ k := by
  obtain ⟨r, h1, h2, h3⟩ := roundFinite_spec (p := 53) (by norm_num) (-1022) 1024 hk1 hk2 hq
  refine ⟨r, h1, ?_, h3⟩
  have e1 : (2 : ℚ) ^ (-((53 : ℕ) : ℤ)) = 1 / 9007199254740992 := by norm_num [zpow_neg]
  have e2 : (-1022 : ℤ) - ((53 : ℕ) : ℤ) = -1075 := by norm_num
  rw [e1, e2] at h2
  have e3 : (2 : ℚ) ^ (-1075 : ℤ) ≤ (2 : ℚ) ^ (-150 : ℤ) :=
    zpow_le_zpow_right₀ (by norm_num) (by norm_num)
  linarith

theorem abs_xValue_le {N i : ℤ} (hN : 2 ≤ N) (h0 : 0 ≤ i) (hi : i < N) :
    |sine.xValue N i| ≤ 1 := by
  rw [abs_le]
  constructor
  · have := xValue_mono hN h0
    rw [xValue_first] at this
    exact this
  · have := xValue_mono hN (by omega : i ≤ N - 1)
    rw [xValue_last hN] at this
    exact this

theorem abs_le_add_of_sub {r q e : ℚ} (h : |r - q| ≤ e) : |r| ≤ |q| + e := by
  have := abs_add (r - q) q
  rw [sub_add_cancel] at this
  linarith

theorem argument_error {η X H T1 T2 D1 D2 D3 p1 t1 t2 d1 d2 θ ph : ℚ}
    (hη : 0 ≤ η) (n1 : 0 ≤ X) (n2 : 0 ≤ H)
    (c1 : |t1 - p1| ≤ X * (1 / 16777216) + η)
    (a1 : T1 ≤ X + (X * (1 / 16777216) + η))
    (c2 : |t2 - t1 * 2| ≤ T1 * 2 * (1 / 16777216) + η)
    (a2 : T2 ≤ T1 * 2 + (T1 * 2 * (1 / 16777216) + η))
    (c3 : |d1 - t2 * (884279719003555 / 281474976710656)| ≤
      T2 * (884279719003555 / 281474976710656) * (1 / 9007199254740992) + η)
    (a3 : D1 ≤ T2 * (884279719003555 / 281474976710656) +
      (T2 * (884279719003555 / 281474976710656) * (1 / 9007199254740992) + η))
    (a5 : D3 ≤ D1 + H)
    (c4 : |d2 - (d1 + ph)| ≤ D3 * (1 / 9007199254740992) + η)
    (a4 : D2 ≤ D3 + (D3 * (1 / 9007199254740992) + η))
    (c5 : |θ - d2| ≤ D2 * (1 / 16777216) + η) :
    |θ - (p1 * 2 * (884279719003555 / 281474976710656) + ph)| ≤
      X * (20 / 16777216) + H * (2 / 16777216) + 16 * η := by
  rw [abs_le] at c1 c2 c3 c4 c5 ⊢
  obtain ⟨c1l, c1u⟩ := c1
  obtain ⟨c2l, c2u⟩ := c2
  obtain ⟨c3l, c3u⟩ := c3
  obtain ⟨c4l, c4u⟩ := c4
  obtain ⟨c5l, c5u⟩ := c5
  constructor <;> linarith

/-! ### The y-coordinate over IEEE-754 arithmetic -/

theorem sample_y_ieee (sinf : ℚ → ℚ) (a f ph : ℚ) {N i : ℤ} (hN : 2 ≤ N) (hN' : N ≤ 2 ^ 31)
    (h0 : 0 ≤ i) (hi : i < N) (ha : |a| ≤ (2 : ℚ) ^ (100 : ℤ)) (hf : |f| ≤ (2 : ℚ) ^ (100 : ℤ))
    (hph : |ph| ≤ (2 : ℚ) ^ (100 : ℤ)) (hs : ∀ t, |sinf t| ≤ 2) :
    ∃ θ y : ℚ,
      (sine.sample (ieee sinf) (some a) (some f) (some ph) N i).y = some y ∧
      |θ - (f * sine.xValue N i * 2 * M_PI_binary64 + ph)| ≤
        |f * sine.xValue N i| * (20 / 16777216) + |ph| * (2 / 16777216)
          + 16 * (2 : ℚ) ^ (-150 : ℤ) ∧
      |y - a * sinf θ| ≤ |a * sinf θ| * (1 / 16777216) + (2 : ℚ) ^ (-150 : ℤ) := by
  have hx := sample_x_ieee sinf (some a) (some f) (some ph) hN hN' h0 hi
  have hxa := abs_xValue_le hN h0 hi
  generalize sine.xValue N i = x at hx hxa ⊢
  have hη : (0 : ℚ) ≤ (2 : ℚ) ^ (-150 : ℤ) := by positivity
  have hη1 : (2 : ℚ) ^ (-150 : ℤ) ≤ 1 := zpow_le_one_of_nonpos₀ (by norm_num) (by norm_num)
  -- t1 = f * x
  have hp1 : |f * x| ≤ (2 : ℚ) ^ (100 : ℤ) := by
    rw [abs_mul]
    calc |f| * |x| ≤ |f| * 1 := mul_le_mul_of_nonneg_left hxa (abs_nonneg _)
      _ = |f| := mul_one _
      _ ≤ _ := hf
  obtain ⟨t1, ht1, e1, b1⟩ := round32_spec (k := 100) (by norm_num) (by norm_num) hp1
  -- t2 = t1 * 2
  have hp2 : |t1 * 2| ≤ (2 : ℚ) ^ (101 : ℤ) := by
    rw [abs_mul, abs_of_pos (by norm_num : (0 : ℚ) < 2)]
    have : (2 : ℚ) ^ (101 : ℤ) = (2 : ℚ) ^ (100 : ℤ) * 2 := by norm_num
    rw [this]; linarith
  obtain ⟨t2, ht2, e2, b2⟩ := round32_spec (k := 101) (by norm_num) (by norm_num) hp2
  -- d1 = t2 * M_PI
  have hP : M_PI_binary64 = 884279719003555 / 281474976710656 := rfl
  have hPpos : (0 : ℚ) < M_PI_binary64 := by rw [hP]; norm_num
  have hp3 : |t2 * M_PI_binary64| ≤ (2 : ℚ) ^ (103 : ℤ) := by
    rw [abs_mul, abs_of_pos hPpos]
    have : (2 : ℚ) ^ (103 : ℤ) = (2 : ℚ) ^ (101 : ℤ) * 4 := by norm_num
    rw [this]
    have h4 : M_PI_binary64 ≤ 4 := by rw [hP]; norm_num
    exact mul_le_mul b2 h4 hPpos.le (by positivity)
  obtain ⟨d1, hd1, e3, b3⟩ := round64_spec (k := 103) (by norm_num) (by norm_num) hp3
  -- d2 = d1 + ph
  have hp4 : |d1 + ph| ≤ (2 : ℚ) ^ (104 : ℤ) := by
    have := abs_add d1 ph
    have e : (2 : ℚ) ^ (104 : ℤ) = (2 : ℚ) ^ (103 : ℤ) + (2 : ℚ) ^ (103 : ℤ) := by norm_num
    have e' : (2 : ℚ) ^ (100 : ℤ) ≤ (2 : ℚ) ^ (103 : ℤ) :=
      zpow_le_zpow_right₀ (by norm_num) (by norm_num)
    linarith
  obtain ⟨d2, hd2, e4, b4⟩ := round64_spec (k := 104) (by norm_num) (by norm_num) hp4
  -- θ = (float) d2
  obtain ⟨θ, hθ, e5, b5⟩ := round32_spec (k := 104) (by norm_num) (by norm_num) b4
  -- y = a * sinf θ
  have hp6 : |a * sinf θ| ≤ (2 : ℚ) ^ (101 : ℤ) := by
    rw [abs_mul]
    have : (2 : ℚ) ^ (101 : ℤ) = (2 : ℚ) ^ (100 : ℤ) * 2 := by norm_num
    rw [this]
    exact mul_le_mul ha (hs θ) (abs_nonneg _) (by positivity)
  obtain ⟨y, hy, e6, _⟩ := round32_spec (k := 101) (by norm_num) (by norm_num) hp6
  refine ⟨θ, y, ?_, ?_, e6⟩
  · unfold sine.sample at hx ⊢
    simp only at hx ⊢
    rw [hx]
    simp only [ieee, Option.some_bind, Option.map_some', ht1, ht2, hd1, hd2, hθ, hy]
  · -- the accumulated error of the argument
    have a1 := abs_le_add_of_sub e1
    have a2 := abs_le_add_of_sub e2
    have a3 := abs_le_add_of_sub e3
    have a4 := abs_le_add_of_sub e4
    rw [abs_mul, abs_of_pos (by norm_num : (0 : ℚ) < 2)] at e2 a2
    rw [abs_mul t2, abs_of_pos hPpos] at e3 a3
    rw [hP] at e3 a3 ⊢
    exact argument_error hη (abs_nonneg _) (abs_nonneg _) e1 a1 e2 a2 e3 a3 (abs_add d1 ph) e4 a4
      e5

theorem getElem?_generateSineWave {F D : Type} (A : FloatArith F D) (a f ph : F) (N : ℤ)
    (i : ℕ) (hi : (i : ℤ) < N) :
    (sine.generateSineWave A a f ph N)[i]? = some (sine.sample A a f ph N (i : ℤ)) := by
  unfold sine.generateSineWave
  have h : i < N.toNat := by omega
  rw [List.getElem?_map, List.getElem?_range h]
  rfl

theorem abs_sin_sub_sin_le (s t : ℝ) : |Real.sin s - Real.sin t| ≤ |s - t| := by
  rw [Real.sin_sub_sin, abs_mul, abs_mul, abs_of_pos (by norm_num : (0 : ℝ) < 2)]
  have h1 := Real.abs_sin_le_abs (x := (s - t) / 2)
  have h2 := Real.abs_cos_le_one ((s + t) / 2)
  have h3 : |(s - t) / 2| = |s - t| / 2 := by
    rw [abs_div, abs_of_pos (by norm_num : (0 : ℝ) < 2)]
  have h4 := abs_nonneg (Real.sin ((s - t) / 2))
  have h5 := abs_nonneg (Real.cos ((s + t) / 2))
  rw [h3] at h1
  nlinarith

theorem abs_M_PI_sub_pi : |(M_PI_binary64 : ℝ) - Real.pi| ≤ 1 / 2 ^ 52 := by
  have h1 := Real.pi_gt_d20
  have h2 := Real.pi_lt_d20
  have hP : (M_PI_binary64 : ℝ) = 884279719003555 / 281474976710656 := by
    unfold M_PI_binary64; push_cast; rfl
  rw [hP, abs_le]
  constructor <;> norm_num at h1 h2 ⊢ <;> linarith

/-- The y-coordinate within a tolerance of the real sine. -/
theorem sample_y_tolerance (sinf : ℚ → ℚ) (ε : ℝ) (a f ph : ℚ) {N i : ℤ} (hN : 2 ≤ N)
    (hN' : N ≤ 2 ^ 31) (h0 : 0 ≤ i) (hi : i < N) (ha : |a| ≤ (2 : ℚ) ^ (100 : ℤ))
    (hf : |f| ≤ (2 : ℚ) ^ (100 : ℤ)) (hph : |ph| ≤ (2 : ℚ) ^ (100 : ℤ)) (hε : ε ≤ 1)
    (hs : ∀ t : ℚ, |((sinf t : ℚ) : ℝ) - Real.sin (t : ℝ)| ≤ ε) :
    ∃ y : ℚ,
      (sine.sample (ieee sinf) (some a) (some f) (some ph) N i).y = some y ∧
      |(y : ℝ) - a * Real.sin (f * (sine.xValue N i : ℚ) * 2 * Real.pi + ph)| ≤
        |(a : ℝ)| * (ε + (2 * Real.pi * |(f : ℝ) * (sine.xValue N i : ℚ)| + |(ph : ℝ)|) / 2 ^ 22
          + 1 / 2 ^ 23 + 1 / 2 ^ 140) + 1 / 2 ^ 150 := by
  have hsb : ∀ t, |sinf t| ≤ 2 := by
    intro t
    have h1 := hs t
    have h2 := Real.abs_sin_le_one (t : ℝ)
    have h3 : |((sinf t : ℚ) : ℝ)| ≤ 2 := by
      have := abs_sub_abs_le_abs_sub ((sinf t : ℚ) : ℝ) (Real.sin (t : ℝ))
      linarith
    exact_mod_cast h3
  obtain ⟨θ, y, hy, hθ, hyerr⟩ := sample_y_ieee sinf a f ph hN hN' h0 hi ha hf hph hsb
  refine ⟨y, hy, ?_⟩
  generalize sine.xValue N i = x at hθ ⊢
  have hη : (2 : ℚ) ^ (-150 : ℤ) = 1 / 2 ^ 150 := by
    rw [zpow_neg, one_div]; norm_cast
  rw [hη] at hθ hyerr
  have hθR : |(θ : ℝ) - (f * x * 2 * M_PI_binary64 + ph)| ≤
      |(f : ℝ) * x| * (20 / 16777216) + |(ph : ℝ)| * (2 / 16777216) + 16 * (1 / 2 ^ 150) := by
    have := (Rat.cast_le (K := ℝ)).2 hθ
    push_cast at this
    exact this
  have hyR : |(y : ℝ) - a * sinf θ| ≤ |(a : ℝ) * sinf θ| * (1 / 16777216) + 1 / 2 ^ 150 := by
    have := (Rat.cast_le (K := ℝ)).2 hyerr
    push_cast at this
    exact this
  have hsθ := hs θ
  have hsθ2 : |((sinf θ : ℚ) : ℝ)| ≤ 2 := by exact_mod_cast hsb θ
  have hpi := abs_M_PI_sub_pi
  have hpi3 := Real.pi_gt_d6
  -- the argument
  have hX := abs_nonneg ((f : ℝ) * x)
  have hH := abs_nonneg (ph : ℝ)
  have hA := abs_nonneg (a : ℝ)
  have harg : |(θ : ℝ) - (f * x * 2 * Real.pi + ph)| ≤
      (2 * Real.pi * |(f : ℝ) * x| + |(ph : ℝ)|) / 2 ^ 22 + 1 / 2 ^ 140 := by
    have e : (θ : ℝ) - (f * x * 2 * Real.pi + ph) =
        ((θ : ℝ) - (f * x * 2 * M_PI_binary64 + ph)) +
          (f * x) * (2 * ((M_PI_binary64 : ℝ) - Real.pi)) := by ring
    have t1 := abs_add ((θ : ℝ) - (f * x * 2 * M_PI_binary64 + ph))
      ((f * x) * (2 * ((M_PI_binary64 : ℝ) - Real.pi)))
    rw [← e, abs_mul ((f : ℝ) * x), abs_mul (2 : ℝ),
      abs_of_pos (by norm_num : (0 : ℝ) < 2)] at t1
    have t2 : |(f : ℝ) * x| * (2 * |(M_PI_binary64 : ℝ) - Real.pi|) ≤
        |(f : ℝ) * x| * (2 * (1 / 2 ^ 52)) :=
      mul_le_mul_of_nonneg_left (by linarith) hX
    have t3 : 3.141592 * |(f : ℝ) * x| ≤ Real.pi * |(f : ℝ) * x| :=
      mul_le_mul_of_nonneg_right hpi3.le hX
    norm_num at t2 t3 hθR ⊢
    linarith
  have hsin := abs_sin_sub_sin_le (θ : ℝ) (f * x * 2 * Real.pi + ph)
  have hmid : |((sinf θ : ℚ) : ℝ) - Real.sin (f * x * 2 * Real.pi + ph)| ≤
      ε + ((2 * Real.pi * |(f : ℝ) * x| + |(ph : ℝ)|) / 2 ^ 22 + 1 / 2 ^ 140) := by
    have := abs_sub_le ((sinf θ : ℚ) : ℝ) (Real.sin θ) (Real.sin (f * x * 2 * Real.pi + ph))
    linarith
  have e : (y : ℝ) - a * Real.sin (f * x * 2 * Real.pi + ph) =
      ((y : ℝ) - a * sinf θ) + a * ((sinf θ : ℝ) - Real.sin (f * x * 2 * Real.pi + ph)) := by
    ring
  have t1 := abs_add ((y : ℝ) - a * sinf θ)
    (a * ((sinf θ : ℝ) - Real.sin (f * x * 2 * Real.pi + ph)))
  rw [← e, abs_mul (a : ℝ)] at t1
  rw [abs_mul] at hyR
  have t2 := mul_le_mul_of_nonneg_left hmid hA
  have t3 := mul_le_mul_of_nonneg_left hsθ2 hA
  have e2 : |(a : ℝ)| * (ε + (2 * Real.pi * |(f : ℝ) * x| + |(ph : ℝ)|) / 2 ^ 22
      + 1 / 2 ^ 23 + 1 / 2 ^ 140) =
      |(a : ℝ)| * (ε + ((2 * Real.pi * |(f : ℝ) * x| + |(ph : ℝ)|) / 2 ^ 22 + 1 / 2 ^ 140))
        + |(a : ℝ)| * 2 * (1 / 16777216) := by
    ring
  rw [e2]
  linarith

/-- C3, as amended: for every point count `2 ≤ N < 2 ^ 31`, index `i < N` and
finite amplitude `a`, frequency `f` and phase `ph` of magnitude at most
`2 ^ 100`, the vertex `i` has finite coordinates `x` and `y`, and if `sinf` is
within `ε ≤ 1` of the real sine on every finite argument then `y` is within
`|a| * (ε + (2 * π * |f * x| + |ph|) / 2 ^ 22 + 2 ^ (-23) + 2 ^ (-140)) + 2 ^ (-150)`
of the real number `a * sin (f * x * 2 * π + ph)`. -/
theorem generateSineWave_y (sinf : ℚ → ℚ) (ε : ℝ) (a f ph : ℚ) (N : ℤ) (i : ℕ)
    (hN : 2 ≤ N) (hN' : N < 2 ^ 31) (hi : (i : ℤ) < N) (ha : |a| ≤ (2 : ℚ) ^ (100 : ℤ))
    (hf : |f| ≤ (2 : ℚ) ^ (100 : ℤ)) (hph : |ph| ≤ (2 : ℚ) ^ (100 : ℤ)) (hε : ε ≤ 1)
    (hs : ∀ t : ℚ, |((sinf t : ℚ) : ℝ) - Real.sin (t : ℝ)| ≤ ε) :
    ∃ x y : ℚ,
      (sine.generateSineWave (ieee sinf) (some a) (some f) (some ph) N)[i]?
        = some { x := some x, y := some y } ∧
      |(y : ℝ) - a * Real.sin (f * x * 2 * Real.pi + ph)| ≤
        |(a : ℝ)| * (ε + (2 * Real.pi * |(f : ℝ) * x| + |(ph : ℝ)|) / 2 ^ 22
          + 1 / 2 ^ 23 + 1 / 2 ^ 140) + 1 / 2 ^ 150 := by
  have h0 : (0 : ℤ) ≤ (i : ℤ) := Int.natCast_nonneg i
  obtain ⟨y, hy, hb⟩ := sample_y_tolerance sinf ε a f ph hN hN'.le h0 hi ha hf hph hε hs
  have hx := sample_x_ieee sinf (some a) (some f) (some ph) hN hN'.le h0 hi
  refine ⟨sine.xValue N i, y, ?_, hb⟩
  rw [getElem?_generateSineWave _ _ _ _ _ _ hi]
  rcases hv : sine.sample (ieee sinf) (some a) (some f) (some ph) N (i : ℤ) with ⟨vx, vy⟩
  rw [hv] at hx hy
  simp only at hx hy
  rw [hx, hy]

/-- Witness of C3: the vertex 100 of the 200 points of `main` at amplitude
`0.5`, frequency `1`, phase `0`, for the function `sinf` that is constantly `0`,
which is within `1` of the sine. -/
theorem generateSineWave_y_witness :
    ∃ x y : ℚ,
      (sine.generateSineWave (ieee fun _ => 0) (some (1 / 2)) (some 1) (some 0) 200)[100]?
        = some { x := some x, y := some y } ∧
      |(y : ℝ) - ((1 / 2 : ℚ) : ℝ) *
          Real.sin (((1 : ℚ) : ℝ) * x * 2 * Real.pi + ((0 : ℚ) : ℝ))| ≤
        |((1 / 2 : ℚ) : ℝ)| *
          (1 + (2 * Real.pi * |((1 : ℚ) : ℝ) * x| + |((0 : ℚ) : ℝ)|) / 2 ^ 22
            + 1 / 2 ^ 23 + 1 / 2 ^ 140) + 1 / 2 ^ 150 :=
  generateSineWave_y (fun _ => 0) 1 (1 / 2) 1 0 200 100 (by norm_num) (by norm_num)
    (by norm_num) (by rw [abs_of_pos (by norm_num)]; norm_num)
    (by rw [abs_of_pos (by norm_num)]; norm_num) (by rw [abs_zero]; positivity) (le_refl 1)
    (fun t => by simpa using Real.abs_sin_le_one (t : ℝ))

/-- Counterexample to C3 as stated: with amplitude `1`, frequency `1 / 8`, phase
`0` and 3 points, the vertex 2 has `x = 1` and, whatever `sinf` is, a finite `y`
is a rational number, which is not the irrational
`1 * sin (1 / 8 * 1 * 2 * π + 0) = sin (π / 4)`; and `y` is finite for every
`sinf` with values of magnitude at most 2. -/
theorem generateSineWave_y_counterexample :
    (∀ sinf : ℚ → ℚ,
      ((sine.generateSineWave (ieee sinf) (some 1) (some (1 / 8)) (some 0) 3).map Vertex.x)[2]?
        = some (some 1)) ∧
    (∀ (sinf : ℚ → ℚ) (y : ℚ),
      ((sine.generateSineWave (ieee sinf) (some 1) (some (1 / 8)) (some 0) 3).map Vertex.y)[2]?
        = some (some y) →
      (y : ℝ) ≠ 1 * Real.sin (1 / 8 * 1 * 2 * Real.pi + 0)) ∧
    (∀ sinf : ℚ → ℚ, (∀ t, |sinf t| ≤ 2) → ∃ y : ℚ,
      ((sine.generateSineWave (ieee sinf) (some 1) (some (1 / 8)) (some 0) 3).map Vertex.y)[2]?
        = some (some y)) := by
  have hidx : ∀ sinf : ℚ → ℚ,
      (sine.generateSineWave (ieee sinf) (some 1) (some (1 / 8)) (some 0) 3)[2]? =
        some (sine.sample (ieee sinf) (some 1) (some (1 / 8)) (some 0) 3 ((2 : ℕ) : ℤ)) :=
    fun sinf => getElem?_generateSineWave _ _ _ _ _ 2 (by norm_num)
  refine ⟨fun sinf => ?_, fun sinf y hy hreal => ?_, fun sinf hs => ?_⟩
  · rw [List.getElem?_map, hidx]
    have hx := sample_x_ieee sinf (some 1) (some (1 / 8)) (some 0) (N := 3) (i := 2)
      (by norm_num) (by norm_num) (by norm_num) (by norm_num)
    have h1 : sine.xValue 3 2 = 1 := xValue_last (N := 3) (by norm_num)
    rw [h1] at hx
    simpa using hx
  · have h : (1 / 8 * 1 * 2 * Real.pi + 0 : ℝ) = Real.pi / 4 := by ring
    have e : (1 : ℝ) * Real.sin (1 / 8 * 1 * 2 * Real.pi + 0) = √2 / 2 := by
      rw [h, one_mul, Real.sin_pi_div_four]
    rw [e] at hreal
    have h2 : (√2 : ℝ) = ((2 * y : ℚ) : ℝ) := by
      push_cast; linarith
    exact irrational_sqrt_two ⟨2 * y, h2.symm⟩
  · obtain ⟨θ, y, hy, _, _⟩ := sample_y_ieee sinf 1 (1 / 8) 0 (N := 3) (i := 2) (by norm_num)
      (by norm_num) (by norm_num) (by norm_num)
      (by rw [abs_one]; exact one_le_zpow₀ (by norm_num) (by norm_num))
      (by rw [abs_of_pos (by norm_num)]; norm_num) (by rw [abs_zero]; positivity) hs
    refine ⟨y, ?_⟩
    rw [List.getElem?_map, hidx]
    simpa using hy

/-! ### Running computations on the backend -/

@[simp] theorem Vk.bind_eq {α β : Type} (x : Vk α) (f : α → Vk β) :
    (x >>= f) = Vk.seq x f := rfl

@[simp] theorem Vk.pure_eq {α : Type} (a : α) : (pure a : Vk α) = Vk.ret a := rfl

theorem Vk.forEach_exec {α : Type} (f : α → Call) (l : List α) (m : Machine) :
    Vk.forEach (fun a => Vk.exec (f a)) l m
      = ({ m with trace := m.trace ++ l.map f }, Except.ok ()) := by
  induction l generalizing m with
  | nil => simp [Vk.forEach, Vk.ret]
  | cons a l ih => simp [Vk.forEach, Vk.seq, Vk.exec, ih]

theorem issued_of_trace {α : Type} (x : Vk α) (m : Machine) (t : List Call)
    (h : (x m).1.trace = m.trace ++ t) : Vk.issued x m = t := by
  simp [Vk.issued, h]

theorem cleanup_run (m : Machine) :
    InitVulkan.cleanup m =
      ({ m with trace := m.trace ++ cleanupCalls m.context }, Except.ok ()) := by
  simp [InitVulkan.cleanup, Vk.seq, Vk.get, Vk.exec, Vk.forEach_exec, List.append_assoc,
    cleanupCalls]

theorem cleanup_issued (m : Machine) :
    Vk.issued InitVulkan.cleanup m = cleanupCalls m.context := by
  apply issued_of_trace
  rw [cleanup_run]

theorem renderFrame_run {F : Type} (d : Driver) (v : List (Vertex F)) (m : Machine)
    {fence imageAvailable renderFinished commandBuffer framebuffer : ℕ}
    (hF : m.context.m_inFlightFences[m.context.m_currentFrame]? = some fence)
    (hA : m.context.m_imageAvailableSemaphores[m.context.m_currentFrame]?
      = some imageAvailable)
    (hR : m.context.m_renderFinishedSemaphores[m.context.m_currentFrame]?
      = some renderFinished)
    (hC : m.context.m_commandBuffers[d.imageIndex (m.trace.length + 1)]? = some commandBuffer)
    (hB : m.context.m_swapChainFramebuffers[d.imageIndex (m.trace.length + 1)]?
      = some framebuffer) :
    InitVulkan.renderFrame d v m =
      if d.result (m.trace.length + 14) ≠ VK_SUCCESS then
        ({ m with trace := m.trace ++ (frameCalls m.context v.length fence imageAvailable
            renderFinished commandBuffer framebuffer) },
          Except.error (Exn.runtime_error "Vulkan error"))
      else
        ({ m with
            trace := m.trace ++ (frameCalls m.context v.length fence imageAvailable
              renderFinished commandBuffer framebuffer ++
              [Call.vkQueuePresentKHR m.context.m_presentQueue [renderFinished]
                [m.context.m_swapChain] [d.imageIndex (m.trace.length + 1)]])
            context := { m.context with
              m_currentFrame :=
                ((m.context.m_currentFrame + 1) % 2 ^ 64) % MAX_FRAMES_IN_FLIGHT } },
          Except.ok ()) := by
  by_cases h : d.result (m.trace.length + 14) = VK_SUCCESS <;>
    simp [InitVulkan.renderFrame, Vk.seq, Vk.get, Vk.index, hF, hA, hR, Vk.ret,
      Vk.exec, Vk.position, Vk.call, hC, hB, VK_CHECK, Vk.check, Vk.modify, frameCalls,
      Vk.raise, h]

theorem renderFrame_ok {F : Type} (d : Driver) (v : List (Vertex F)) (m : Machine)
    (h : (InitVulkan.renderFrame d v m).2 = Except.ok ()) :
    ∃ fence imageAvailable renderFinished commandBuffer framebuffer : ℕ,
      m.context.m_inFlightFences[m.context.m_currentFrame]? = some fence ∧
      m.context.m_imageAvailableSemaphores[m.context.m_currentFrame]? = some imageAvailable ∧
      m.context.m_renderFinishedSemaphores[m.context.m_currentFrame]? = some renderFinished ∧
      m.context.m_commandBuffers[d.imageIndex (m.trace.length + 1)]? = some commandBuffer ∧
      m.context.m_swapChainFramebuffers[d.imageIndex (m.trace.length + 1)]?
        = some framebuffer ∧
      d.result (m.trace.length + 14) = VK_SUCCESS := by
  rcases hF : m.context.m_inFlightFences[m.context.m_currentFrame]? with _ | fence
  · simp [InitVulkan.renderFrame, Vk.seq, Vk.get, Vk.index, hF, Vk.raise] at h
  rcases hA : m.context.m_imageAvailableSemaphores[m.context.m_currentFrame]? with _ | ia
  · simp [InitVulkan.renderFrame, Vk.seq, Vk.get, Vk.index, hF, hA, Vk.raise, Vk.ret,
      Vk.exec] at h
  rcases hC : m.context.m_commandBuffers[d.imageIndex (m.trace.length + 1)]? with _ | cb
  · simp [InitVulkan.renderFrame, Vk.seq, Vk.get, Vk.index, hF, hA, hC, Vk.raise, Vk.ret,
      Vk.exec, Vk.position] at h
  rcases hB : m.context.m_swapChainFramebuffers[d.imageIndex (m.trace.length + 1)]?
    with _ | fb
  · simp [InitVulkan.renderFrame, Vk.seq, Vk.get, Vk.index, hF, hA, hC, hB, Vk.raise, Vk.ret,
      Vk.exec, Vk.position] at h
  rcases hR : m.context.m_renderFinishedSemaphores[m.context.m_currentFrame]? with _ | rf
  · simp [InitVulkan.renderFrame, Vk.seq, Vk.get, Vk.index, hF, hA, hC, hB, hR, Vk.raise,
      Vk.ret, Vk.exec, Vk.position] at h
  refine ⟨fence, ia, rf, cb, fb, rfl, rfl, rfl, rfl, rfl, ?_⟩
  by_contra hne
  rw [renderFrame_run d v m hF hA hR hC hB, if_pos hne] at h
  simp at h

theorem succ_mod_two (n : ℕ) : ((n + 1) % 2 ^ 64) % MAX_FRAMES_IN_FLIGHT = (n + 1) % 2 := by
  unfold MAX_FRAMES_IN_FLIGHT
  omega

theorem renderFrame_issued_defined {F : Type} (d : Driver) (v : List (Vertex F)) (m : Machine)
    (h : (InitVulkan.renderFrame d v m).2 ≠ Except.error Exn.outOfRange) :
    ∃ fence imageAvailable renderFinished commandBuffer framebuffer : ℕ,
      m.context.m_inFlightFences[m.context.m_currentFrame]? = some fence ∧
      m.context.m_imageAvailableSemaphores[m.context.m_currentFrame]? = some imageAvailable ∧
      m.context.m_renderFinishedSemaphores[m.context.m_currentFrame]? = some renderFinished ∧
      m.context.m_commandBuffers[d.imageIndex (m.trace.length + 1)]? = some commandBuffer ∧
      m.context.m_swapChainFramebuffers[d.imageIndex (m.trace.length + 1)]?
        = some framebuffer ∧
      Vk.issued (InitVulkan.renderFrame d v) m =
        frameCalls m.context v.length fence imageAvailable renderFinished commandBuffer
          framebuffer ++
        if d.result (m.trace.length + 14) = VK_SUCCESS then
          [Call.vkQueuePresentKHR m.context.m_presentQueue [renderFinished]
            [m.context.m_swapChain] [d.imageIndex (m.trace.length + 1)]]
        else [] := by
  rcases hF : m.context.m_inFlightFences[m.context.m_currentFrame]? with _ | fence
  · simp [InitVulkan.renderFrame, Vk.seq, Vk.get, Vk.index, hF, Vk.raise] at h
  rcases hA : m.context.m_imageAvailableSemaphores[m.context.m_currentFrame]? with _ | ia
  · simp [InitVulkan.renderFrame, Vk.seq, Vk.get, Vk.index, hF, hA, Vk.raise, Vk.ret,
      Vk.exec] at h
  rcases hC : m.context.m_commandBuffers[d.imageIndex (m.trace.length + 1)]? with _ | cb
  · simp [InitVulkan.renderFrame, Vk.seq, Vk.get, Vk.index, hF, hA, hC, Vk.raise, Vk.ret,
      Vk.exec, Vk.position] at h
  rcases hB : m.context.m_swapChainFramebuffers[d.imageIndex (m.trace.length + 1)]?
    with _ | fb
  · simp [InitVulkan.renderFrame, Vk.seq, Vk.get, Vk.index, hF, hA, hC, hB, Vk.raise, Vk.ret,
      Vk.exec, Vk.position] at h
  rcases hR : m.context.m_renderFinishedSemaphores[m.context.m_currentFrame]? with _ | rf
  · simp [InitVulkan.renderFrame, Vk.seq, Vk.get, Vk.index, hF, hA, hC, hB, hR, Vk.raise,
      Vk.ret, Vk.exec, Vk.position] at h
  refine ⟨fence, ia, rf, cb, fb, rfl, rfl, rfl, rfl, rfl, ?_⟩
  apply issued_of_trace
  rw [renderFrame_run d v m hF hA hR hC hB]
  by_cases hS : d.result (m.trace.length + 14) = VK_SUCCESS
  · rw [if_neg (by simp [hS]), if_pos hS]
  · rw [if_pos hS, if_neg hS, List.append_nil]

theorem Vk.seq_ok {α β : Type} {x : Vk α} {f : α → Vk β} {m : Machine} {b : β}
    (h : (Vk.seq x f m).2 = Except.ok b) :
    ∃ a, (x m).2 = Except.ok a ∧ Vk.seq x f m = f a (x m).1 := by
  unfold Vk.seq at h ⊢
  rcases hx : x m with ⟨m', r⟩
  rw [hx] at h
  cases r with
  | error e => simp at h
  | ok a => exact ⟨a, rfl, rfl⟩

theorem renderFrame_step {F : Type} (d : Driver) (v : List (Vertex F)) (m : Machine)
    (h : (InitVulkan.renderFrame d v m).2 = Except.ok ()) :
    (InitVulkan.renderFrame d v m).1.context
      = { m.context with m_currentFrame := (m.context.m_currentFrame + 1) % 2 } := by
  obtain ⟨fence, ia, rf, cb, fb, hF, hA, hR, hC, hB, hS⟩ := renderFrame_ok d v m h
  rw [renderFrame_run d v m hF hA hR hC hB, if_neg (by simp [hS])]
  simp only [succ_mod_two]

theorem renderFrames_currentFrame {F : Type} (d : Driver) (frames : List (List (Vertex F)))
    (m : Machine) (h : (InitVulkan.renderFrames d frames m).2 = Except.ok ())
    (h0 : m.context.m_currentFrame < 2) :
    (InitVulkan.renderFrames d frames m).1.context.m_currentFrame
      = (m.context.m_currentFrame + frames.length) % 2 := by
  induction frames generalizing m with
  | nil =>
    simp only [InitVulkan.renderFrames, Vk.forEach, Vk.ret, List.length_nil, add_zero]
    omega
  | cons v frames ih =>
    unfold InitVulkan.renderFrames at h ⊢
    simp only [Vk.forEach] at h ⊢
    obtain ⟨a, ha, hs⟩ := Vk.seq_ok h
    rw [hs] at h ⊢
    have hstep := renderFrame_step d v m ha
    have := ih (InitVulkan.renderFrame d v m).1 h (by rw [hstep]; exact Nat.mod_lt _ (by norm_num))
    unfold InitVulkan.renderFrames at this
    rw [this, hstep]
    simp only [List.length_cons]
    omega

theorem renderFrame_ok_of {F : Type} (d : Driver) (v : List (Vertex F)) (m : Machine)
    (hres : ∀ n, d.result n = VK_SUCCESS)
    (hF : m.context.m_currentFrame < m.context.m_inFlightFences.length)
    (hA : m.context.m_currentFrame < m.context.m_imageAvailableSemaphores.length)
    (hR : m.context.m_currentFrame < m.context.m_renderFinishedSemaphores.length)
    (hC : ∀ n, d.imageIndex n < m.context.m_commandBuffers.length)
    (hB : ∀ n, d.imageIndex n < m.context.m_swapChainFramebuffers.length) :
    (InitVulkan.renderFrame d v m).2 = Except.ok () := by
  rw [renderFrame_run d v m (List.getElem?_eq_getElem hF) (List.getElem?_eq_getElem hA)
    (List.getElem?_eq_getElem hR) (List.getElem?_eq_getElem (hC _))
    (List.getElem?_eq_getElem (hB _)), if_neg (by simp [hres])]

theorem renderFrames_ok_of {F : Type} (d : Driver) (frames : List (List (Vertex F)))
    (m : Machine) (hres : ∀ n, d.result n = VK_SUCCESS)
    (h0 : m.context.m_currentFrame < 2)
    (hF : 2 ≤ m.context.m_inFlightFences.length)
    (hA : 2 ≤ m.context.m_imageAvailableSemaphores.length)
    (hR : 2 ≤ m.context.m_renderFinishedSemaphores.length)
    (hC : ∀ n, d.imageIndex n < m.context.m_commandBuffers.length)
    (hB : ∀ n, d.imageIndex n < m.context.m_swapChainFramebuffers.length) :
    (InitVulkan.renderFrames d frames m).2 = Except.ok () := by
  induction frames generalizing m with
  | nil => rfl
  | cons v frames ih =>
    have hv := renderFrame_ok_of d v m hres (by omega) (by omega) (by omega) hC hB
    have hstep := renderFrame_step d v m hv
    unfold InitVulkan.renderFrames
    simp only [Vk.forEach]
    have hseq : Vk.seq (InitVulkan.renderFrame d v)
        (fun _ => Vk.forEach (InitVulkan.renderFrame d) frames) m
        = Vk.forEach (InitVulkan.renderFrame d) frames (InitVulkan.renderFrame d v m).1 := by
      unfold Vk.seq
      rcases hx : InitVulkan.renderFrame d v m with ⟨m', r⟩
      rw [hx] at hv
      simp only at hv
      subst hv
      rfl
    rw [hseq]
    have := ih (InitVulkan.renderFrame d v m).1
      (by rw [hstep]; exact Nat.mod_lt _ (by norm_num))
      (by rw [hstep]; exact hF) (by rw [hstep]; exact hA) (by rw [hstep]; exact hR)
      (by rw [hstep]; exact hC) (by rw [hstep]; exact hB)
    exact this

theorem demoDriver_result (n : ℕ) : demoDriver.result n = VK_SUCCESS := rfl

theorem demoDriver_imageIndex (n : ℕ) : demoDriver.imageIndex n < 3 :=
  Nat.mod_lt _ (by norm_num)

theorem renderFrame_issued_ok {F : Type} (d : Driver) (v : List (Vertex F)) (m : Machine)
    (h : (InitVulkan.renderFrame d v m).2 = Except.ok ()) :
    ∃ fence imageAvailable renderFinished commandBuffer framebuffer : ℕ,
      m.context.m_inFlightFences[m.context.m_currentFrame]? = some fence ∧
      m.context.m_imageAvailableSemaphores[m.context.m_currentFrame]? = some imageAvailable ∧
      m.context.m_renderFinishedSemaphores[m.context.m_currentFrame]? = some renderFinished ∧
      m.context.m_commandBuffers[d.imageIndex (m.trace.length + 1)]? = some commandBuffer ∧
      m.context.m_swapChainFramebuffers[d.imageIndex (m.trace.length + 1)]?
        = some framebuffer ∧
      Vk.issued (InitVulkan.renderFrame d v) m =
        frameCalls m.context v.length fence imageAvailable renderFinished commandBuffer
          framebuffer ++
        [Call.vkQueuePresentKHR m.context.m_presentQueue [renderFinished]
          [m.context.m_swapChain] [d.imageIndex (m.trace.length + 1)]] := by
  obtain ⟨fence, ia, rf, cb, fb, hF, hA, hR, hC, hB, hS⟩ := renderFrame_ok d v m h
  refine ⟨fence, ia, rf, cb, fb, hF, hA, hR, hC, hB, ?_⟩
  apply issued_of_trace
  rw [renderFrame_run d v m hF hA hR hC hB, if_neg (by simp [hS])]

/-! ### Properties of the frame loop and of the teardown -/

/-- C4: a `renderFrame` call that returns normally replaces `m_currentFrame`
by `(m_currentFrame + 1) mod MAX_FRAMES_IN_FLIGHT`, and from a context whose
`m_currentFrame` is a slot index (`0` in a freshly constructed context), after
`2 * k` calls that all return normally `m_currentFrame` has its starting
value. -/
theorem renderFrame_rotation {F : Type} (d : Driver) (m : Machine)
    (frames : List (List (Vertex F))) (k : ℕ)
    (h0 : m.context.m_currentFrame < MAX_FRAMES_IN_FLIGHT)
    (hlen : frames.length = 2 * k)
    (hok : (InitVulkan.renderFrames d frames m).2 = Except.ok ()) :
    MAX_FRAMES_IN_FLIGHT = 2 ∧
    (InitVulkan.renderFrames d frames m).1.context.m_currentFrame
      = m.context.m_currentFrame ∧
    ∀ (v : List (Vertex F)) (m' : Machine),
      (InitVulkan.renderFrame d v m').2 = Except.ok () →
      (InitVulkan.renderFrame d v m').1.context.m_currentFrame
        = (m'.context.m_currentFrame + 1) % MAX_FRAMES_IN_FLIGHT := by
  refine ⟨rfl, ?_, ?_⟩
  · have h0' : m.context.m_currentFrame < 2 := h0
    rw [renderFrames_currentFrame d frames m hok h0', hlen]
    omega
  · intro v m' h
    rw [renderFrame_step d v m' h]
    rfl

/-- Witness of C4: two frames of 200 vertices on the initialised demo
context. -/
theorem renderFrame_rotation_witness :
    demoMachine.context.m_currentFrame < MAX_FRAMES_IN_FLIGHT ∧
    [List.replicate 200 (⟨0, 0⟩ : Vertex ℚ), List.replicate 200 ⟨0, 0⟩].length = 2 * 1 ∧
    (InitVulkan.renderFrames demoDriver
      [List.replicate 200 (⟨0, 0⟩ : Vertex ℚ), List.replicate 200 ⟨0, 0⟩] demoMachine).2
      = Except.ok () ∧
    (InitVulkan.renderFrames demoDriver
      [List.replicate 200 (⟨0, 0⟩ : Vertex ℚ), List.replicate 200 ⟨0, 0⟩]
      demoMachine).1.context.m_currentFrame = demoMachine.context.m_currentFrame :=
  have hok := renderFrames_ok_of demoDriver
    [List.replicate 200 (⟨0, 0⟩ : Vertex ℚ), List.replicate 200 ⟨0, 0⟩] demoMachine
    demoDriver_result (by decide) (by decide) (by decide) (by decide)
    demoDriver_imageIndex demoDriver_imageIndex
  ⟨by decide, rfl, hok,
    (renderFrame_rotation demoDriver demoMachine
      [List.replicate 200 (⟨0, 0⟩ : Vertex ℚ), List.replicate 200 ⟨0, 0⟩] 1
      (by decide) rfl hok).2.1⟩

/-- C5: in the calls issued by `cleanup` on any context, the first call is
`vkDeviceWaitIdle` on the device, and every call that destroys or frees an
object is at a later position. -/
theorem cleanup_waits_first (m : Machine) :
    (∃ rest, Vk.issued InitVulkan.cleanup m
      = Call.vkDeviceWaitIdle m.context.m_device :: rest) ∧
    ∀ (i : ℕ) (c : Call), (Vk.issued InitVulkan.cleanup m)[i]? = some c →
      c.isDestroy = true → 0 < i := by
  have hi := cleanup_issued m
  constructor
  · rw [hi]; simp [cleanupCalls]
  · intro i c hc hd
    rw [hi] at hc
    rcases Nat.eq_zero_or_pos i with h0 | h0
    · subst h0
      simp [cleanupCalls] at hc
      subst hc
      simp [Call.isDestroy, Call.destroys] at hd
    · exact h0

/-- C6: a `renderFrame` call that returns normally issues exactly these calls,
in this order: fence wait; acquire; map, copy, unmap; reset, begin, the five
recorded commands and end of the command buffer; fence reset; submit;
present; and it then leaves the slot index advanced. -/
theorem renderFrame_call_order {F : Type} (d : Driver) (v : List (Vertex F)) (m : Machine)
    (hok : (InitVulkan.renderFrame d v m).2 = Except.ok ()) :
    (Vk.issued (InitVulkan.renderFrame d v) m).map Call.name =
      ["vkWaitForFences", "vkAcquireNextImageKHR", "vkMapMemory", "memcpy", "vkUnmapMemory",
       "vkResetCommandBuffer", "vkBeginCommandBuffer", "vkCmdBeginRenderPass",
       "vkCmdBindPipeline", "vkCmdBindVertexBuffers", "vkCmdDraw", "vkCmdEndRenderPass",
       "vkEndCommandBuffer", "vkResetFences", "vkQueueSubmit", "vkQueuePresentKHR"] ∧
    (InitVulkan.renderFrame d v m).1.context.m_currentFrame
      = (m.context.m_currentFrame + 1) % MAX_FRAMES_IN_FLIGHT := by
  obtain ⟨fence, ia, rf, cb, fb, _, _, _, _, _, hi⟩ := renderFrame_issued_ok d v m hok
  refine ⟨?_, ?_⟩
  · rw [hi]; simp [frameCalls, Call.name]
  · rw [renderFrame_step d v m hok]; rfl

/-- Witness of C6: one frame of 200 vertices on the initialised demo
context. -/
theorem renderFrame_call_order_witness :
    (InitVulkan.renderFrame demoDriver (List.replicate 200 (⟨0, 0⟩ : Vertex ℚ))
      demoMachine).2 = Except.ok () ∧
    (Vk.issued (InitVulkan.renderFrame demoDriver (List.replicate 200 (⟨0, 0⟩ : Vertex ℚ)))
      demoMachine).map Call.name =
      ["vkWaitForFences", "vkAcquireNextImageKHR", "vkMapMemory", "memcpy", "vkUnmapMemory",
       "vkResetCommandBuffer", "vkBeginCommandBuffer", "vkCmdBeginRenderPass",
       "vkCmdBindPipeline", "vkCmdBindVertexBuffers", "vkCmdDraw", "vkCmdEndRenderPass",
       "vkEndCommandBuffer", "vkResetFences", "vkQueueSubmit", "vkQueuePresentKHR"] :=
  have hok := renderFrame_ok_of demoDriver (List.replicate 200 (⟨0, 0⟩ : Vertex ℚ))
    demoMachine demoDriver_result (by decide) (by decide) (by decide)
    demoDriver_imageIndex demoDriver_imageIndex
  ⟨hok, (renderFrame_call_order demoDriver _ demoMachine hok).1⟩

/-- C8: in every `renderFrame` call that indexes no vector out of range
(it returns normally or the submit fails), with `v` of fewer than `2 ^ 32`
vertices and `img` the acquired image index, the command buffer that is reset,
begun, recorded, ended and submitted is `m_commandBuffers[img]`; the commands
recorded are exactly: begin render pass on `m_swapChainFramebuffers[img]` with
the one clear colour `(0.1, 0.1, 0.1, 1)`, bind the graphics pipeline, bind the
vertex buffer at offset 0, one draw of `length v` vertices, 1 instance, first
vertex 0, first instance 0, end render pass; and `length v * sizeof(Vertex)`
bytes are mapped and copied. -/
theorem renderFrame_commands {F : Type} (d : Driver) (v : List (Vertex F)) (m : Machine)
    (hlen : v.length < 2 ^ 32)
    (hdef : (InitVulkan.renderFrame d v m).2 ≠ Except.error Exn.outOfRange) :
    ∃ commandBuffer framebuffer : Handle,
      m.context.m_commandBuffers[d.imageIndex (m.trace.length + 1)]? = some commandBuffer ∧
      m.context.m_swapChainFramebuffers[d.imageIndex (m.trace.length + 1)]?
        = some framebuffer ∧
      (Vk.issued (InitVulkan.renderFrame d v) m)[2]? = some
        (Call.vkMapMemory m.context.m_device m.context.m_vertexBufferMemory 0
          (v.length * sizeofVertex)) ∧
      (Vk.issued (InitVulkan.renderFrame d v) m)[3]? = some
        (Call.memcpy (v.length * sizeofVertex)) ∧
      ((Vk.issued (InitVulkan.renderFrame d v) m).drop 5).take 8 =
        [Call.vkResetCommandBuffer commandBuffer,
         Call.vkBeginCommandBuffer commandBuffer,
         Call.vkCmdBeginRenderPass commandBuffer m.context.m_renderPass framebuffer
           m.context.m_swapChainExtent [[1 / 10, 1 / 10, 1 / 10, 1]],
         Call.vkCmdBindPipeline commandBuffer m.context.m_graphicsPipeline,
         Call.vkCmdBindVertexBuffers commandBuffer 0 1 [m.context.m_vertexBuffer] [0],
         Call.vkCmdDraw commandBuffer v.length 1 0 0,
         Call.vkCmdEndRenderPass commandBuffer,
         Call.vkEndCommandBuffer commandBuffer] ∧
      (Vk.issued (InitVulkan.renderFrame d v) m).filter (fun c => c.recordsInto.isSome) =
        [Call.vkCmdBeginRenderPass commandBuffer m.context.m_renderPass framebuffer
           m.context.m_swapChainExtent [[1 / 10, 1 / 10, 1 / 10, 1]],
         Call.vkCmdBindPipeline commandBuffer m.context.m_graphicsPipeline,
         Call.vkCmdBindVertexBuffers commandBuffer 0 1 [m.context.m_vertexBuffer] [0],
         Call.vkCmdDraw commandBuffer v.length 1 0 0,
         Call.vkCmdEndRenderPass commandBuffer] ∧
      ∃ waitSemaphores signalSemaphores fence,
        (Vk.issued (InitVulkan.renderFrame d v) m)[14]? = some
          (Call.vkQueueSubmit m.context.m_graphicsQueue waitSemaphores
            [VK_PIPELINE_STAGE_COLOR_ATTACHMENT_OUTPUT_BIT] [commandBuffer]
            signalSemaphores fence) := by
  obtain ⟨fence, ia, rf, cb, fb, _, _, _, hC, hB, hi⟩ := renderFrame_issued_defined d v m hdef
  have h1 : v.length % 2 ^ 32 = v.length := Nat.mod_eq_of_lt hlen
  have h2 : (v.length * sizeofVertex) % 2 ^ 64 = v.length * sizeofVertex := by
    apply Nat.mod_eq_of_lt
    unfold sizeofVertex
    omega
  have h3 : v.length * sizeofVertex < 18446744073709551616 := by
    unfold sizeofVertex
    omega
  have h4 : v.length < 4294967296 := hlen
  refine ⟨cb, fb, hC, hB, ?_, ?_, ?_, ?_, [ia], [rf], fence, ?_⟩ <;>
    rw [hi] <;>
    by_cases hS : d.result (m.trace.length + 14) = VK_SUCCESS <;>
    simp [frameCalls, h1, h2, Call.recordsInto, Nat.mod_eq_of_lt h3, Nat.mod_eq_of_lt h4, hS]

/-- Witness of C8: one frame of 200 vertices on the initialised demo context;
the draw has 200 vertices. -/
theorem renderFrame_commands_witness :
    (List.replicate 200 (⟨0, 0⟩ : Vertex ℚ)).length < 2 ^ 32 ∧
    (InitVulkan.renderFrame demoDriver (List.replicate 200 (⟨0, 0⟩ : Vertex ℚ))
      demoMachine).2 ≠ Except.error Exn.outOfRange ∧
    ∃ commandBuffer framebuffer : Handle,
      demoMachine.context.m_commandBuffers[demoDriver.imageIndex
        (demoMachine.trace.length + 1)]? = some commandBuffer ∧
      demoMachine.context.m_swapChainFramebuffers[demoDriver.imageIndex
        (demoMachine.trace.length + 1)]? = some framebuffer ∧
      (Vk.issued (InitVulkan.renderFrame demoDriver
        (List.replicate 200 (⟨0, 0⟩ : Vertex ℚ))) demoMachine).filter
          (fun c => c.recordsInto.isSome) =
        [Call.vkCmdBeginRenderPass commandBuffer demoMachine.context.m_renderPass framebuffer
           demoMachine.context.m_swapChainExtent [[1 / 10, 1 / 10, 1 / 10, 1]],
         Call.vkCmdBindPipeline commandBuffer demoMachine.context.m_graphicsPipeline,
         Call.vkCmdBindVertexBuffers commandBuffer 0 1 [demoMachine.context.m_vertexBuffer]
           [0],
         Call.vkCmdDraw commandBuffer
           (List.replicate 200 (⟨0, 0⟩ : Vertex ℚ)).length 1 0 0,
         Call.vkCmdEndRenderPass commandBuffer] :=
  have hlen : (List.replicate 200 (⟨0, 0⟩ : Vertex ℚ)).length < 2 ^ 32 := by
    rw [List.length_replicate]; norm_num
  have hok := renderFrame_ok_of demoDriver (List.replicate 200 (⟨0, 0⟩ : Vertex ℚ))
    demoMachine demoDriver_result (by decide) (by decide) (by decide)
    demoDriver_imageIndex demoDriver_imageIndex
  have hdef : (InitVulkan.renderFrame demoDriver (List.replicate 200 (⟨0, 0⟩ : Vertex ℚ))
      demoMachine).2 ≠ Except.error Exn.outOfRange := by
    rw [hok]; simp
  ⟨hlen, hdef,
    match renderFrame_commands demoDriver (List.replicate 200 (⟨0, 0⟩ : Vertex ℚ)) demoMachine
      hlen hdef with
    | ⟨cb, fb, h1, h2, _, _, _, h6, _⟩ => ⟨cb, fb, h1, h2, h6⟩⟩

/-- C7: in every `renderFrame` call, whatever its outcome, with `s` the value
of `m_currentFrame` at entry and `img` the acquired image index: every fence
or semaphore given to a call is one of `m_inFlightFences[s]`,
`m_imageAvailableSemaphores[s]`, `m_renderFinishedSemaphores[s]`; the fence
waited on, reset and given to the submit is `m_inFlightFences[s]`; the acquire
signals `m_imageAvailableSemaphores[s]` and no fence; the submit waits on
exactly that semaphore at the colour-attachment-output stage and signals
exactly `m_renderFinishedSemaphores[s]`; the present waits on exactly
`m_renderFinishedSemaphores[s]` and presents exactly `img`.  When the call
returns normally the wait, acquire, fence reset, submit and present are the
calls 0, 1, 13, 14 and 15. -/
theorem renderFrame_slot_objects {F : Type} (d : Driver) (v : List (Vertex F))
    (m : Machine) :
    (∀ c ∈ Vk.issued (InitVulkan.renderFrame d v) m,
      (∀ h ∈ c.syncObjects,
        some h = m.context.m_inFlightFences[m.context.m_currentFrame]? ∨
        some h = m.context.m_imageAvailableSemaphores[m.context.m_currentFrame]? ∨
        some h = m.context.m_renderFinishedSemaphores[m.context.m_currentFrame]?) ∧
      match c with
      | Call.vkWaitForFences _ fences _ _ =>
        fences.map some = [m.context.m_inFlightFences[m.context.m_currentFrame]?]
      | Call.vkAcquireNextImageKHR _ _ _ semaphore fence =>
        some semaphore = m.context.m_imageAvailableSemaphores[m.context.m_currentFrame]? ∧
        fence = 0
      | Call.vkResetFences _ fences =>
        fences.map some = [m.context.m_inFlightFences[m.context.m_currentFrame]?]
      | Call.vkQueueSubmit _ waitSemaphores waitDstStageMask _ signalSemaphores fence =>
        waitSemaphores.map some
          = [m.context.m_imageAvailableSemaphores[m.context.m_currentFrame]?] ∧
        waitDstStageMask = [VK_PIPELINE_STAGE_COLOR_ATTACHMENT_OUTPUT_BIT] ∧
        signalSemaphores.map some
          = [m.context.m_renderFinishedSemaphores[m.context.m_currentFrame]?] ∧
        some fence = m.context.m_inFlightFences[m.context.m_currentFrame]?
      | Call.vkQueuePresentKHR _ waitSemaphores _ imageIndices =>
        waitSemaphores.map some
          = [m.context.m_renderFinishedSemaphores[m.context.m_currentFrame]?] ∧
        imageIndices = [d.imageIndex (m.trace.length + 1)]
      | _ => True) ∧
    ((InitVulkan.renderFrame d v m).2 = Except.ok () →
      ((Vk.issued (InitVulkan.renderFrame d v) m).map Call.name)[0]? = some "vkWaitForFences" ∧
      ((Vk.issued (InitVulkan.renderFrame d v) m).map Call.name)[1]?
        = some "vkAcquireNextImageKHR" ∧
      ((Vk.issued (InitVulkan.renderFrame d v) m).map Call.name)[13]? = some "vkResetFences" ∧
      ((Vk.issued (InitVulkan.renderFrame d v) m).map Call.name)[14]? = some "vkQueueSubmit" ∧
      ((Vk.issued (InitVulkan.renderFrame d v) m).map Call.name)[15]?
        = some "vkQueuePresentKHR") := by
  constructor
  · rcases hF : m.context.m_inFlightFences[m.context.m_currentFrame]? with _ | fence
    · have hi : Vk.issued (InitVulkan.renderFrame d v) m = [] := by
        simp [Vk.issued, InitVulkan.renderFrame, Vk.seq, Vk.get, Vk.index, hF, Vk.raise]
      rw [hi]; simp
    rcases hA : m.context.m_imageAvailableSemaphores[m.context.m_currentFrame]? with _ | ia
    · have hi : Vk.issued (InitVulkan.renderFrame d v) m
          = [Call.vkWaitForFences m.context.m_device [fence] true UINT64_MAX] := by
        simp [Vk.issued, InitVulkan.renderFrame, Vk.seq, Vk.get, Vk.index, hF, hA, Vk.raise,
          Vk.ret, Vk.exec]
      rw [hi]; simp [Call.syncObjects]
    rcases hC : m.context.m_commandBuffers[d.imageIndex (m.trace.length + 1)]? with _ | cb
    · have hi : Vk.issued (InitVulkan.renderFrame d v) m
          = (frameCalls m.context v.length fence ia 0 0 0).take 5 := by
        simp [Vk.issued, InitVulkan.renderFrame, Vk.seq, Vk.get, Vk.index, hF, hA, hC,
          Vk.raise, Vk.ret, Vk.exec, Vk.position, frameCalls]
      rw [hi]; simp [Call.syncObjects, frameCalls]
    rcases hB : m.context.m_swapChainFramebuffers[d.imageIndex (m.trace.length + 1)]?
      with _ | fb
    · have hi : Vk.issued (InitVulkan.renderFrame d v) m
          = (frameCalls m.context v.length fence ia 0 cb 0).take 7 := by
        simp [Vk.issued, InitVulkan.renderFrame, Vk.seq, Vk.get, Vk.index, hF, hA, hC, hB,
          Vk.raise, Vk.ret, Vk.exec, Vk.position, frameCalls]
      rw [hi]; simp [Call.syncObjects, frameCalls]
    rcases hR : m.context.m_renderFinishedSemaphores[m.context.m_currentFrame]? with _ | rf
    · have hi : Vk.issued (InitVulkan.renderFrame d v) m
          = (frameCalls m.context v.length fence ia 0 cb fb).take 13 := by
        simp [Vk.issued, InitVulkan.renderFrame, Vk.seq, Vk.get, Vk.index, hF, hA, hC, hB, hR,
          Vk.raise, Vk.ret, Vk.exec, Vk.position, frameCalls]
      rw [hi]; simp [Call.syncObjects, frameCalls]
    by_cases hS : d.result (m.trace.length + 14) = VK_SUCCESS
    · have hi : Vk.issued (InitVulkan.renderFrame d v) m
          = frameCalls m.context v.length fence ia rf cb fb ++
            [Call.vkQueuePresentKHR m.context.m_presentQueue [rf] [m.context.m_swapChain]
              [d.imageIndex (m.trace.length + 1)]] := by
        apply issued_of_trace
        rw [renderFrame_run d v m hF hA hR hC hB, if_neg (by simp [hS])]
      rw [hi]; simp [Call.syncObjects, frameCalls]
    · have hi : Vk.issued (InitVulkan.renderFrame d v) m
          = frameCalls m.context v.length fence ia rf cb fb := by
        apply issued_of_trace
        rw [renderFrame_run d v m hF hA hR hC hB, if_pos hS]
      rw [hi]; simp [Call.syncObjects, frameCalls]
  · intro hok
    obtain ⟨fence, ia, rf, cb, fb, _, _, _, _, _, hi⟩ := renderFrame_issued_ok d v m hok
    rw [hi]; simp [frameCalls, Call.name]

/-! ### The calls of `initialize` -/

theorem Created.refl (m : Machine) : Created m m [] := ⟨[], by simp, rfl⟩

theorem Created.trans {m m' m'' : Machine} {cs cs' : List Category}
    (h : Created m m' cs) (h' : Created m' m'' cs') : Created m m'' (cs ++ cs') := by
  obtain ⟨t, ht, hc⟩ := h
  obtain ⟨t', ht', hc'⟩ := h'
  exact ⟨t ++ t', by rw [ht', ht, List.append_assoc], by rw [List.filterMap_append, hc, hc']⟩

theorem createInstance_ok (d : Driver) (m : Machine)
    (h : (VulkanHelpers.createInstance d m).2 = Except.ok ()) :
    Created m (VulkanHelpers.createInstance d m).1 [Category.instance_] ∧
    sizes (VulkanHelpers.createInstance d m).1.context = sizes m.context := by
  by_cases hr : d.result m.trace.length = VK_SUCCESS
  · simp [VulkanHelpers.createInstance, Vk.seq, Vk.fresh, Vk.call, Vk.check, Vk.modify,
      Vk.ret, Vk.raise, hr, Created, Call.creates, sizes]
  · simp [VulkanHelpers.createInstance, Vk.seq, Vk.fresh, Vk.call, Vk.check, Vk.modify,
      Vk.ret, Vk.raise, hr] at h

theorem createSurface_ok (d : Driver) (w : Handle) (m : Machine)
    (h : (VulkanHelpers.createSurface d w m).2 = Except.ok ()) :
    Created m (VulkanHelpers.createSurface d w m).1 [Category.surface] ∧
    sizes (VulkanHelpers.createSurface d w m).1.context = sizes m.context := by
  by_cases hr : d.result m.trace.length = VK_SUCCESS
  · simp [VulkanHelpers.createSurface, Vk.seq, Vk.fresh, Vk.call, Vk.check, Vk.modify,
      Vk.ret, Vk.raise, Vk.get, hr, Created, Call.creates, sizes]
  · simp [VulkanHelpers.createSurface, Vk.seq, Vk.fresh, Vk.call, Vk.check, Vk.modify,
      Vk.ret, Vk.raise, Vk.get, hr] at h

theorem pickPhysicalDevice_ok (d : Driver) (m : Machine)
    (h : (VulkanHelpers.pickPhysicalDevice d m).2 = Except.ok ()) :
    Created m (VulkanHelpers.pickPhysicalDevice d m).1 [] ∧
    sizes (VulkanHelpers.pickPhysicalDevice d m).1.context = sizes m.context := by
  rcases hd : d.physicalDevices with _ | ⟨dev, rest⟩
  · simp [VulkanHelpers.pickPhysicalDevice, Vk.seq, Vk.raise, hd] at h
  · by_cases h0 : dev = 0
    · simp [VulkanHelpers.pickPhysicalDevice, Vk.seq, Vk.raise, Vk.modify, Vk.get, hd, h0]
        at h
    · simp [VulkanHelpers.pickPhysicalDevice, Vk.seq, Vk.raise, Vk.modify, Vk.get, hd, h0,
        Vk.ret, Created, sizes]

theorem createLogicalDevice_ok (d : Driver) (m : Machine)
    (h : (VulkanHelpers.createLogicalDevice d m).2 = Except.ok ()) :
    Created m (VulkanHelpers.createLogicalDevice d m).1 [Category.device] ∧
    sizes (VulkanHelpers.createLogicalDevice d m).1.context = sizes m.context := by
  rcases hg : (findQueueFamilies d.queueFamilies).m_graphicsFamily with _ | g
  · simp [VulkanHelpers.createLogicalDevice, Vk.seq, Vk.get, Vk.value, Vk.raise, hg] at h
  rcases hp : (findQueueFamilies d.queueFamilies).m_presentFamily with _ | p
  · simp [VulkanHelpers.createLogicalDevice, Vk.seq, Vk.get, Vk.value, Vk.raise, Vk.ret, hg,
      hp] at h
  by_cases hr : d.result m.trace.length = VK_SUCCESS
  · simp [VulkanHelpers.createLogicalDevice, Vk.seq, Vk.fresh, Vk.call, Vk.check, Vk.modify,
      Vk.ret, Vk.raise, Vk.get, Vk.value, hg, hp, hr, Created, Call.creates, sizes]
  · simp [VulkanHelpers.createLogicalDevice, Vk.seq, Vk.fresh, Vk.call, Vk.check, Vk.modify,
      Vk.ret, Vk.raise, Vk.get, Vk.value, hg, hp, hr] at h

theorem createSwapChain_ok (d : Driver) (m : Machine)
    (h : (VulkanHelpers.createSwapChain d m).2 = Except.ok ()) :
    Created m (VulkanHelpers.createSwapChain d m).1 [Category.swapchain] ∧
    sizes (VulkanHelpers.createSwapChain d m).1.context
      = { sizes m.context with images := d.swapchainImages.length } := by
  rcases hf : pickSurfaceFormat d.formats with _ | fmt
  · simp [VulkanHelpers.createSwapChain, Vk.seq, Vk.get, Vk.raise, hf] at h
  rcases he : pickExtent d.caps m.context.m_window d.framebufferSize with e | extent
  · simp [VulkanHelpers.createSwapChain, Vk.seq, Vk.get, Vk.raise, Vk.ret, Vk.lift, hf, he]
      at h
  rcases hg : (findQueueFamilies d.queueFamilies).m_graphicsFamily with _ | g
  · simp [VulkanHelpers.createSwapChain, Vk.seq, Vk.get, Vk.value, Vk.raise, Vk.ret, Vk.lift,
      hf, he, hg] at h
  rcases hp : (findQueueFamilies d.queueFamilies).m_presentFamily with _ | p
  · simp [VulkanHelpers.createSwapChain, Vk.seq, Vk.get, Vk.value, Vk.raise, Vk.ret, Vk.lift,
      hf, he, hg, hp] at h
  by_cases hr : d.result m.trace.length = VK_SUCCESS
  · simp [VulkanHelpers.createSwapChain, Vk.seq, Vk.fresh, Vk.call, Vk.check, Vk.modify,
      Vk.ret, Vk.raise, Vk.get, Vk.value, Vk.lift, hf, he, hg, hp, hr, Created,
      Call.creates, sizes]
  · simp [VulkanHelpers.createSwapChain, Vk.seq, Vk.fresh, Vk.call, Vk.check, Vk.modify,
      Vk.ret, Vk.raise, Vk.get, Vk.value, Vk.lift, hf, he, hg, hp, hr] at h

theorem resize_length (v : List Handle) (n : ℕ) : (resize v n).length = n := by
  simp [resize]; omega

theorem createImageViews_loop_ok (d : Driver) (images : List Handle) :
    ∀ (i : ℕ) (m : Machine),
      (VulkanHelpers.createImageViews.loop d i images m).2 = Except.ok () →
      Created m (VulkanHelpers.createImageViews.loop d i images m).1
        (List.replicate images.length Category.imageViews) ∧
      sizes (VulkanHelpers.createImageViews.loop d i images m).1.context
        = sizes m.context := by
  induction images with
  | nil =>
    intro i m _
    simp [VulkanHelpers.createImageViews.loop, Vk.ret, Created.refl]
  | cons image images ih =>
    intro i m h
    by_cases hr : d.result m.trace.length = VK_SUCCESS
    · simp only [VulkanHelpers.createImageViews.loop, Vk.bind_eq, Vk.seq, Vk.get, Vk.fresh,
        Vk.call, Vk.check, hr, ne_eq, not_true_eq_false, if_false, Vk.ret, Vk.modify]
        at h ⊢
      obtain ⟨hc, hs⟩ := ih _ _ h
      constructor
      · have h1 : Created m
            { trace := m.trace ++ [Call.vkCreateImageView m.context.m_device image m.nextHandle],
              nextHandle := m.nextHandle + 1,
              context := { m.context with
                m_swapChainImageViews :=
                  m.context.m_swapChainImageViews.set i m.nextHandle } }
            [Category.imageViews] := ⟨_, rfl, rfl⟩
        have := h1.trans hc
        simpa [List.replicate_succ] using this
      · rw [hs]; simp [sizes]
    · simp [VulkanHelpers.createImageViews.loop, Vk.seq, Vk.get, Vk.fresh, Vk.call, Vk.check,
        hr, Vk.raise] at h

theorem createImageViews_ok (d : Driver) (m : Machine)
    (h : (VulkanHelpers.createImageViews d m).2 = Except.ok ()) :
    Created m (VulkanHelpers.createImageViews d m).1
      (List.replicate (sizes m.context).images Category.imageViews) ∧
    sizes (VulkanHelpers.createImageViews d m).1.context
      = { sizes m.context with imageViews := (sizes m.context).images } := by
  simp only [VulkanHelpers.createImageViews, Vk.bind_eq, Vk.seq, Vk.modify, Vk.get] at h ⊢
  obtain ⟨hc, hs⟩ := createImageViews_loop_ok d _ _ _ h
  constructor
  · obtain ⟨t, ht, hcs⟩ := hc
    exact ⟨t, ht, by simpa [sizes] using hcs⟩
  · rw [hs]; simp [sizes, resize_length]

theorem createRenderPass_ok (d : Driver) (m : Machine)
    (h : (VulkanHelpers.createRenderPass d m).2 = Except.ok ()) :
    Created m (VulkanHelpers.createRenderPass d m).1 [Category.renderPass] ∧
    sizes (VulkanHelpers.createRenderPass d m).1.context = sizes m.context := by
  by_cases hr : d.result m.trace.length = VK_SUCCESS
  · simp [VulkanHelpers.createRenderPass, Vk.seq, Vk.fresh, Vk.call, Vk.check, Vk.modify,
      Vk.ret, Vk.raise, Vk.get, hr, Created, Call.creates, sizes]
  · simp [VulkanHelpers.createRenderPass, Vk.seq, Vk.fresh, Vk.call, Vk.check, Vk.modify,
      Vk.ret, Vk.raise, Vk.get, hr] at h

theorem readFile_machine (d : Driver) (filename : String) (m : Machine) :
    (readFile d filename m).1 = m := by
  unfold readFile
  rcases d.fileSize filename with _ | k <;> simp [Vk.raise, Vk.ret]

theorem createShaderModule_ok (d : Driver) (codeSize : ℕ) (device : Handle) (m : Machine)
    (a : Handle) (h : (createShaderModule d codeSize device m).2 = Except.ok a) :
    Created m (createShaderModule d codeSize device m).1 [] ∧
    sizes (createShaderModule d codeSize device m).1.context = sizes m.context := by
  by_cases hr : d.result m.trace.length = VK_SUCCESS
  · simp [createShaderModule, Vk.seq, Vk.fresh, Vk.call, Vk.check, Vk.ret, Vk.raise, hr,
      Created, Call.creates]
  · simp [createShaderModule, Vk.seq, Vk.fresh, Vk.call, Vk.check, Vk.ret, Vk.raise, hr] at h

theorem createGraphicsPipeline_ok (d : Driver) (stages : List Handle) (m : Machine)
    (h : (VulkanHelpers.createGraphicsPipeline d stages m).2 = Except.ok ()) :
    Created m (VulkanHelpers.createGraphicsPipeline d stages m).1
      [Category.pipeline, Category.pipeline] ∧
    sizes (VulkanHelpers.createGraphicsPipeline d stages m).1.context = sizes m.context := by
  by_cases hr : d.result m.trace.length = VK_SUCCESS
  · by_cases hr2 : d.result (m.trace.length + 1) = VK_SUCCESS
    · simp [VulkanHelpers.createGraphicsPipeline, Vk.seq, Vk.fresh, Vk.call, Vk.check,
        Vk.modify, Vk.ret, Vk.raise, Vk.get, hr, hr2, Created, Call.creates, sizes]
    · simp [VulkanHelpers.createGraphicsPipeline, Vk.seq, Vk.fresh, Vk.call, Vk.check,
        Vk.modify, Vk.ret, Vk.raise, Vk.get, hr, hr2] at h
  · simp [VulkanHelpers.createGraphicsPipeline, Vk.seq, Vk.fresh, Vk.call, Vk.check,
      Vk.modify, Vk.ret, Vk.raise, Vk.get, hr] at h

theorem exec_destroyShaderModule (device shaderModule : Handle) (m : Machine) :
    Created m (Vk.exec (Call.vkDestroyShaderModule device shaderModule) m).1 [] ∧
    sizes (Vk.exec (Call.vkDestroyShaderModule device shaderModule) m).1.context
      = sizes m.context := by
  simp [Vk.exec, Created, Call.creates]

theorem createFramebuffers_loop_ok (d : Driver) (imageViews : List Handle) :
    ∀ (i : ℕ) (m : Machine),
      (VulkanHelpers.createFramebuffers.loop d i imageViews m).2 = Except.ok () →
      Created m (VulkanHelpers.createFramebuffers.loop d i imageViews m).1
        (List.replicate imageViews.length Category.framebuffers) ∧
      sizes (VulkanHelpers.createFramebuffers.loop d i imageViews m).1.context
        = sizes m.context := by
  induction imageViews with
  | nil =>
    intro i m _
    simp [VulkanHelpers.createFramebuffers.loop, Vk.ret, Created.refl]
  | cons imageView imageViews ih =>
    intro i m h
    by_cases hr : d.result m.trace.length = VK_SUCCESS
    · simp only [VulkanHelpers.createFramebuffers.loop, Vk.bind_eq, Vk.seq, Vk.get, Vk.fresh,
        Vk.call, Vk.check, hr, ne_eq, not_true_eq_false, if_false, Vk.ret, Vk.modify]
        at h ⊢
      obtain ⟨hc, hs⟩ := ih _ _ h
      constructor
      · have h1 : Created m
            { trace := m.trace ++ [Call.vkCreateFramebuffer m.context.m_device
                m.context.m_renderPass imageView m.nextHandle],
              nextHandle := m.nextHandle + 1,
              context := { m.context with
                m_swapChainFramebuffers :=
                  m.context.m_swapChainFramebuffers.set i m.nextHandle } }
            [Category.framebuffers] := ⟨_, rfl, rfl⟩
        have := h1.trans hc
        simpa [List.replicate_succ] using this
      · rw [hs]; simp [sizes]
    · simp [VulkanHelpers.createFramebuffers.loop, Vk.seq, Vk.get, Vk.fresh, Vk.call,
        Vk.check, hr, Vk.raise] at h

theorem createFramebuffers_ok (d : Driver) (m : Machine)
    (h : (VulkanHelpers.createFramebuffers d m).2 = Except.ok ()) :
    Created m (VulkanHelpers.createFramebuffers d m).1
      (List.replicate (sizes m.context).imageViews Category.framebuffers) ∧
    sizes (VulkanHelpers.createFramebuffers d m).1.context
      = { sizes m.context with framebuffers := (sizes m.context).imageViews } := by
  simp only [VulkanHelpers.createFramebuffers, Vk.bind_eq, Vk.seq, Vk.modify, Vk.get] at h ⊢
  obtain ⟨hc, hs⟩ := createFramebuffers_loop_ok d _ _ _ h
  constructor
  · obtain ⟨t, ht, hcs⟩ := hc
    exact ⟨t, ht, by simpa [sizes] using hcs⟩
  · rw [hs]; simp [sizes, resize_length]

theorem createCommandPool_ok (d : Driver) (m : Machine)
    (h : (VulkanHelpers.createCommandPool d m).2 = Except.ok ()) :
    Created m (VulkanHelpers.createCommandPool d m).1 [Category.commandPool] ∧
    sizes (VulkanHelpers.createCommandPool d m).1.context = sizes m.context := by
  rcases hg : (findQueueFamilies d.queueFamilies).m_graphicsFamily with _ | g
  · simp [VulkanHelpers.createCommandPool, Vk.seq, Vk.get, Vk.value, Vk.raise, hg] at h
  by_cases hr : d.result m.trace.length = VK_SUCCESS
  · simp [VulkanHelpers.createCommandPool, Vk.seq, Vk.fresh, Vk.call, Vk.check, Vk.modify,
      Vk.ret, Vk.raise, Vk.get, Vk.value, hg, hr, Created, Call.creates, sizes]
  · simp [VulkanHelpers.createCommandPool, Vk.seq, Vk.fresh, Vk.call, Vk.check, Vk.modify,
      Vk.ret, Vk.raise, Vk.get, Vk.value, hg, hr] at h

theorem createCommandBuffers_ok (d : Driver) (m : Machine)
    (h : (VulkanHelpers.createCommandBuffers d m).2 = Except.ok ()) :
    Created m (VulkanHelpers.createCommandBuffers d m).1 [] ∧
    sizes (VulkanHelpers.createCommandBuffers d m).1.context = sizes m.context := by
  by_cases hr : d.result m.trace.length = VK_SUCCESS
  · simp [VulkanHelpers.createCommandBuffers, Vk.seq, Vk.freshN, Vk.call, Vk.check, Vk.modify,
      Vk.ret, Vk.raise, Vk.get, hr, Created, Call.creates, sizes]
  · simp [VulkanHelpers.createCommandBuffers, Vk.seq, Vk.freshN, Vk.call, Vk.check,
      Vk.modify, Vk.ret, Vk.raise, Vk.get, hr] at h

theorem createSyncObjects_body_ok (d : Driver) (i : ℕ) (m : Machine)
    (h : (VulkanHelpers.createSyncObjects.body d i m).2 = Except.ok ()) :
    Created m (VulkanHelpers.createSyncObjects.body d i m).1
      [Category.syncObjects, Category.syncObjects, Category.syncObjects] ∧
    sizes (VulkanHelpers.createSyncObjects.body d i m).1.context = sizes m.context := by
  by_cases hr : d.result m.trace.length = VK_SUCCESS
  · by_cases hr2 : d.result (m.trace.length + 1) = VK_SUCCESS
    · by_cases hr3 : d.result (m.trace.length + 2) = VK_SUCCESS
      · simp [VulkanHelpers.createSyncObjects.body, Vk.seq, Vk.fresh, Vk.call, Vk.check,
          Vk.modify, Vk.ret, Vk.raise, Vk.get, hr, hr2, hr3, Created, Call.creates, sizes]
      · simp [VulkanHelpers.createSyncObjects.body, Vk.seq, Vk.fresh, Vk.call, Vk.check,
          Vk.modify, Vk.ret, Vk.raise, Vk.get, hr, hr2, hr3] at h
    · simp [VulkanHelpers.createSyncObjects.body, Vk.seq, Vk.fresh, Vk.call, Vk.check,
        Vk.modify, Vk.ret, Vk.raise, Vk.get, hr, hr2] at h
  · simp [VulkanHelpers.createSyncObjects.body, Vk.seq, Vk.fresh, Vk.call, Vk.check,
      Vk.modify, Vk.ret, Vk.raise, Vk.get, hr] at h

theorem Vk.seq_ok' {α β : Type} {x : Vk α} {f : α → Vk β} {m : Machine} {b : β}
    (h : (Vk.seq x f m).2 = Except.ok b) :
    ∃ a, (x m).2 = Except.ok a ∧ (f a (x m).1).2 = Except.ok b ∧
      (Vk.seq x f m).1 = (f a (x m).1).1 := by
  unfold Vk.seq at h ⊢
  rcases hx : x m with ⟨m', r⟩
  rw [hx] at h
  cases r with
  | error e => simp at h
  | ok a => exact ⟨a, rfl, h, rfl⟩

theorem createSyncObjects_ok (d : Driver) (m : Machine)
    (h : (VulkanHelpers.createSyncObjects d m).2 = Except.ok ()) :
    Created m (VulkanHelpers.createSyncObjects d m).1
      (List.replicate 6 Category.syncObjects) ∧
    sizes (VulkanHelpers.createSyncObjects d m).1.context
      = { sizes m.context with imageAvailable := 2, renderFinished := 2, inFlight := 2 } := by
  have hrange : List.range MAX_FRAMES_IN_FLIGHT = [0, 1] := rfl
  simp only [VulkanHelpers.createSyncObjects, Vk.bind_eq, hrange, Vk.forEach] at h ⊢
  obtain ⟨_, -, h1, e1⟩ := Vk.seq_ok' h
  rw [e1]
  obtain ⟨_, hb0, h2, e2⟩ := Vk.seq_ok' h1
  rw [e2]
  obtain ⟨_, hb1, -, e3⟩ := Vk.seq_ok' h2
  rw [e3]
  obtain ⟨c0, s0⟩ := createSyncObjects_body_ok d 0 _ hb0
  obtain ⟨c1, s1⟩ := createSyncObjects_body_ok d 1 _ hb1
  constructor
  · have hm : Created m (Vk.modify (fun c => { c with
        m_imageAvailableSemaphores := resize c.m_imageAvailableSemaphores MAX_FRAMES_IN_FLIGHT
        m_renderFinishedSemaphores := resize c.m_renderFinishedSemaphores MAX_FRAMES_IN_FLIGHT
        m_inFlightFences := resize c.m_inFlightFences MAX_FRAMES_IN_FLIGHT }) m).1 [] :=
      ⟨[], by simp [Vk.modify], rfl⟩
    have := (hm.trans c0).trans c1
    simpa [Vk.ret, List.replicate] using this
  · simp only [Vk.ret]
    rw [s1, s0]
    simp [sizes, Vk.modify, resize_length, MAX_FRAMES_IN_FLIGHT]

theorem createVertexBuffer_ok (d : Driver) (m : Machine)
    (h : (VulkanHelpers.createVertexBuffer d m).2 = Except.ok ()) :
    Created m (VulkanHelpers.createVertexBuffer d m).1
      [Category.vertexBuffer, Category.vertexBuffer] ∧
    sizes (VulkanHelpers.createVertexBuffer d m).1.context = sizes m.context := by
  by_cases hr : d.result m.trace.length = VK_SUCCESS
  · rcases hf : findMemoryType d.memoryProperties d.memoryRequirements.memoryTypeBits
        (VK_MEMORY_PROPERTY_HOST_VISIBLE_BIT ||| VK_MEMORY_PROPERTY_HOST_COHERENT_BIT)
      with e | idx
    · simp [VulkanHelpers.createVertexBuffer, createBuffer, VK_CHECK, Vk.seq, Vk.fresh,
        Vk.call, Vk.check, Vk.modify, Vk.ret, Vk.raise, Vk.get, Vk.lift, hr, hf] at h
    · by_cases hr2 : d.result (m.trace.length + 1) = VK_SUCCESS
      · simp [VulkanHelpers.createVertexBuffer, createBuffer, VK_CHECK, Vk.seq, Vk.fresh,
          Vk.call, Vk.check, Vk.modify, Vk.ret, Vk.raise, Vk.get, Vk.lift, Vk.exec, hr, hf,
          hr2, Created, Call.creates, sizes]
      · simp [VulkanHelpers.createVertexBuffer, createBuffer, VK_CHECK, Vk.seq, Vk.fresh,
          Vk.call, Vk.check, Vk.modify, Vk.ret, Vk.raise, Vk.get, Vk.lift, Vk.exec, hr, hf,
          hr2] at h
  · simp [VulkanHelpers.createVertexBuffer, createBuffer, VK_CHECK, Vk.seq, Vk.fresh,
      Vk.call, Vk.check, Vk.modify, Vk.ret, Vk.raise, Vk.get, Vk.lift, hr] at h

theorem initialize_ok (d : Driver) (t_window : Handle) (m : Machine)
    (h : ( InitVulkan.initialize d t_window m).2 = Except.ok ()) :
    Created m ( InitVulkan.initialize d t_window m).1
      ([Category.instance_, Category.surface, Category.device, Category.swapchain]
        ++ List.replicate d.swapchainImages.length Category.imageViews
        ++ [Category.renderPass, Category.pipeline, Category.pipeline, Category.pipeline,
          Category.pipeline]
        ++ List.replicate d.swapchainImages.length Category.framebuffers
        ++ [Category.commandPool]
        ++ List.replicate 6 Category.syncObjects
        ++ [Category.vertexBuffer, Category.vertexBuffer]) ∧
    sizes ( InitVulkan.initialize d t_window m).1.context =
      { images := d.swapchainImages.length
        imageViews := d.swapchainImages.length
        framebuffers := d.swapchainImages.length
        imageAvailable := 2
        renderFinished := 2
        inFlight := 2 } := by
  unfold InitVulkan.initialize at h ⊢
  simp only [Vk.bind_eq, Vk.pure_eq] at h ⊢
  by_cases hw : t_window = 0
  · simp [hw, Vk.seq, Vk.raise] at h
  simp only [hw, if_false] at h ⊢
  -- the assignment of the window
  obtain ⟨_, -, h, e⟩ := Vk.seq_ok' h
  rw [e]; clear e
  obtain ⟨_, -, h, e⟩ := Vk.seq_ok' h
  rw [e]; clear e
  have c0 : Created m (Vk.modify (fun c => { c with m_window := t_window })
      (Vk.ret PUnit.unit m).1).1 [] := ⟨[], by simp [Vk.modify, Vk.ret], rfl⟩
  have s0 : sizes (Vk.modify (fun c => { c with m_window := t_window })
      (Vk.ret PUnit.unit m).1).1.context = sizes m.context := by
    simp [Vk.modify, Vk.ret, sizes]
  generalize (Vk.modify (fun c => { c with m_window := t_window })
      (Vk.ret PUnit.unit m).1).1 = m0 at h c0 s0 ⊢
  obtain ⟨a1, k1, h1, e⟩ := Vk.seq_ok' h
  rw [e]; clear e h
  rename' h1 => h
  obtain ⟨c1, s1⟩ := createInstance_ok d m0 k1
  clear k1
  generalize (VulkanHelpers.createInstance d m0).1 = m1 at h c1 s1 ⊢
  obtain ⟨a2, k2, h2, e⟩ := Vk.seq_ok' h
  rw [e]; clear e h
  rename' h2 => h
  obtain ⟨c2, s2⟩ := createSurface_ok d t_window m1 k2
  clear k2
  generalize (VulkanHelpers.createSurface d t_window m1).1 = m2 at h c2 s2 ⊢
  obtain ⟨a3, k3, h3, e⟩ := Vk.seq_ok' h
  rw [e]; clear e h
  rename' h3 => h
  obtain ⟨c3, s3⟩ := pickPhysicalDevice_ok d m2 k3
  clear k3
  generalize (VulkanHelpers.pickPhysicalDevice d m2).1 = m3 at h c3 s3 ⊢
  obtain ⟨a4, k4, h4, e⟩ := Vk.seq_ok' h
  rw [e]; clear e h
  rename' h4 => h
  obtain ⟨c4, s4⟩ := createLogicalDevice_ok d m3 k4
  clear k4
  generalize (VulkanHelpers.createLogicalDevice d m3).1 = m4 at h c4 s4 ⊢
  obtain ⟨a5, k5, h5, e⟩ := Vk.seq_ok' h
  rw [e]; clear e h
  rename' h5 => h
  obtain ⟨c5, s5⟩ := createSwapChain_ok d m4 k5
  clear k5
  generalize (VulkanHelpers.createSwapChain d m4).1 = m5 at h c5 s5 ⊢
  obtain ⟨a6, k6, h6, e⟩ := Vk.seq_ok' h
  rw [e]; clear e h
  rename' h6 => h
  obtain ⟨c6, s6⟩ := createImageViews_ok d m5 k6
  clear k6
  generalize (VulkanHelpers.createImageViews d m5).1 = m6 at h c6 s6 ⊢
  obtain ⟨a7, k7, h7, e⟩ := Vk.seq_ok' h
  rw [e]; clear e h
  rename' h7 => h
  obtain ⟨c7, s7⟩ := createRenderPass_ok d m6 k7
  clear k7
  generalize (VulkanHelpers.createRenderPass d m6).1 = m7 at h c7 s7 ⊢
  obtain ⟨a8, k8, h8, e⟩ := Vk.seq_ok' h
  rw [e]; clear e h
  rename' h8 => h
  rw [readFile_machine] at h ⊢
  clear k8
  obtain ⟨a9, k9, h9, e⟩ := Vk.seq_ok' h
  rw [e]; clear e h
  rename' h9 => h
  rw [readFile_machine] at h ⊢
  clear k9
  obtain ⟨a10, k10, h10, e⟩ := Vk.seq_ok' h
  rw [e]; clear e h
  rename' h10 => h
  have g10 : (Vk.get m7).1 = m7 := rfl
  rw [g10] at h ⊢
  clear g10 k10
  obtain ⟨a11, k11, h11, e⟩ := Vk.seq_ok' h
  rw [e]; clear e h
  rename' h11 => h
  obtain ⟨c11, s11⟩ := createShaderModule_ok d a8 a10.m_device m7 a11 k11
  clear k11
  generalize (createShaderModule d a8 a10.m_device m7).1 = m11 at h c11 s11 ⊢
  obtain ⟨a12, k12, h12, e⟩ := Vk.seq_ok' h
  rw [e]; clear e h
  rename' h12 => h
  obtain ⟨c12, s12⟩ := createShaderModule_ok d a9 a10.m_device m11 a12 k12
  clear k12
  generalize (createShaderModule d a9 a10.m_device m11).1 = m12 at h c12 s12 ⊢
  obtain ⟨a13, k13, h13, e⟩ := Vk.seq_ok' h
  rw [e]; clear e h
  rename' h13 => h
  obtain ⟨c13, s13⟩ := createGraphicsPipeline_ok d [a11, a12] m12 k13
  clear k13
  generalize (VulkanHelpers.createGraphicsPipeline d [a11, a12] m12).1 = m13 at h c13 s13 ⊢
  obtain ⟨a14, k14, h14, e⟩ := Vk.seq_ok' h
  rw [e]; clear e h
  rename' h14 => h
  obtain ⟨c14, s14⟩ := exec_destroyShaderModule a10.m_device a11 m13
  clear k14
  generalize (Vk.exec (Call.vkDestroyShaderModule a10.m_device a11) m13).1 = m14 at h c14 s14 ⊢
  obtain ⟨a15, k15, h15, e⟩ := Vk.seq_ok' h
  rw [e]; clear e h
  rename' h15 => h
  obtain ⟨c15, s15⟩ := exec_destroyShaderModule a10.m_device a12 m14
  clear k15
  generalize (Vk.exec (Call.vkDestroyShaderModule a10.m_device a12) m14).1 = m15 at h c15 s15 ⊢
  obtain ⟨a16, k16, h16, e⟩ := Vk.seq_ok' h
  rw [e]; clear e h
  rename' h16 => h
  obtain ⟨c16, s16⟩ := createGraphicsPipeline_ok d [a11, a12] m15 k16
  clear k16
  generalize (VulkanHelpers.createGraphicsPipeline d [a11, a12] m15).1 = m16 at h c16 s16 ⊢
  obtain ⟨a17, k17, h17, e⟩ := Vk.seq_ok' h
  rw [e]; clear e h
  rename' h17 => h
  obtain ⟨c17, s17⟩ := createFramebuffers_ok d m16 k17
  clear k17
  generalize (VulkanHelpers.createFramebuffers d m16).1 = m17 at h c17 s17 ⊢
  obtain ⟨a18, k18, h18, e⟩ := Vk.seq_ok' h
  rw [e]; clear e h
  rename' h18 => h
  obtain ⟨c18, s18⟩ := createCommandPool_ok d m17 k18
  clear k18
  generalize (VulkanHelpers.createCommandPool d m17).1 = m18 at h c18 s18 ⊢
  obtain ⟨a19, k19, h19, e⟩ := Vk.seq_ok' h
  rw [e]; clear e h
  rename' h19 => h
  obtain ⟨c19, s19⟩ := createCommandBuffers_ok d m18 k19
  clear k19
  generalize (VulkanHelpers.createCommandBuffers d m18).1 = m19 at h c19 s19 ⊢
  obtain ⟨a20, k20, h20, e⟩ := Vk.seq_ok' h
  rw [e]; clear e h
  rename' h20 => h
  obtain ⟨c20, s20⟩ := createSyncObjects_ok d m19 k20
  clear k20
  generalize (VulkanHelpers.createSyncObjects d m19).1 = m20 at h c20 s20 ⊢
  obtain ⟨c21, s21⟩ := createVertexBuffer_ok d m20 h
  generalize (VulkanHelpers.createVertexBuffer d m20).1 = m21 at c21 s21 ⊢
  have e5 : (sizes m5.context).images = d.swapchainImages.length := by rw [s5]
  have e16 : (sizes m16.context).imageViews = d.swapchainImages.length := by
    rw [s16, s15, s14, s13, s12, s11, s7, s6, e5]
  rw [e5] at c6
  rw [e16] at c17
  constructor
  · have hc := ((((((((((((((((((c0.trans c1).trans c2).trans c3).trans c4).trans c5).trans c6).trans c7).trans c11).trans c12).trans c13).trans c14).trans c15).trans c16).trans c17).trans c18).trans c19).trans c20).trans c21)
    simpa using hc
  · rw [s21, s20, s19, s18, s17, s16, s15, s14, s13, s12, s11, s7, s6, s5]

theorem mergeAdjacent_cons_replicate {α : Type} [DecidableEq α] (a : α) (k : ℕ) (l : List α) :
    mergeAdjacent (a :: (List.replicate k a ++ l)) = mergeAdjacent (a :: l) := by
  induction k with
  | zero => simp
  | succ k ih =>
    rw [List.replicate_succ, List.cons_append, mergeAdjacent, if_pos rfl, ih]

theorem filterMap_destroys_map {α : Type} (g : α → Call) (c : Category)
    (h : ∀ a, (g a).destroys = some c) (l : List α) :
    (l.map g).filterMap Call.destroys = List.replicate l.length c := by
  induction l with
  | nil => rfl
  | cons a l ih => simp [List.filterMap_cons, h, ih, List.replicate_succ]

theorem cleanupCalls_destroys (c : VulkanContext) :
    (cleanupCalls c).filterMap Call.destroys =
      [Category.vertexBuffer, Category.vertexBuffer]
      ++ List.replicate (sizes c).inFlight Category.syncObjects
      ++ List.replicate (sizes c).renderFinished Category.syncObjects
      ++ List.replicate (sizes c).imageAvailable Category.syncObjects
      ++ [Category.commandPool]
      ++ List.replicate (sizes c).framebuffers Category.framebuffers
      ++ [Category.pipeline, Category.pipeline, Category.renderPass]
      ++ List.replicate (sizes c).imageViews Category.imageViews
      ++ [Category.swapchain, Category.device, Category.surface, Category.instance_] := by
  simp only [cleanupCalls, List.filterMap_append,
    filterMap_destroys_map (Call.vkDestroyFence c.m_device) Category.syncObjects (fun _ => rfl),
    filterMap_destroys_map (Call.vkDestroySemaphore c.m_device) Category.syncObjects
      (fun _ => rfl),
    filterMap_destroys_map (Call.vkDestroyFramebuffer c.m_device) Category.framebuffers
      (fun _ => rfl),
    filterMap_destroys_map (Call.vkDestroyImageView c.m_device) Category.imageViews
      (fun _ => rfl), sizes]
  rfl

theorem map_name_map {α : Type} (g : α → Call) (s : String) (h : ∀ a, (g a).name = s)
    (l : List α) : (l.map g).map Call.name = List.replicate l.length s := by
  induction l with
  | nil => rfl
  | cons a l ih => simp only [List.map_cons, h, ih, List.length_cons, List.replicate_succ]

theorem cleanupCalls_names (c : VulkanContext) :
    (cleanupCalls c).map Call.name =
      ["vkDeviceWaitIdle", "vkDestroyBuffer", "vkFreeMemory"]
      ++ List.replicate (sizes c).inFlight "vkDestroyFence"
      ++ List.replicate (sizes c).renderFinished "vkDestroySemaphore"
      ++ List.replicate (sizes c).imageAvailable "vkDestroySemaphore"
      ++ ["vkDestroyCommandPool"]
      ++ List.replicate (sizes c).framebuffers "vkDestroyFramebuffer"
      ++ ["vkDestroyPipeline", "vkDestroyPipelineLayout", "vkDestroyRenderPass"]
      ++ List.replicate (sizes c).imageViews "vkDestroyImageView"
      ++ ["vkDestroySwapchainKHR", "vkDestroyDevice", "vkDestroySurfaceKHR",
        "vkDestroyInstance"] := by
  simp only [cleanupCalls, List.map_append,
    map_name_map (Call.vkDestroyFence c.m_device) "vkDestroyFence" (fun _ => rfl),
    map_name_map (Call.vkDestroySemaphore c.m_device) "vkDestroySemaphore" (fun _ => rfl),
    map_name_map (Call.vkDestroyFramebuffer c.m_device) "vkDestroyFramebuffer"
      (fun _ => rfl),
    map_name_map (Call.vkDestroyImageView c.m_device) "vkDestroyImageView" (fun _ => rfl),
    sizes]
  rfl

theorem except_ok_of_isOk {x : Except Exn Unit} (h : x.toBool = true) : x = Except.ok () := by
  cases x with
  | error e => simp [Except.toBool] at h
  | ok a => rfl

theorem demo_initialize_ok : ( InitVulkan.initialize demoDriver 7 {}).2 = Except.ok () :=
  except_ok_of_isOk (by decide!)

/-- C9: after an `initialize` that returned normally, `cleanup` issues the
device idle-wait, then destroys the vertex buffer and frees its memory, the
fences and the semaphores of the slots, the command pool, the framebuffers,
the pipeline and then its layout, the render pass, the image views, the
swapchain, the logical device, the surface and the instance; the categories of
this sequence, each taken once, are the categories that `initialize` created,
in the reverse order of their creation. -/
theorem cleanup_reverses_creation (d : Driver) (t_window : Handle) (m : Machine)
    (hok : ( InitVulkan.initialize d t_window m).2 = Except.ok ()) :
    destructionOrder (Vk.issued InitVulkan.cleanup ( InitVulkan.initialize d t_window m).1)
      = (creationOrder (Vk.issued ( InitVulkan.initialize d t_window) m)).reverse ∧
    (d.swapchainImages ≠ [] →
      destructionOrder
          (Vk.issued InitVulkan.cleanup ( InitVulkan.initialize d t_window m).1) =
        [Category.vertexBuffer, Category.syncObjects, Category.commandPool,
          Category.framebuffers, Category.pipeline, Category.renderPass,
          Category.imageViews, Category.swapchain, Category.device, Category.surface,
          Category.instance_]) ∧
    (Vk.issued InitVulkan.cleanup ( InitVulkan.initialize d t_window m).1).map Call.name =
      ["vkDeviceWaitIdle", "vkDestroyBuffer", "vkFreeMemory"]
      ++ List.replicate 2 "vkDestroyFence"
      ++ List.replicate 4 "vkDestroySemaphore"
      ++ ["vkDestroyCommandPool"]
      ++ List.replicate d.swapchainImages.length "vkDestroyFramebuffer"
      ++ ["vkDestroyPipeline", "vkDestroyPipelineLayout", "vkDestroyRenderPass"]
      ++ List.replicate d.swapchainImages.length "vkDestroyImageView"
      ++ ["vkDestroySwapchainKHR", "vkDestroyDevice", "vkDestroySurfaceKHR",
        "vkDestroyInstance"] := by
  obtain ⟨⟨t, ht, hcs⟩, hs⟩ := initialize_ok d t_window m hok
  have hi : Vk.issued ( InitVulkan.initialize d t_window) m = t := issued_of_trace _ m t ht
  have hn := cleanupCalls_names ( InitVulkan.initialize d t_window m).1.context
  rw [hi, cleanup_issued, hn]
  unfold creationOrder destructionOrder
  rw [hcs, cleanupCalls_destroys, hs]
  simp only []
  refine ⟨?_, ?_, ?_⟩
  · rcases Nat.eq_zero_or_pos d.swapchainImages.length with h0 | hpos
    · rw [h0]; decide
    · obtain ⟨k, hk⟩ : ∃ k, d.swapchainImages.length = k + 1 := ⟨_, (Nat.succ_pred_eq_of_pos hpos).symm⟩
      rw [hk]
      simp [List.replicate_succ, mergeAdjacent, mergeAdjacent_cons_replicate]
  · intro hne
    obtain ⟨k, hk⟩ : ∃ k, d.swapchainImages.length = k + 1 :=
      ⟨_, (Nat.succ_pred_eq_of_pos (List.length_pos.2 hne)).symm⟩
    rw [hk]
    simp [List.replicate_succ, mergeAdjacent, mergeAdjacent_cons_replicate]
  · simp [List.replicate]

/-- Witness of C9: the demo backend with three swapchain images. -/
theorem cleanup_reverses_creation_witness :
    ( InitVulkan.initialize demoDriver 7 {}).2 = Except.ok () ∧
    destructionOrder
        (Vk.issued InitVulkan.cleanup ( InitVulkan.initialize demoDriver 7 {}).1) =
      [Category.vertexBuffer, Category.syncObjects, Category.commandPool,
        Category.framebuffers, Category.pipeline, Category.renderPass,
        Category.imageViews, Category.swapchain, Category.device, Category.surface,
        Category.instance_] ∧
    creationOrder (Vk.issued ( InitVulkan.initialize demoDriver 7) {}) =
      [Category.instance_, Category.surface, Category.device, Category.swapchain,
        Category.imageViews, Category.renderPass, Category.pipeline, Category.framebuffers,
        Category.commandPool, Category.syncObjects, Category.vertexBuffer] :=
  have h := cleanup_reverses_creation demoDriver 7 {} demo_initialize_ok
  have h2 := h.2.1 (by decide)
  ⟨demo_initialize_ok, h2, by
    have h1 := h.1
    rw [h2] at h1
    have := congrArg List.reverse h1
    rw [List.reverse_reverse] at this
    rw [← this]; rfl⟩

/-- C10 fails on the code: on the demo backend `initialize` returns normally
and calls `vkCreatePipelineLayout` and `vkCreateGraphicsPipelines` twice each;
the handles `11` and `12` of the first pipeline layout and pipeline are among
the 29 handles created, and no call of `initialize` followed by `cleanup`
destroys them. -/
theorem initialize_creates_pipeline_twice :
    ( InitVulkan.initialize demoDriver 7 {}).2 = Except.ok () ∧
    (((InitVulkan.cleanup ( InitVulkan.initialize demoDriver 7 {}).1).1.trace.map
      Call.name).count "vkCreatePipelineLayout" = 2) ∧
    (((InitVulkan.cleanup ( InitVulkan.initialize demoDriver 7 {}).1).1.trace.map
      Call.name).count "vkCreateGraphicsPipelines" = 2) ∧
    ((InitVulkan.cleanup ( InitVulkan.initialize demoDriver 7 {}).1).1.trace.filter
      (fun c => c.name = "vkCreatePipelineLayout")).flatMap Call.created = [11, 13] ∧
    ((InitVulkan.cleanup ( InitVulkan.initialize demoDriver 7 {}).1).1.trace.filter
      (fun c => c.name = "vkCreateGraphicsPipelines")).flatMap Call.created = [12, 14] ∧
    (InitVulkan.cleanup ( InitVulkan.initialize demoDriver 7 {}).1).1.trace.flatMap
      Call.created = List.range' 1 29 ∧
    (InitVulkan.cleanup ( InitVulkan.initialize demoDriver 7 {}).1).1.trace.flatMap
      Call.destroyed =
        [9, 10, 28, 29, 24, 27, 23, 26, 22, 25, 18, 15, 16, 17, 14, 13, 8, 5, 6, 7, 4, 3, 2,
          1] ∧
    ((InitVulkan.cleanup ( InitVulkan.initialize demoDriver 7 {}).1).1.trace.flatMap
      Call.destroyed).count 11 = 0 ∧
    ((InitVulkan.cleanup ( InitVulkan.initialize demoDriver 7 {}).1).1.trace.flatMap
      Call.destroyed).count 12 = 0 := by
  refine ⟨demo_initialize_ok, ?_, ?_, ?_, ?_, ?_, ?_, ?_, ?_⟩ <;> decide!

/-! ### Result codes in `renderFrame` -/

/-- C11, as the code behaves: in a `renderFrame` call whose vector accesses are
in range, the only result code that is read is that of `vkQueueSubmit` (the
call at position 14 of the frame): if it is `VK_SUCCESS` the call returns
normally after all sixteen calls, whatever result the fence wait, acquire, map,
command-buffer reset, begin and end, fence reset and present return; if it is
not, `renderFrame` raises `"Vulkan error"`. -/
theorem renderFrame_ignores_results {F : Type} (d : Driver) (v : List (Vertex F)) (m : Machine)
    (fence imageAvailable renderFinished commandBuffer framebuffer : ℕ)
    (hF : m.context.m_inFlightFences[m.context.m_currentFrame]? = some fence)
    (hA : m.context.m_imageAvailableSemaphores[m.context.m_currentFrame]?
      = some imageAvailable)
    (hR : m.context.m_renderFinishedSemaphores[m.context.m_currentFrame]?
      = some renderFinished)
    (hC : m.context.m_commandBuffers[d.imageIndex (m.trace.length + 1)]? = some commandBuffer)
    (hB : m.context.m_swapChainFramebuffers[d.imageIndex (m.trace.length + 1)]?
      = some framebuffer) :
    (d.result (m.trace.length + 14) = VK_SUCCESS →
      (InitVulkan.renderFrame d v m).2 = Except.ok () ∧
      (Vk.issued (InitVulkan.renderFrame d v) m).map Call.name =
        ["vkWaitForFences", "vkAcquireNextImageKHR", "vkMapMemory", "memcpy", "vkUnmapMemory",
         "vkResetCommandBuffer", "vkBeginCommandBuffer", "vkCmdBeginRenderPass",
         "vkCmdBindPipeline", "vkCmdBindVertexBuffers", "vkCmdDraw", "vkCmdEndRenderPass",
         "vkEndCommandBuffer", "vkResetFences", "vkQueueSubmit", "vkQueuePresentKHR"]) ∧
    (d.result (m.trace.length + 14) ≠ VK_SUCCESS →
      (InitVulkan.renderFrame d v m).2 = Except.error (Exn.runtime_error "Vulkan error")) := by
  refine ⟨fun hs => ?_, fun hs => ?_⟩
  · have hok : (InitVulkan.renderFrame d v m).2 = Except.ok () := by
      rw [renderFrame_run d v m hF hA hR hC hB, if_neg (by simp [hs])]
    obtain ⟨_, _, _, _, _, _, _, _, _, _, hi⟩ := renderFrame_issued_ok d v m hok
    exact ⟨hok, by rw [hi]; simp [frameCalls, Call.name]⟩
  · rw [renderFrame_run d v m hF hA hR hC hB, if_pos hs]

/-- Witness of C11: on the initialised demo context the present of the frame
returns `VK_ERROR_OUT_OF_DATE_KHR`, and `renderFrame` returns normally. -/
theorem renderFrame_ignores_results_witness :
    presentOutOfDateDriver.result 15 = VK_ERROR_OUT_OF_DATE_KHR ∧
    VK_ERROR_OUT_OF_DATE_KHR ≠ VK_SUCCESS ∧
    (InitVulkan.renderFrame presentOutOfDateDriver (List.replicate 200 (⟨0, 0⟩ : Vertex ℚ))
      demoMachine).2 = Except.ok () ∧
    ((Vk.issued (InitVulkan.renderFrame presentOutOfDateDriver
      (List.replicate 200 (⟨0, 0⟩ : Vertex ℚ))) demoMachine).map Call.name)[15]?
        = some "vkQueuePresentKHR" :=
  have h := (renderFrame_ignores_results presentOutOfDateDriver
    (List.replicate 200 (⟨0, 0⟩ : Vertex ℚ)) demoMachine 24 22 23 20 16
    (by decide) (by decide) (by decide) (by decide) (by decide)).1 (by decide)
  ⟨by decide, by decide, h.1, by rw [h.2]; rfl⟩

/-! ### Failure of a creation call -/

theorem aborts_of_trace_eq {α : Type} (d : Driver) (x : Vk α) (h : ∀ m, (x m).1.trace = m.trace) :
    AbortsOnFailure d x := fun m =>
  ⟨[], by simp [h], fun i c hc => by simp at hc⟩

theorem aborts_ret {α : Type} (d : Driver) (a : α) : AbortsOnFailure d (Vk.ret a) :=
  aborts_of_trace_eq d _ fun _ => rfl

theorem aborts_raise {α : Type} (d : Driver) (e : Exn) : AbortsOnFailure d (Vk.raise e : Vk α) :=
  aborts_of_trace_eq d _ fun _ => rfl

theorem aborts_fresh (d : Driver) : AbortsOnFailure d Vk.fresh := aborts_of_trace_eq d _ fun _ => rfl

theorem aborts_freshN (d : Driver) (n : ℕ) : AbortsOnFailure d (Vk.freshN n) :=
  aborts_of_trace_eq d _ fun _ => rfl

theorem aborts_get (d : Driver) : AbortsOnFailure d Vk.get := aborts_of_trace_eq d _ fun _ => rfl

theorem aborts_modify (d : Driver) (f : VulkanContext → VulkanContext) :
    AbortsOnFailure d (Vk.modify f) := aborts_of_trace_eq d _ fun _ => rfl

theorem aborts_value {α : Type} (d : Driver) (o : Option α) : AbortsOnFailure d (Vk.value o) := by
  cases o
  · exact aborts_raise d _
  · exact aborts_ret d _

theorem aborts_lift {α : Type} (d : Driver) (o : Except Exn α) : AbortsOnFailure d (Vk.lift o) := by
  cases o
  · exact aborts_raise d _
  · exact aborts_ret d _

theorem aborts_readFile (d : Driver) (filename : String) : AbortsOnFailure d (readFile d filename) := by
  unfold readFile
  split
  · exact aborts_raise d _
  · exact aborts_ret d _

theorem aborts_exec (d : Driver) (c : Call) (hc : c.isCreation = false) :
    AbortsOnFailure d (Vk.exec c) := fun m =>
  ⟨[c], rfl, fun i c' hi hcr _ => by
    cases i with
    | zero =>
      simp only [List.getElem?_cons_zero, Option.some.injEq] at hi
      rw [← hi, hc] at hcr
      exact absurd hcr (by simp)
    | succ i => simp at hi⟩

theorem aborts_seq {α β : Type} (d : Driver) (x : Vk α) (f : α → Vk β) (hx : AbortsOnFailure d x)
    (hf : ∀ a, AbortsOnFailure d (f a)) : AbortsOnFailure d (Vk.seq x f) := by
  intro m
  obtain ⟨t1, ht1, h1⟩ := hx m
  rcases hxm : x m with ⟨m1, r⟩
  rw [hxm] at ht1 h1
  simp only at ht1 h1
  cases r with
  | error e =>
    have hs : Vk.seq x f m = (m1, Except.error e) := by simp only [Vk.seq, hxm]
    rw [hs]
    refine ⟨t1, ht1, fun i c hi hc hr => ?_⟩
    obtain ⟨hl, w, he⟩ := h1 i c hi hc hr
    have he' : e = Exn.runtime_error w := by simpa using he
    exact ⟨hl, w, by rw [he']⟩
  | ok a =>
    have hs : Vk.seq x f m = f a m1 := by simp only [Vk.seq, hxm]
    rw [hs]
    obtain ⟨t2, ht2, h2⟩ := hf a m1
    refine ⟨t1 ++ t2, by rw [ht2, ht1, List.append_assoc], fun i c hi hc hr => ?_⟩
    by_cases hlt : i < t1.length
    · rw [List.getElem?_append_left hlt] at hi
      obtain ⟨_, _, he⟩ := h1 i c hi hc hr
      simp at he
    · rw [List.getElem?_append_right (not_lt.1 hlt)] at hi
      have hpos : m1.trace.length + (i - t1.length) = m.trace.length + i := by
        rw [ht1, List.length_append]
        omega
      obtain ⟨hl, he⟩ := h2 (i - t1.length) c hi hc (by rw [hpos]; exact hr)
      refine ⟨?_, he⟩
      rw [List.length_append]
      omega

theorem aborts_call_check {β : Type} (d : Driver) (c : Call) (what : String) (g : Unit → Vk β)
    (hg : ∀ u, AbortsOnFailure d (g u)) :
    AbortsOnFailure d
      (Vk.seq (Vk.call d c) fun r => Vk.seq (Vk.check r (Exn.runtime_error what)) g) := by
  intro m
  by_cases hr : d.result m.trace.length = VK_SUCCESS
  · obtain ⟨t2, ht2, h2⟩ := hg () { m with trace := m.trace ++ [c] }
    refine ⟨[c] ++ t2, ?_, fun i c' hi hc hres => ?_⟩
    · simp only [Vk.seq, Vk.call, Vk.check, hr, ne_eq, not_true_eq_false, if_false, Vk.ret]
      rw [ht2]
      simp
    · cases i with
      | zero => exact absurd hr hres
      | succ i =>
        simp only [List.singleton_append, List.getElem?_cons_succ] at hi
        have hpos : (m.trace ++ [c]).length + i = m.trace.length + (i + 1) := by
          rw [List.length_append, List.length_singleton]; omega
        obtain ⟨hl, he⟩ := h2 i c' hi hc (by simp only; rw [hpos]; exact hres)
        refine ⟨by simp [hl], ?_⟩
        simpa only [Vk.seq, Vk.call, Vk.check, hr, ne_eq, not_true_eq_false, if_false, Vk.ret]
          using he
  · refine ⟨[c], ?_, fun i c' hi _ _ => ?_⟩
    · simp [Vk.seq, Vk.call, Vk.check, hr, Vk.raise]
    · cases i with
      | zero => exact ⟨rfl, what, by simp [Vk.seq, Vk.call, Vk.check, hr, Vk.raise]⟩
      | succ i => simp at hi

theorem aborts_forEach {α : Type} (d : Driver) (f : α → Vk Unit) (l : List α)
    (hf : ∀ a, AbortsOnFailure d (f a)) : AbortsOnFailure d (Vk.forEach f l) := by
  induction l with
  | nil => exact aborts_ret d ()
  | cons a l ih => exact aborts_seq d _ _ (hf a) fun _ => ih

theorem aborts_createInstance (d : Driver) :
    AbortsOnFailure d (VulkanHelpers.createInstance d) := by
  unfold VulkanHelpers.createInstance
  simp only [Vk.bind_eq, Vk.pure_eq]
  repeat' first
    | exact aborts_modify d _
    | exact aborts_ret d _
    | exact aborts_raise d _
    | exact aborts_fresh d
    | exact aborts_get d
    | apply aborts_call_check d
    | apply aborts_seq d
    | intro _

theorem aborts_createSurface (d : Driver) (t_window : Handle) :
    AbortsOnFailure d (VulkanHelpers.createSurface d t_window) := by
  unfold VulkanHelpers.createSurface
  simp only [Vk.bind_eq, Vk.pure_eq]
  repeat' first
    | exact aborts_modify d _
    | exact aborts_ret d _
    | exact aborts_raise d _
    | exact aborts_fresh d
    | exact aborts_get d
    | apply aborts_call_check d
    | apply aborts_seq d
    | intro _

theorem aborts_pickPhysicalDevice (d : Driver) :
    AbortsOnFailure d (VulkanHelpers.pickPhysicalDevice d) := by
  apply aborts_of_trace_eq
  intro m
  unfold VulkanHelpers.pickPhysicalDevice
  simp only [Vk.bind_eq, Vk.pure_eq]
  cases d.physicalDevices with
  | nil => rfl
  | cons a l =>
    simp only [Vk.seq, Vk.modify, Vk.get]
    split_ifs <;> rfl

theorem aborts_createLogicalDevice (d : Driver) :
    AbortsOnFailure d (VulkanHelpers.createLogicalDevice d) := by
  unfold VulkanHelpers.createLogicalDevice
  simp only [Vk.bind_eq, Vk.pure_eq]
  repeat' first
    | exact aborts_modify d _
    | exact aborts_ret d _
    | exact aborts_raise d _
    | exact aborts_fresh d
    | exact aborts_get d
    | exact aborts_value d _
    | apply aborts_call_check d
    | apply aborts_seq d
    | intro _

theorem aborts_createSwapChain (d : Driver) :
    AbortsOnFailure d (VulkanHelpers.createSwapChain d) := by
  unfold VulkanHelpers.createSwapChain
  simp only [Vk.bind_eq, Vk.pure_eq]
  repeat' first
    | exact aborts_modify d _
    | exact aborts_ret d _
    | exact aborts_raise d _
    | exact aborts_fresh d
    | exact aborts_get d
    | exact aborts_value d _
    | exact aborts_lift d _
    | apply aborts_call_check d
    | apply aborts_seq d
    | split
    | intro _

theorem aborts_createRenderPass (d : Driver) :
    AbortsOnFailure d (VulkanHelpers.createRenderPass d) := by
  unfold VulkanHelpers.createRenderPass
  simp only [Vk.bind_eq, Vk.pure_eq, VK_CHECK]
  repeat' first
    | exact aborts_modify d _
    | exact aborts_ret d _
    | exact aborts_raise d _
    | exact aborts_fresh d
    | exact aborts_freshN d _
    | exact aborts_get d
    | exact aborts_value d _
    | exact aborts_lift d _
    | exact aborts_readFile d _
    | exact aborts_exec d _ rfl
    | apply aborts_call_check d
    | apply aborts_seq d
    | split
    | intro _

theorem aborts_createGraphicsPipeline (d : Driver) (t_shaderStages : List Handle) :
    AbortsOnFailure d (VulkanHelpers.createGraphicsPipeline d t_shaderStages) := by
  unfold VulkanHelpers.createGraphicsPipeline
  simp only [Vk.bind_eq, Vk.pure_eq, VK_CHECK]
  repeat' first
    | exact aborts_modify d _
    | exact aborts_ret d _
    | exact aborts_raise d _
    | exact aborts_fresh d
    | exact aborts_freshN d _
    | exact aborts_get d
    | exact aborts_value d _
    | exact aborts_lift d _
    | exact aborts_readFile d _
    | exact aborts_exec d _ rfl
    | apply aborts_call_check d
    | apply aborts_seq d
    | split
    | intro _

theorem aborts_createCommandPool (d : Driver) :
    AbortsOnFailure d (VulkanHelpers.createCommandPool d) := by
  unfold VulkanHelpers.createCommandPool
  simp only [Vk.bind_eq, Vk.pure_eq, VK_CHECK]
  repeat' first
    | exact aborts_modify d _
    | exact aborts_ret d _
    | exact aborts_raise d _
    | exact aborts_fresh d
    | exact aborts_freshN d _
    | exact aborts_get d
    | exact aborts_value d _
    | exact aborts_lift d _
    | exact aborts_readFile d _
    | exact aborts_exec d _ rfl
    | apply aborts_call_check d
    | apply aborts_seq d
    | split
    | intro _

theorem aborts_createCommandBuffers (d : Driver) :
    AbortsOnFailure d (VulkanHelpers.createCommandBuffers d) := by
  unfold VulkanHelpers.createCommandBuffers
  simp only [Vk.bind_eq, Vk.pure_eq, VK_CHECK]
  repeat' first
    | exact aborts_modify d _
    | exact aborts_ret d _
    | exact aborts_raise d _
    | exact aborts_fresh d
    | exact aborts_freshN d _
    | exact aborts_get d
    | exact aborts_value d _
    | exact aborts_lift d _
    | exact aborts_readFile d _
    | exact aborts_exec d _ rfl
    | apply aborts_call_check d
    | apply aborts_seq d
    | split
    | intro _

theorem aborts_createSyncObjects_body (d : Driver) (i : ℕ) :
    AbortsOnFailure d (VulkanHelpers.createSyncObjects.body d i) := by
  unfold VulkanHelpers.createSyncObjects.body
  simp only [Vk.bind_eq, Vk.pure_eq, VK_CHECK]
  repeat' first
    | exact aborts_modify d _
    | exact aborts_ret d _
    | exact aborts_raise d _
    | exact aborts_fresh d
    | exact aborts_freshN d _
    | exact aborts_get d
    | exact aborts_value d _
    | exact aborts_lift d _
    | exact aborts_readFile d _
    | exact aborts_exec d _ rfl
    | apply aborts_call_check d
    | apply aborts_seq d
    | split
    | intro _

theorem aborts_createShaderModule (d : Driver) (t_codeSize : ℕ) (t_device : Handle) :
    AbortsOnFailure d (createShaderModule d t_codeSize t_device) := by
  unfold createShaderModule
  simp only [Vk.bind_eq, Vk.pure_eq, VK_CHECK]
  repeat' first
    | exact aborts_modify d _
    | exact aborts_ret d _
    | exact aborts_raise d _
    | exact aborts_fresh d
    | exact aborts_freshN d _
    | exact aborts_get d
    | exact aborts_value d _
    | exact aborts_lift d _
    | exact aborts_readFile d _
    | exact aborts_exec d _ rfl
    | apply aborts_call_check d
    | apply aborts_seq d
    | split
    | intro _

theorem aborts_createBuffer (d : Driver) (t_dev : Handle) (t_size t_usage t_props : ℕ)
    (setBuffer setMemory : Handle → VulkanContext → VulkanContext) :
    AbortsOnFailure d (createBuffer d t_dev t_size t_usage t_props setBuffer setMemory) := by
  unfold createBuffer
  simp only [Vk.bind_eq, Vk.pure_eq, VK_CHECK]
  repeat' first
    | exact aborts_modify d _
    | exact aborts_ret d _
    | exact aborts_raise d _
    | exact aborts_fresh d
    | exact aborts_freshN d _
    | exact aborts_get d
    | exact aborts_value d _
    | exact aborts_lift d _
    | exact aborts_readFile d _
    | exact aborts_exec d _ rfl
    | apply aborts_call_check d
    | apply aborts_seq d
    | split
    | intro _

theorem aborts_createImageViews_loop (d : Driver) (i : ℕ) (images : List Handle) :
    AbortsOnFailure d (VulkanHelpers.createImageViews.loop d i images) := by
  induction images generalizing i with
  | nil => exact aborts_ret d ()
  | cons a l ih =>
    unfold VulkanHelpers.createImageViews.loop
    simp only [Vk.bind_eq, Vk.pure_eq]
    repeat' first
      | exact ih _
      | exact aborts_modify d _
      | exact aborts_fresh d
      | exact aborts_get d
      | apply aborts_call_check d
      | apply aborts_seq d
      | intro _

theorem aborts_createImageViews (d : Driver) :
    AbortsOnFailure d (VulkanHelpers.createImageViews d) := by
  unfold VulkanHelpers.createImageViews
  simp only [Vk.bind_eq, Vk.pure_eq]
  repeat' first
    | exact aborts_createImageViews_loop d _ _
    | exact aborts_modify d _
    | exact aborts_get d
    | apply aborts_seq d
    | intro _

theorem aborts_createFramebuffers_loop (d : Driver) (i : ℕ) (imageViews : List Handle) :
    AbortsOnFailure d (VulkanHelpers.createFramebuffers.loop d i imageViews) := by
  induction imageViews generalizing i with
  | nil => exact aborts_ret d ()
  | cons a l ih =>
    unfold VulkanHelpers.createFramebuffers.loop
    simp only [Vk.bind_eq, Vk.pure_eq]
    repeat' first
      | exact ih _
      | exact aborts_modify d _
      | exact aborts_fresh d
      | exact aborts_get d
      | apply aborts_call_check d
      | apply aborts_seq d
      | intro _

theorem aborts_createFramebuffers (d : Driver) :
    AbortsOnFailure d (VulkanHelpers.createFramebuffers d) := by
  unfold VulkanHelpers.createFramebuffers
  simp only [Vk.bind_eq, Vk.pure_eq]
  repeat' first
    | exact aborts_createFramebuffers_loop d _ _
    | exact aborts_modify d _
    | exact aborts_get d
    | apply aborts_seq d
    | intro _

theorem aborts_createSyncObjects (d : Driver) :
    AbortsOnFailure d (VulkanHelpers.createSyncObjects d) := by
  unfold VulkanHelpers.createSyncObjects
  simp only [Vk.bind_eq, Vk.pure_eq]
  exact aborts_seq d _ _ (aborts_modify d _) fun _ =>
    aborts_forEach d _ _ (aborts_createSyncObjects_body d)

theorem aborts_createVertexBuffer (d : Driver) :
    AbortsOnFailure d (VulkanHelpers.createVertexBuffer d) := by
  unfold VulkanHelpers.createVertexBuffer
  simp only [Vk.bind_eq, Vk.pure_eq]
  exact aborts_seq d _ _ (aborts_get d) fun _ => aborts_createBuffer d _ _ _ _ _ _

theorem aborts_initialize (d : Driver) (t_window : Handle) :
    AbortsOnFailure d ( InitVulkan.initialize d t_window) := by
  unfold InitVulkan.initialize
  simp only [Vk.bind_eq, Vk.pure_eq]
  repeat' first
    | (with_reducible exact aborts_createInstance d)
    | (with_reducible exact aborts_createSurface d _)
    | (with_reducible exact aborts_pickPhysicalDevice d)
    | (with_reducible exact aborts_createLogicalDevice d)
    | (with_reducible exact aborts_createSwapChain d)
    | (with_reducible exact aborts_createImageViews d)
    | (with_reducible exact aborts_createRenderPass d)
    | (with_reducible exact aborts_readFile d _)
    | (with_reducible exact aborts_createShaderModule d _ _)
    | (with_reducible exact aborts_createGraphicsPipeline d _)
    | (with_reducible exact aborts_createFramebuffers d)
    | (with_reducible exact aborts_createCommandPool d)
    | (with_reducible exact aborts_createCommandBuffers d)
    | (with_reducible exact aborts_createSyncObjects d)
    | (with_reducible exact aborts_createVertexBuffer d)
    | (with_reducible apply aborts_exec d)
    | (with_unfolding_all exact rfl)
    | (with_reducible exact aborts_modify d _)
    | (with_reducible exact aborts_ret d _)
    | (with_reducible exact aborts_raise d _)
    | (with_reducible exact aborts_get d)
    | (with_reducible apply aborts_seq d)
    | (with_reducible split)
    | (with_reducible intro _)

theorem initialize_null_window (d : Driver) (m : Machine) :
    InitVulkan.initialize d 0 m = (m, Except.error (Exn.runtime_error
      "GLFW window is null. Ensure the window is created before initializing Vulkan.")) := by
  unfold InitVulkan.initialize
  simp only [Vk.bind_eq, Vk.pure_eq, if_true]
  rfl

/-! ### The calls recorded up to a stop -/

theorem issues_of_trace_eq {α : Type} (P : Call → Prop) (x : Vk α)
    (h : ∀ m, (x m).1.trace = m.trace) : Issues P x := fun m =>
  ⟨[], by simp [h], fun c hc => by simp at hc⟩

theorem issues_ret {α : Type} (P : Call → Prop) (a : α) : Issues P (Vk.ret a) :=
  issues_of_trace_eq P _ fun _ => rfl

theorem issues_raise {α : Type} (P : Call → Prop) (e : Exn) : Issues P (Vk.raise e : Vk α) :=
  issues_of_trace_eq P _ fun _ => rfl

theorem issues_fresh (P : Call → Prop) : Issues P Vk.fresh := issues_of_trace_eq P _ fun _ => rfl

theorem issues_get (P : Call → Prop) : Issues P Vk.get := issues_of_trace_eq P _ fun _ => rfl

theorem issues_modify (P : Call → Prop) (f : VulkanContext → VulkanContext) :
    Issues P (Vk.modify f) := issues_of_trace_eq P _ fun _ => rfl

theorem issues_check (P : Call → Prop) (r : VkResult) (e : Exn) : Issues P (Vk.check r e) := by
  apply issues_of_trace_eq
  intro m
  unfold Vk.check
  split_ifs <;> rfl

theorem issues_value {α : Type} (P : Call → Prop) (o : Option α) : Issues P (Vk.value o) := by
  cases o
  · exact issues_raise P _
  · exact issues_ret P _

theorem issues_lift {α : Type} (P : Call → Prop) (o : Except Exn α) : Issues P (Vk.lift o) := by
  cases o
  · exact issues_raise P _
  · exact issues_ret P _

theorem issues_readFile (P : Call → Prop) (d : Driver) (filename : String) :
    Issues P (readFile d filename) := by
  unfold readFile
  split
  · exact issues_raise P _
  · exact issues_ret P _

theorem issues_call (P : Call → Prop) (d : Driver) (c : Call) (hc : P c) :
    Issues P (Vk.call d c) := fun m =>
  ⟨[c], rfl, fun c' h => by
    have : c' = c := by simpa using h
    rw [this]; exact hc⟩

theorem issues_seq {α β : Type} (P : Call → Prop) (x : Vk α) (f : α → Vk β) (hx : Issues P x)
    (hf : ∀ a, Issues P (f a)) : Issues P (Vk.seq x f) := by
  intro m
  obtain ⟨t1, ht1, h1⟩ := hx m
  rcases hxm : x m with ⟨m1, r⟩
  rw [hxm] at ht1
  simp only at ht1
  cases r with
  | error e =>
    have hs : Vk.seq x f m = (m1, Except.error e) := by simp only [Vk.seq, hxm]
    rw [hs]
    exact ⟨t1, ht1, h1⟩
  | ok a =>
    have hs : Vk.seq x f m = f a m1 := by simp only [Vk.seq, hxm]
    rw [hs]
    obtain ⟨t2, ht2, h2⟩ := hf a m1
    refine ⟨t1 ++ t2, by rw [ht2, ht1, List.append_assoc], fun c hc => ?_⟩
    rcases List.mem_append.1 hc with h | h
    · exact h1 c h
    · exact h2 c h

theorem issues_mem {α : Type} {P : Call → Prop} {x : Vk α} (h : Issues P x) (m : Machine)
    (c : Call) (hc : c ∈ Vk.issued x m) : P c := by
  obtain ⟨t, ht, hP⟩ := h m
  rw [issued_of_trace x m t ht] at hc
  exact hP c hc

theorem stops_raise {α : Type} (e : Exn) : Stops (Vk.raise e : Vk α) := fun _ => ⟨e, rfl⟩

theorem stops_seq_right {α β : Type} (x : Vk α) (f : α → Vk β) (hf : ∀ a, Stops (f a)) :
    Stops (Vk.seq x f) := by
  intro m
  rcases hxm : x m with ⟨m1, r⟩
  cases r with
  | error e => exact ⟨e, by simp only [Vk.seq, hxm]⟩
  | ok a =>
    obtain ⟨e, he⟩ := hf a m1
    exact ⟨e, by simp only [Vk.seq, hxm, he]⟩

theorem stops_seq_left {α β : Type} (x : Vk α) (f : α → Vk β) (hx : Stops x) :
    Stops (Vk.seq x f) := by
  intro m
  obtain ⟨e, he⟩ := hx m
  rcases hxm : x m with ⟨m1, r⟩
  rw [hxm] at he
  simp only at he
  subst he
  exact ⟨e, by simp only [Vk.seq, hxm]⟩

theorem Vk.seq_raise {α β : Type} (e : Exn) (f : α → Vk β) :
    Vk.seq (Vk.raise e) f = Vk.raise e := rfl

theorem issues_createInstance (P : Call → Prop) (d : Driver)
    (h : ∀ out, P (Call.vkCreateInstance out)) :
    Issues P (VulkanHelpers.createInstance d) := by
  unfold VulkanHelpers.createInstance
  simp only [Vk.bind_eq, Vk.pure_eq]
  repeat' first
    | (with_reducible exact issues_modify P _)
    | (with_reducible exact issues_ret P _)
    | (with_reducible exact issues_raise P _)
    | (with_reducible exact issues_fresh P)
    | (with_reducible exact issues_get P)
    | (with_reducible exact issues_check P _ _)
    | (with_reducible exact issues_value P _)
    | (with_reducible exact issues_lift P _)
    | (with_reducible exact issues_call P d _ (h _ _ _ _ _ _ _ _))
    | (with_reducible exact issues_call P d _ (h _ _ _))
    | (with_reducible exact issues_call P d _ (h _ _))
    | (with_reducible exact issues_call P d _ (h _))
    | (with_reducible apply issues_seq P)
    | (with_reducible split)
    | (with_reducible intro _)

theorem issues_createSurface (P : Call → Prop) (d : Driver) (t_window : Handle)
    (h : ∀ inst window out, P (Call.glfwCreateWindowSurface inst window out)) :
    Issues P (VulkanHelpers.createSurface d t_window) := by
  unfold VulkanHelpers.createSurface
  simp only [Vk.bind_eq, Vk.pure_eq]
  repeat' first
    | (with_reducible exact issues_modify P _)
    | (with_reducible exact issues_ret P _)
    | (with_reducible exact issues_raise P _)
    | (with_reducible exact issues_fresh P)
    | (with_reducible exact issues_get P)
    | (with_reducible exact issues_check P _ _)
    | (with_reducible exact issues_value P _)
    | (with_reducible exact issues_lift P _)
    | (with_reducible exact issues_call P d _ (h _ _ _ _ _ _ _ _))
    | (with_reducible exact issues_call P d _ (h _ _ _))
    | (with_reducible exact issues_call P d _ (h _ _))
    | (with_reducible exact issues_call P d _ (h _))
    | (with_reducible apply issues_seq P)
    | (with_reducible split)
    | (with_reducible intro _)

theorem issues_createLogicalDevice (P : Call → Prop) (d : Driver)
    (h : ∀ pd fam out, P (Call.vkCreateDevice pd fam out)) :
    Issues P (VulkanHelpers.createLogicalDevice d) := by
  unfold VulkanHelpers.createLogicalDevice
  simp only [Vk.bind_eq, Vk.pure_eq]
  repeat' first
    | (with_reducible exact issues_modify P _)
    | (with_reducible exact issues_ret P _)
    | (with_reducible exact issues_raise P _)
    | (with_reducible exact issues_fresh P)
    | (with_reducible exact issues_get P)
    | (with_reducible exact issues_check P _ _)
    | (with_reducible exact issues_value P _)
    | (with_reducible exact issues_lift P _)
    | (with_reducible exact issues_call P d _ (h _ _ _ _ _ _ _ _))
    | (with_reducible exact issues_call P d _ (h _ _ _))
    | (with_reducible exact issues_call P d _ (h _ _))
    | (with_reducible exact issues_call P d _ (h _))
    | (with_reducible apply issues_seq P)
    | (with_reducible split)
    | (with_reducible intro _)

theorem issues_createSwapChain (P : Call → Prop) (d : Driver)
    (h : ∀ dev surf n f e pm fam out, P (Call.vkCreateSwapchainKHR dev surf n f e pm fam out)) :
    Issues P (VulkanHelpers.createSwapChain d) := by
  unfold VulkanHelpers.createSwapChain
  simp only [Vk.bind_eq, Vk.pure_eq]
  repeat' first
    | (with_reducible exact issues_modify P _)
    | (with_reducible exact issues_ret P _)
    | (with_reducible exact issues_raise P _)
    | (with_reducible exact issues_fresh P)
    | (with_reducible exact issues_get P)
    | (with_reducible exact issues_check P _ _)
    | (with_reducible exact issues_value P _)
    | (with_reducible exact issues_lift P _)
    | (with_reducible exact issues_call P d _ (h _ _ _ _ _ _ _ _))
    | (with_reducible exact issues_call P d _ (h _ _ _))
    | (with_reducible exact issues_call P d _ (h _ _))
    | (with_reducible exact issues_call P d _ (h _))
    | (with_reducible apply issues_seq P)
    | (with_reducible split)
    | (with_reducible intro _)

theorem issues_createRenderPass (P : Call → Prop) (d : Driver)
    (h : ∀ dev out, P (Call.vkCreateRenderPass dev out)) :
    Issues P (VulkanHelpers.createRenderPass d) := by
  unfold VulkanHelpers.createRenderPass
  simp only [Vk.bind_eq, Vk.pure_eq]
  repeat' first
    | (with_reducible exact issues_modify P _)
    | (with_reducible exact issues_ret P _)
    | (with_reducible exact issues_raise P _)
    | (with_reducible exact issues_fresh P)
    | (with_reducible exact issues_get P)
    | (with_reducible exact issues_check P _ _)
    | (with_reducible exact issues_value P _)
    | (with_reducible exact issues_lift P _)
    | (with_reducible exact issues_call P d _ (h _ _ _ _ _ _ _ _))
    | (with_reducible exact issues_call P d _ (h _ _ _))
    | (with_reducible exact issues_call P d _ (h _ _))
    | (with_reducible exact issues_call P d _ (h _))
    | (with_reducible apply issues_seq P)
    | (with_reducible split)
    | (with_reducible intro _)

theorem issues_pickPhysicalDevice (P : Call → Prop) (d : Driver) :
    Issues P (VulkanHelpers.pickPhysicalDevice d) := by
  apply issues_of_trace_eq
  intro m
  unfold VulkanHelpers.pickPhysicalDevice
  simp only [Vk.bind_eq, Vk.pure_eq]
  cases d.physicalDevices with
  | nil => rfl
  | cons a l =>
    simp only [Vk.seq, Vk.modify, Vk.get]
    split_ifs <;> rfl

theorem issues_createImageViews_loop (P : Call → Prop) (d : Driver)
    (h : ∀ dev image out, P (Call.vkCreateImageView dev image out)) (i : ℕ)
    (images : List Handle) :
    Issues P (VulkanHelpers.createImageViews.loop d i images) := by
  induction images generalizing i with
  | nil => exact issues_ret P ()
  | cons a l ih =>
    unfold VulkanHelpers.createImageViews.loop
    simp only [Vk.bind_eq, Vk.pure_eq]
    repeat' first
      | (with_reducible exact ih _)
      | (with_reducible exact issues_modify P _)
      | (with_reducible exact issues_fresh P)
      | (with_reducible exact issues_get P)
      | (with_reducible exact issues_check P _ _)
      | (with_reducible exact issues_call P d _ (h _ _ _))
      | (with_reducible apply issues_seq P)
      | (with_reducible intro _)

theorem issues_createImageViews (P : Call → Prop) (d : Driver)
    (h : ∀ dev image out, P (Call.vkCreateImageView dev image out)) :
    Issues P (VulkanHelpers.createImageViews d) := by
  unfold VulkanHelpers.createImageViews
  simp only [Vk.bind_eq, Vk.pure_eq]
  exact issues_seq P _ _ (issues_modify P _) fun _ =>
    issues_seq P _ _ (issues_get P) fun _ => issues_createImageViews_loop P d h _ _

theorem pickPhysicalDevice_none (d : Driver) (h : d.physicalDevices = []) :
    VulkanHelpers.pickPhysicalDevice d =
      Vk.raise (Exn.runtime_error "Failed to find GPUs with Vulkan support") := by
  unfold VulkanHelpers.pickPhysicalDevice
  simp only [Vk.bind_eq, Vk.pure_eq, h, Vk.seq_raise]

theorem readFile_none (d : Driver) (filename : String) (h : d.fileSize filename = none) :
    readFile d filename = Vk.raise (Exn.runtime_error "failed to open file") := by
  unfold readFile
  simp only [h]

theorem initialize_no_device (d : Driver) (t_window : Handle) (h : d.physicalDevices = []) :
    Stops ( InitVulkan.initialize d t_window) ∧
    Issues (fun c => c.name = "vkCreateInstance" ∨ c.name = "glfwCreateWindowSurface")
      ( InitVulkan.initialize d t_window) := by
  unfold InitVulkan.initialize
  simp only [Vk.bind_eq, Vk.pure_eq, pickPhysicalDevice_none d h, Vk.seq_raise]
  have h1 := issues_createInstance
    (fun c => c.name = "vkCreateInstance" ∨ c.name = "glfwCreateWindowSurface") d
    fun _ => Or.inl rfl
  have h2 := issues_createSurface
    (fun c => c.name = "vkCreateInstance" ∨ c.name = "glfwCreateWindowSurface") d t_window
    fun _ _ _ => Or.inr rfl
  constructor
  · repeat' first
      | (with_reducible exact stops_raise _)
      | (with_reducible apply stops_seq_right)
      | (with_reducible split)
      | (with_reducible intro _)
  · repeat' first
      | (with_reducible exact h1)
      | (with_reducible exact h2)
      | (with_reducible exact issues_modify _ _)
      | (with_reducible exact issues_ret _ _)
      | (with_reducible exact issues_raise _ _)
      | (with_reducible apply issues_seq)
      | (with_reducible split)
      | (with_reducible intro _)

theorem initialize_no_file (d : Driver) (t_window : Handle)
    (h : d.fileSize "shaders/vert.spv" = none ∨ d.fileSize "shaders/frag.spv" = none) :
    Stops ( InitVulkan.initialize d t_window) ∧
    Issues (fun c => c.name ∈ ["vkCreateInstance", "glfwCreateWindowSurface", "vkCreateDevice",
        "vkCreateSwapchainKHR", "vkCreateImageView", "vkCreateRenderPass"])
      ( InitVulkan.initialize d t_window) := by
  have h1 := issues_createInstance (fun c => c.name ∈ ["vkCreateInstance",
    "glfwCreateWindowSurface", "vkCreateDevice", "vkCreateSwapchainKHR", "vkCreateImageView",
    "vkCreateRenderPass"]) d fun _ => by simp [Call.name]
  have h2 := issues_createSurface (fun c => c.name ∈ ["vkCreateInstance",
    "glfwCreateWindowSurface", "vkCreateDevice", "vkCreateSwapchainKHR", "vkCreateImageView",
    "vkCreateRenderPass"]) d t_window fun _ _ _ => by simp [Call.name]
  have h3 := issues_createLogicalDevice (fun c => c.name ∈ ["vkCreateInstance",
    "glfwCreateWindowSurface", "vkCreateDevice", "vkCreateSwapchainKHR", "vkCreateImageView",
    "vkCreateRenderPass"]) d fun _ _ _ => by simp [Call.name]
  have h4 := issues_createSwapChain (fun c => c.name ∈ ["vkCreateInstance",
    "glfwCreateWindowSurface", "vkCreateDevice", "vkCreateSwapchainKHR", "vkCreateImageView",
    "vkCreateRenderPass"]) d fun _ _ _ _ _ _ _ _ => by simp [Call.name]
  have h5 := issues_createImageViews (fun c => c.name ∈ ["vkCreateInstance",
    "glfwCreateWindowSurface", "vkCreateDevice", "vkCreateSwapchainKHR", "vkCreateImageView",
    "vkCreateRenderPass"]) d fun _ _ _ => by simp [Call.name]
  have h6 := issues_createRenderPass (fun c => c.name ∈ ["vkCreateInstance",
    "glfwCreateWindowSurface", "vkCreateDevice", "vkCreateSwapchainKHR", "vkCreateImageView",
    "vkCreateRenderPass"]) d fun _ _ => by simp [Call.name]
  unfold InitVulkan.initialize
  rcases h with h | h
  · simp only [Vk.bind_eq, Vk.pure_eq, readFile_none d _ h, Vk.seq_raise]
    constructor
    · repeat' first
        | (with_reducible exact stops_raise _)
        | (with_reducible apply stops_seq_right)
        | (with_reducible split)
        | (with_reducible intro _)
    · repeat' first
        | (with_reducible exact h1)
        | (with_reducible exact h2)
        | (with_reducible exact h3)
        | (with_reducible exact h4)
        | (with_reducible exact h5)
        | (with_reducible exact h6)
        | (with_reducible exact issues_pickPhysicalDevice _ d)
        | (with_reducible exact issues_readFile _ d _)
        | (with_reducible exact issues_modify _ _)
        | (with_reducible exact issues_ret _ _)
        | (with_reducible exact issues_raise _ _)
        | (with_reducible apply issues_seq)
        | (with_reducible split)
        | (with_reducible intro _)
  · simp only [Vk.bind_eq, Vk.pure_eq, readFile_none d _ h, Vk.seq_raise]
    constructor
    · repeat' first
        | (with_reducible exact stops_raise _)
        | (with_reducible apply stops_seq_right)
        | (with_reducible split)
        | (with_reducible intro _)
    · repeat' first
        | (with_reducible exact h1)
        | (with_reducible exact h2)
        | (with_reducible exact h3)
        | (with_reducible exact h4)
        | (with_reducible exact h5)
        | (with_reducible exact h6)
        | (with_reducible exact issues_pickPhysicalDevice _ d)
        | (with_reducible exact issues_readFile _ d _)
        | (with_reducible exact issues_modify _ _)
        | (with_reducible exact issues_ret _ _)
        | (with_reducible exact issues_raise _ _)
        | (with_reducible apply issues_seq)
        | (with_reducible split)
        | (with_reducible intro _)

/-- C12: in every run of `initialize`, a creation call that returns a failure
code (instance, surface, device, swapchain, image view, render pass, shader
module, pipeline layout, pipeline, framebuffer, command pool, command buffers,
semaphore, fence, buffer, memory) is the last call issued, and `initialize`
raises a `runtime_error`; when no physical device is found `initialize` does
not return normally and issues no call but the creation of the instance and of
the surface; when a shader file cannot be opened it does not return normally
and issues no creation call of a later step; and a null window is rejected
before any call. -/
theorem initialize_aborts_on_failure (d : Driver) (t_window : Handle) (m : Machine) :
    (∀ (i : ℕ) (c : Call), (Vk.issued ( InitVulkan.initialize d t_window) m)[i]? = some c →
      c.isCreation = true → d.result (m.trace.length + i) ≠ VK_SUCCESS →
      (∃ what, ( InitVulkan.initialize d t_window m).2
        = Except.error (Exn.runtime_error what)) ∧
      (Vk.issued ( InitVulkan.initialize d t_window) m).length = i + 1) ∧
    (d.physicalDevices = [] →
      (∃ e, ( InitVulkan.initialize d t_window m).2 = Except.error e) ∧
      ∀ c ∈ Vk.issued ( InitVulkan.initialize d t_window) m,
        c.name = "vkCreateInstance" ∨ c.name = "glfwCreateWindowSurface") ∧
    (d.fileSize "shaders/vert.spv" = none ∨ d.fileSize "shaders/frag.spv" = none →
      (∃ e, ( InitVulkan.initialize d t_window m).2 = Except.error e) ∧
      ∀ c ∈ Vk.issued ( InitVulkan.initialize d t_window) m,
        c.name ∈ ["vkCreateInstance", "glfwCreateWindowSurface", "vkCreateDevice",
          "vkCreateSwapchainKHR", "vkCreateImageView", "vkCreateRenderPass"]) ∧
    (t_window = 0 →
      ( InitVulkan.initialize d t_window m).2 = Except.error (Exn.runtime_error
        "GLFW window is null. Ensure the window is created before initializing Vulkan.") ∧
      Vk.issued ( InitVulkan.initialize d t_window) m = []) := by
  refine ⟨fun i c hi hc hr => ?_, fun h => ?_, fun h => ?_, fun h => ?_⟩
  · obtain ⟨t, ht, hP⟩ := aborts_initialize d t_window m
    rw [issued_of_trace _ m t ht] at hi ⊢
    obtain ⟨hl, he⟩ := hP i c hi hc hr
    exact ⟨he, hl⟩
  · obtain ⟨hs, hi⟩ := initialize_no_device d t_window h
    exact ⟨hs m, fun c hc => issues_mem hi m c hc⟩
  · obtain ⟨hs, hi⟩ := initialize_no_file d t_window h
    exact ⟨hs m, fun c hc => issues_mem hi m c hc⟩
  · subst h
    rw [initialize_null_window]
    exact ⟨rfl, by simp [Vk.issued, initialize_null_window]⟩

/-- Witness of C12: on a backend whose `vkCreateSwapchainKHR` fails, the fourth
call of `initialize` is that creation, `initialize` raises and no fifth call is
issued. -/
theorem initialize_aborts_on_failure_witness :
    (∃ what, ( InitVulkan.initialize swapchainFailDriver 7 {}).2
      = Except.error (Exn.runtime_error what)) ∧
    (Vk.issued ( InitVulkan.initialize swapchainFailDriver 7) {}).length = 3 + 1 :=
  (initialize_aborts_on_failure swapchainFailDriver 7 {}).1 3
    (Call.vkCreateSwapchainKHR 3 2 3 ⟨50, 0⟩ ⟨800, 600⟩ 2 [] 4) rfl rfl (by decide)

/-! ### Swapchain parameters -/

theorem swapChainImageCount_le (caps : VkSurfaceCapabilitiesKHR) (h : 0 < caps.maxImageCount) :
    swapChainImageCount caps ≤ caps.maxImageCount := by
  unfold swapChainImageCount
  dsimp only
  split_ifs with h1
  · exact le_refl _
  · have h2 : ¬ (caps.minImageCount + 1) % 2 ^ 32 > caps.maxImageCount := fun hh => h1 ⟨h, hh⟩
    omega

theorem createSwapChain_trace (d : Driver) (m : Machine) :
    ((VulkanHelpers.createSwapChain d m).2 ≠ Except.ok () ∧
      Vk.issued (VulkanHelpers.createSwapChain d) m = []) ∨
    ∃ device surface format extent mode families out,
      Vk.issued (VulkanHelpers.createSwapChain d) m =
        [Call.vkCreateSwapchainKHR device surface (swapChainImageCount d.caps) format extent mode
          families out] := by
  unfold VulkanHelpers.createSwapChain
  simp only [Vk.bind_eq, Vk.pure_eq]
  rcases hf : pickSurfaceFormat d.formats with _ | f
  · left; refine ⟨?_, ?_⟩
    · simp [Vk.seq, Vk.get, Vk.raise]
    · apply issued_of_trace; simp [Vk.seq, Vk.get, Vk.raise]
  rcases he : pickExtent d.caps m.context.m_window d.framebufferSize with e | e
  · left; refine ⟨?_, ?_⟩
    · simp [Vk.seq, Vk.get, Vk.ret, Vk.lift, Vk.raise, he]
    · apply issued_of_trace; simp [Vk.seq, Vk.get, Vk.ret, Vk.lift, Vk.raise, he]
  rcases hg : (findQueueFamilies d.queueFamilies).m_graphicsFamily with _ | g
  · left; refine ⟨?_, ?_⟩
    · simp [Vk.seq, Vk.get, Vk.ret, Vk.lift, Vk.raise, he, Vk.value, hg]
    · apply issued_of_trace
      simp [Vk.seq, Vk.get, Vk.ret, Vk.lift, Vk.raise, he, Vk.value, hg]
  rcases hp : (findQueueFamilies d.queueFamilies).m_presentFamily with _ | p
  · left; refine ⟨?_, ?_⟩
    · simp [Vk.seq, Vk.get, Vk.ret, Vk.lift, Vk.raise, he, Vk.value, hg, hp]
    · apply issued_of_trace
      simp [Vk.seq, Vk.get, Vk.ret, Vk.lift, Vk.raise, he, Vk.value, hg, hp]
  right
  refine ⟨m.context.m_device, m.context.m_surface, f, e, pickPresentMode d.presentModes,
    (if g ≠ p then [g, p] else []), m.nextHandle, ?_⟩
  apply issued_of_trace
  by_cases hr : d.result m.trace.length = VK_SUCCESS
  · simp [Vk.seq, Vk.get, Vk.ret, Vk.lift, Vk.raise, he, Vk.value, hg, hp, Vk.fresh, Vk.call,
      Vk.check, Vk.modify, hr]
  · simp [Vk.seq, Vk.get, Vk.ret, Vk.lift, Vk.raise, he, Vk.value, hg, hp, Vk.fresh, Vk.call,
      Vk.check, Vk.modify, hr]

/-- C13: the image count that `createSwapChain` passes to `vkCreateSwapchainKHR`
is `minImageCount + 1` in 32-bit unsigned arithmetic, replaced by `maxImageCount`
when `maxImageCount > 0` and the sum exceeds it; a run that returns normally
records exactly one such request; and whenever `maxImageCount > 0` the requested
count does not exceed `maxImageCount`. -/
theorem createSwapChain_imageCount (d : Driver) (m : Machine) :
    (∀ n ∈ (Vk.issued (VulkanHelpers.createSwapChain d) m).filterMap requestedImageCount,
      (d.caps.maxImageCount > 0 ∧ (d.caps.minImageCount + 1) % 2 ^ 32 > d.caps.maxImageCount →
        n = d.caps.maxImageCount) ∧
      (¬ (d.caps.maxImageCount > 0 ∧
          (d.caps.minImageCount + 1) % 2 ^ 32 > d.caps.maxImageCount) →
        n = (d.caps.minImageCount + 1) % 2 ^ 32) ∧
      (d.caps.maxImageCount > 0 → n ≤ d.caps.maxImageCount)) ∧
    ((VulkanHelpers.createSwapChain d m).2 = Except.ok () →
      (Vk.issued (VulkanHelpers.createSwapChain d) m).filterMap requestedImageCount
        = [swapChainImageCount d.caps]) := by
  have key : ∀ n ∈ (Vk.issued (VulkanHelpers.createSwapChain d) m).filterMap
      requestedImageCount, n = swapChainImageCount d.caps := by
    intro n h
    rcases createSwapChain_trace d m with h0 | ⟨_, _, _, _, _, _, _, h1⟩
    · rw [h0.2] at h; simp at h
    · rw [h1] at h; simpa [requestedImageCount] using h
  refine ⟨fun n hn => ?_, fun hok => ?_⟩
  · rw [key n hn]
    refine ⟨fun h => ?_, fun h => ?_, fun h => swapChainImageCount_le d.caps h⟩
    · unfold swapChainImageCount; simp only [h, and_self, if_true]
    · unfold swapChainImageCount; simp only [h, if_false]
  · rcases createSwapChain_trace d m with h0 | ⟨_, _, _, _, _, _, _, h1⟩
    · exact absurd hok h0.1
    · rw [h1]; simp [requestedImageCount]

/-- C14: on a non-empty list of supported surface formats `pickSurfaceFormat`
returns an element of the list: the first entry with format `B8G8R8A8_SRGB` and
colour space `SRGB_NONLINEAR` if there is one (every entry before it is not of
that kind), and the first entry of the list otherwise. -/
theorem pickSurfaceFormat_spec (t_avail : List VkSurfaceFormatKHR) (h : t_avail ≠ []) :
    ∃ f, pickSurfaceFormat t_avail = some f ∧ f ∈ t_avail ∧
      ((∃ g ∈ t_avail, g.format = VK_FORMAT_B8G8R8A8_SRGB ∧
            g.colorSpace = VK_COLOR_SPACE_SRGB_NONLINEAR_KHR) →
        f.format = VK_FORMAT_B8G8R8A8_SRGB ∧
        f.colorSpace = VK_COLOR_SPACE_SRGB_NONLINEAR_KHR ∧
        ∃ before after, t_avail = before ++ f :: after ∧
          ∀ g ∈ before, ¬ (g.format = VK_FORMAT_B8G8R8A8_SRGB ∧
            g.colorSpace = VK_COLOR_SPACE_SRGB_NONLINEAR_KHR)) ∧
      ((¬ ∃ g ∈ t_avail, g.format = VK_FORMAT_B8G8R8A8_SRGB ∧
            g.colorSpace = VK_COLOR_SPACE_SRGB_NONLINEAR_KHR) →
        t_avail.head? = some f) := by
  rcases hf : t_avail.find? (fun f => decide (f.format = VK_FORMAT_B8G8R8A8_SRGB) &&
      decide (f.colorSpace = VK_COLOR_SPACE_SRGB_NONLINEAR_KHR)) with _ | f
  · have hv : pickSurfaceFormat t_avail = t_avail[0]? := by simp only [pickSurfaceFormat, hf]
    rw [List.find?_eq_none] at hf
    cases t_avail with
    | nil => exact absurd rfl h
    | cons a l =>
      refine ⟨a, by simp [hv], by simp, fun hex => ?_, fun _ => by simp⟩
      obtain ⟨g, hg, h1, h2⟩ := hex
      exact absurd (by simp [h1, h2]) (hf g hg)
  · have hv : pickSurfaceFormat t_avail = some f := by simp only [pickSurfaceFormat, hf]
    have hmem := List.mem_of_find?_eq_some hf
    rw [List.find?_eq_some] at hf
    obtain ⟨hp, before, after, hl, hb⟩ := hf
    simp only [Bool.and_eq_true, decide_eq_true_eq] at hp
    refine ⟨f, hv, hmem, fun _ => ⟨hp.1, hp.2, before, after, hl, fun g hg hh => ?_⟩,
      fun hno => absurd ⟨f, hmem, hp⟩ hno⟩
    have := hb g hg
    simp [hh.1, hh.2] at this

theorem pickSurfaceFormat_spec_witness :
    ∃ f, pickSurfaceFormat [⟨44, 0⟩, ⟨50, 0⟩, ⟨50, 0⟩] = some f ∧
      f ∈ [(⟨44, 0⟩ : VkSurfaceFormatKHR), ⟨50, 0⟩, ⟨50, 0⟩] ∧
      f.format = VK_FORMAT_B8G8R8A8_SRGB :=
  (pickSurfaceFormat_spec [⟨44, 0⟩, ⟨50, 0⟩, ⟨50, 0⟩] (by simp)).imp fun _ hf =>
    ⟨hf.1, hf.2.1, (hf.2.2.1 ⟨⟨50, 0⟩, by simp, rfl, rfl⟩).1⟩

/-- C15: for every list of supported present modes, the empty list included,
`pickPresentMode` returns `MAILBOX` exactly when the list contains `MAILBOX`,
returns `FIFO` otherwise, and never returns another mode. -/
theorem pickPresentMode_spec (t_avail : List ℕ) :
    (pickPresentMode t_avail = VK_PRESENT_MODE_MAILBOX_KHR ↔
      VK_PRESENT_MODE_MAILBOX_KHR ∈ t_avail) ∧
    (VK_PRESENT_MODE_MAILBOX_KHR ∉ t_avail → pickPresentMode t_avail = VK_PRESENT_MODE_FIFO_KHR) ∧
    (pickPresentMode t_avail = VK_PRESENT_MODE_MAILBOX_KHR ∨
      pickPresentMode t_avail = VK_PRESENT_MODE_FIFO_KHR) := by
  rcases hf : t_avail.find? (fun m => decide (m = VK_PRESENT_MODE_MAILBOX_KHR)) with _ | f
  · have hv : pickPresentMode t_avail = VK_PRESENT_MODE_FIFO_KHR := by
      simp only [pickPresentMode, hf]
    rw [hv]
    rw [List.find?_eq_none] at hf
    have hno : VK_PRESENT_MODE_MAILBOX_KHR ∉ t_avail := fun hm => by
      have := hf _ hm
      simp at this
    refine ⟨⟨fun h => ?_, fun h => absurd h hno⟩, fun _ => rfl, Or.inr rfl⟩
    simp [VK_PRESENT_MODE_FIFO_KHR, VK_PRESENT_MODE_MAILBOX_KHR] at h
  · have hv : pickPresentMode t_avail = f := by simp only [pickPresentMode, hf]
    have hmem := List.mem_of_find?_eq_some hf
    have hp := List.find?_some hf
    simp only [decide_eq_true_eq] at hp
    rw [hv]
    subst hp
    exact ⟨⟨fun _ => hmem, fun _ => rfl⟩, fun h => absurd hmem h, Or.inl rfl⟩

theorem clamp_mem (v lo hi : ℕ) (h : lo ≤ hi) : lo ≤ clamp v lo hi ∧ clamp v lo hi ≤ hi := by
  unfold clamp
  exact ⟨le_min (le_max_right _ _) h, min_le_right _ _⟩

theorem clamp_eq (v lo hi : ℕ) (h : lo ≤ hi) :
    clamp v lo hi = if v < lo then lo else if hi < v then hi else v := by
  unfold clamp
  split_ifs with h1 h2
  · rw [max_eq_right h1.le, min_eq_left h]
  · rw [max_eq_left (not_lt.1 h1), min_eq_right h2.le]
  · rw [max_eq_left (not_lt.1 h1), min_eq_left (not_lt.1 h2)]

/-- C16: for a non-null window `pickExtent` returns the surface's `currentExtent`
unchanged when its width is not `UINT32_MAX`; otherwise it returns an extent
such that, when the minimum extent width is at most the maximum extent width,
the width is the framebuffer width converted to `uint32_t` and clamped (below
the minimum gives the minimum, above the maximum gives the maximum, anything
else is kept) and lies within those two bounds, and likewise for the height
with the extent heights, for every framebuffer size. -/
theorem pickExtent_spec (t_caps : VkSurfaceCapabilitiesKHR) (t_window : Handle)
    (framebufferSize : ℤ × ℤ) (h : t_window ≠ 0) :
    (t_caps.currentExtent.width ≠ UINT32_MAX →
      pickExtent t_caps t_window framebufferSize = Except.ok t_caps.currentExtent) ∧
    (t_caps.currentExtent.width = UINT32_MAX →
      ∃ e, pickExtent t_caps t_window framebufferSize = Except.ok e ∧
        (t_caps.minImageExtent.width ≤ t_caps.maxImageExtent.width →
          (∀ w : ℕ, (w : ℤ) = framebufferSize.1 % 2 ^ 32 →
            e.width = (if w < t_caps.minImageExtent.width then t_caps.minImageExtent.width
              else if t_caps.maxImageExtent.width < w then t_caps.maxImageExtent.width
              else w)) ∧
          t_caps.minImageExtent.width ≤ e.width ∧ e.width ≤ t_caps.maxImageExtent.width) ∧
        (t_caps.minImageExtent.height ≤ t_caps.maxImageExtent.height →
          (∀ w : ℕ, (w : ℤ) = framebufferSize.2 % 2 ^ 32 →
            e.height = (if w < t_caps.minImageExtent.height then t_caps.minImageExtent.height
              else if t_caps.maxImageExtent.height < w then t_caps.maxImageExtent.height
              else w)) ∧
          t_caps.minImageExtent.height ≤ e.height ∧
            e.height ≤ t_caps.maxImageExtent.height)) := by
  refine ⟨fun hw => ?_, fun hw => ?_⟩
  · simp [pickExtent, h, hw]
  · refine ⟨⟨clamp (framebufferSize.1 % 2 ^ 32).toNat t_caps.minImageExtent.width
                t_caps.maxImageExtent.width,
              clamp (framebufferSize.2 % 2 ^ 32).toNat t_caps.minImageExtent.height
                t_caps.maxImageExtent.height⟩,
      by simp only [pickExtent, h, hw, if_false, ne_eq, not_true_eq_false],
      fun hle => ⟨fun w hw' => ?_, clamp_mem _ _ _ hle⟩,
      fun hle => ⟨fun w hw' => ?_, clamp_mem _ _ _ hle⟩⟩
    · rw [← hw']
      exact clamp_eq _ _ _ hle
    · rw [← hw']
      exact clamp_eq _ _ _ hle

theorem pickExtent_spec_witness :
    ∃ e, pickExtent
        { minImageCount := 2, maxImageCount := 3, currentExtent := ⟨UINT32_MAX, UINT32_MAX⟩,
          minImageExtent := ⟨100, 100⟩, maxImageExtent := ⟨4096, 4096⟩ } 7 (-1, 50)
          = Except.ok e ∧
      e.width = 4096 ∧ e.height = 100 :=
  ((pickExtent_spec
      { minImageCount := 2, maxImageCount := 3, currentExtent := ⟨UINT32_MAX, UINT32_MAX⟩,
        minImageExtent := ⟨100, 100⟩, maxImageExtent := ⟨4096, 4096⟩ } 7 (-1, 50)
      (by decide)).2 rfl).imp fun _ he =>
    ⟨he.1, (he.2.1 (by decide)).1 4294967295 (by norm_num),
      (he.2.2 (by decide)).1 50 (by norm_num)⟩

/-! ### The sampler on a single point -/

theorem round32_zero : round32 ((0 : ℤ) : ℚ) = some 0 := by
  rw [round32_intCast (le_refl _) (by norm_num)]
  simp [roundTo_zero]

/-- C17, evaluated at `t_pointCount = 1`: the loop runs once, the divisor
`static_cast<float>(t_pointCount - 1)` is `0`, the quotient `0.0f / 0.0f` is not
a finite number, and the single vertex returned has no finite coordinate,
whatever `sinf`, amplitude, frequency and phase are; for `t_pointCount ≤ 0` the
result is empty, and for every point count from 2 up to `2 ^ 31` the divisor is
not zero. -/
theorem generateSineWave_one_point (sinf : ℚ → ℚ) (a f ph : Option ℚ) :
    (ieee sinf).ofInt (1 - 1) = some 0 ∧
    (ieee sinf).divF ((ieee sinf).ofInt 0) ((ieee sinf).ofInt (1 - 1)) = none ∧
    sine.generateSineWave (ieee sinf) a f ph 1 = [{ x := none, y := none }] ∧
    (∀ N : ℤ, N ≤ 0 → sine.generateSineWave (ieee sinf) a f ph N = []) ∧
    (∀ N : ℤ, 2 ≤ N → N ≤ 2 ^ 31 → (ieee sinf).ofInt (N - 1) ≠ some 0) := by
  have h0 : (ieee sinf).ofInt 0 = some 0 := round32_zero
  have h1 : (ieee sinf).ofInt (1 - 1) = some 0 := round32_zero
  have hd : (ieee sinf).divF (some 0) (some 0) = none := by simp [ieee]
  refine ⟨h1, by rw [h0, h1, hd], ?_, fun N hN => ?_, fun N hN hN' => ?_⟩
  · have hs : sine.sample (ieee sinf) a f ph 1 0 = { x := none, y := none } := by
      unfold sine.sample
      rw [h0, h1, hd]
      cases a <;> cases f <;> cases ph <;> simp [ieee]
    have h1n : (1 : ℤ).toNat = 1 := rfl
    have hr : List.range 1 = [0] := rfl
    simp only [sine.generateSineWave, h1n, hr, List.map_cons, List.map_nil, Nat.cast_zero]
    rw [hs]
  · have : N.toNat = 0 := Int.toNat_eq_zero.2 hN
    simp [sine.generateSineWave, this]
  · have h2 : (ieee sinf).ofInt (N - 1) = some (roundTo 24 ((N - 1 : ℤ) : ℚ)) :=
      round32_intCast (by omega) (by omega)
    have h3 : 1 ≤ roundTo 24 ((N - 1 : ℤ) : ℚ) := roundTo_intCast_ge_one (by omega)
    rw [h2]
    intro h4
    have h5 : roundTo 24 ((N - 1 : ℤ) : ℚ) = 0 := by simpa using h4
    rw [h5] at h3
    norm_num at h3

/-! ### The program `main` -/

theorem main_loop_run {F D : Type} (d : Driver) (A : FloatArith F D) (half : F)
    (ts : List F) (s : MainState) :
    (Trigonometricly.main.loop d A half ts s).2 =
      (InitVulkan.renderFrames d
        (ts.map fun t => sine.generateSineWave A half A.one t 200) s.machine).2 ∧
    (Trigonometricly.main.loop d A half ts s).1.machine =
      (InitVulkan.renderFrames d
        (ts.map fun t => sine.generateSineWave A half A.one t 200) s.machine).1 ∧
    (Trigonometricly.main.loop d A half ts s).1.calls.count MainCall.InitVulkan_cleanup =
      s.calls.count MainCall.InitVulkan_cleanup := by
  induction ts generalizing s with
  | nil =>
    refine ⟨rfl, rfl, ?_⟩
    simp [Trigonometricly.main.loop, List.count_append]
  | cons t ts ih =>
    unfold Trigonometricly.main.loop
    simp only [List.map_cons, InitVulkan.renderFrames, Vk.forEach, Vk.seq]
    rcases hr : InitVulkan.renderFrame d (sine.generateSineWave A half A.one t 200) s.machine
      with ⟨m1, r1⟩
    cases r1 with
    | error e =>
      refine ⟨rfl, rfl, ?_⟩
      simp [List.count_append]
    | ok u =>
      cases u
      simp only
      obtain ⟨h1, h2, h3⟩ := ih { machine := m1, calls := s.calls ++
        [MainCall.glfwWindowShouldClose, MainCall.glfwPollEvents, MainCall.glfwGetTime,
          MainCall.sine_generateSineWave, MainCall.InitVulkan_renderFrame] }
      refine ⟨h1, h2, ?_⟩
      rw [h3]
      simp [List.count_append]

theorem main_tryBlock_run {F D : Type} (d : Driver) (A : FloatArith F D) (half : F)
    (host : Host F) (s : MainState) :
    ((Trigonometricly.main.tryBlock d A half host s).2 =
      match ( InitVulkan.initialize d host.glfwCreateWindow s.machine).2 with
      | Except.error e => Except.error e
      | Except.ok () =>
        (InitVulkan.renderFrames d (Trigonometricly.main.frames A half host)
          ( InitVulkan.initialize d host.glfwCreateWindow s.machine).1).2) ∧
    (Trigonometricly.main.tryBlock d A half host s).1.calls.count MainCall.InitVulkan_cleanup =
      s.calls.count MainCall.InitVulkan_cleanup +
        (match (Trigonometricly.main.tryBlock d A half host s).2 with
          | Except.ok _ => 1
          | Except.error _ => 0) := by
  unfold Trigonometricly.main.tryBlock Trigonometricly.main.frames
  rcases hi : InitVulkan.initialize d host.glfwCreateWindow s.machine with ⟨m1, r1⟩
  cases r1 with
  | error e => simp [List.count_append]
  | ok u =>
    cases u
    simp only
    obtain ⟨h1, h2, h3⟩ := main_loop_run d A half host.times
      { machine := m1, calls := s.calls ++ [MainCall.InitVulkan_initialize] }
    rcases hl : Trigonometricly.main.loop d A half host.times
      { machine := m1, calls := s.calls ++ [MainCall.InitVulkan_initialize] } with ⟨s2, r2⟩
    rw [hl] at h1 h2 h3
    simp only at h1 h2 h3
    cases r2 with
    | error e =>
      simp only
      refine ⟨h1, ?_⟩
      rw [h3]
      simp [List.count_append]
    | ok u =>
      cases u
      simp only
      refine ⟨h1, ?_⟩
      rw [List.count_append, h3]
      simp [List.count_append]

/-- C18: `main` returns 0 exactly when `glfwInit` succeeds, the window is
created, `initialize` returns normally and every `renderFrame` call of the loop
returns normally; otherwise it returns `-1`, except that it has no defined
result when a vector was indexed out of range; when `initialize` or a
`renderFrame` call raises an exception, `main` returns `-1` after calling
`cleanup` exactly once, followed by `glfwDestroyWindow` and `glfwTerminate`; and
on the path that returns 0 `cleanup` is called exactly once as well. -/
theorem main_exit_code {F D : Type} (d : Driver) (A : FloatArith F D) (half : F)
    (host : Host F) (backend : Machine) :
    ((Trigonometricly.main d A half host backend).2 = some 0 ↔
      host.glfwInit = true ∧ host.glfwCreateWindow ≠ 0 ∧
      ( InitVulkan.initialize d host.glfwCreateWindow { backend with context := {} }).2
        = Except.ok () ∧
      (InitVulkan.renderFrames d (Trigonometricly.main.frames A half host)
        ( InitVulkan.initialize d host.glfwCreateWindow { backend with context := {} }).1).2
        = Except.ok ()) ∧
    ((Trigonometricly.main d A half host backend).2 ≠ some 0 →
      (Trigonometricly.main d A half host backend).2 = some (-1) ∨
      ((Trigonometricly.main d A half host backend).2 = none ∧
        (( InitVulkan.initialize d host.glfwCreateWindow { backend with context := {} }).2
            = Except.error Exn.outOfRange ∨
          (InitVulkan.renderFrames d (Trigonometricly.main.frames A half host)
            ( InitVulkan.initialize d host.glfwCreateWindow
              { backend with context := {} }).1).2 = Except.error Exn.outOfRange))) ∧
    (∀ e, e ≠ Exn.outOfRange → host.glfwInit = true → host.glfwCreateWindow ≠ 0 →
      (( InitVulkan.initialize d host.glfwCreateWindow { backend with context := {} }).2
          = Except.error e ∨
        (( InitVulkan.initialize d host.glfwCreateWindow { backend with context := {} }).2
            = Except.ok () ∧
          (InitVulkan.renderFrames d (Trigonometricly.main.frames A half host)
            ( InitVulkan.initialize d host.glfwCreateWindow
              { backend with context := {} }).1).2 = Except.error e)) →
      (Trigonometricly.main d A half host backend).2 = some (-1) ∧
      (Trigonometricly.main d A half host backend).1.calls.count MainCall.InitVulkan_cleanup = 1 ∧
      ∃ before, (Trigonometricly.main d A half host backend).1.calls =
        before ++ [MainCall.InitVulkan_cleanup, MainCall.glfwDestroyWindow, MainCall.glfwTerminate]) ∧
    ((Trigonometricly.main d A half host backend).2 = some 0 →
      (Trigonometricly.main d A half host backend).1.calls.count MainCall.InitVulkan_cleanup = 1) := by
  unfold Trigonometricly.main
  by_cases hg : host.glfwInit = false
  · simp [hg]
  have hg' : host.glfwInit = true := by simpa using hg
  by_cases hw : host.glfwCreateWindow = 0
  · simp [hg, hw]
  simp only [hg, hw, if_false]
  obtain ⟨ht, hc⟩ := main_tryBlock_run d A half host
    { machine := { backend with context := {} },
      calls := [MainCall.glfwInit, MainCall.glfwWindowHint, MainCall.glfwCreateWindow] }
  rcases hT : Trigonometricly.main.tryBlock d A half host
    { machine := { backend with context := {} },
      calls := [MainCall.glfwInit, MainCall.glfwWindowHint, MainCall.glfwCreateWindow] }
    with ⟨s1, r1⟩
  rw [hT] at ht hc
  simp only at ht hc
  rcases hI : InitVulkan.initialize d host.glfwCreateWindow { backend with context := {} }
    with ⟨m1, ri⟩
  rw [hI] at ht
  dsimp only at ht ⊢
  cases ri with
  | error ei =>
    simp only at ht
    subst ht
    cases ei with
    | runtime_error what => simp [hg', hw, hc, List.count_append]
    | bad_optional_access => simp [hg', hw, hc, List.count_append]
    | outOfRange =>
      simp [hg', hw, hc, List.count_append]
      intro e he h
      exact he h.symm
  | ok u =>
    cases u
    simp only at ht
    rw [← ht]
    cases r1 with
    | error e1 =>
      cases e1 with
      | runtime_error what => simp [hg', hw, hc, List.count_append]
      | bad_optional_access => simp [hg', hw, hc, List.count_append]
      | outOfRange =>
        simp [hg', hw, hc, List.count_append]
        intro e he h
        exact he h.symm
    | ok u =>
      cases u
      simp [hg', hw, hc, List.count_append]

/-! ### Memory types and queue families -/

theorem and_shift_ne_zero (t i : ℕ) (hi : i < 32) :
    t &&& ((1 <<< i) % 2 ^ 32) ≠ 0 ↔ t.testBit i = true := by
  have h1 : (1 <<< i) % 2 ^ 32 = 2 ^ i := by
    rw [Nat.one_shiftLeft]
    exact Nat.mod_eq_of_lt (Nat.pow_lt_pow_right (by norm_num) hi)
  rw [h1, Nat.and_two_pow]
  cases h : t.testBit i <;> simp

/-- C19: for a memory-properties table with at most 32 memory types,
`findMemoryType` returns index `i` exactly when `i` is the smallest index below
`memoryTypeCount` whose bit is set in the type filter and whose property flags
contain every required flag, and it raises an error exactly when no such index
exists. -/
theorem findMemoryType_spec (memProps : VkPhysicalDeviceMemoryProperties)
    (t_typeFilter t_props : ℕ) (h : memProps.memoryTypeCount ≤ 32) :
    (∀ i, findMemoryType memProps t_typeFilter t_props = Except.ok i ↔
      (i < memProps.memoryTypeCount ∧ t_typeFilter.testBit i = true ∧
        memProps.memoryTypes.getD i 0 &&& t_props = t_props) ∧
      ∀ j < i, ¬ (t_typeFilter.testBit j = true ∧
        memProps.memoryTypes.getD j 0 &&& t_props = t_props)) ∧
    ((∃ e, findMemoryType memProps t_typeFilter t_props = Except.error e) ↔
      ¬ ∃ i, i < memProps.memoryTypeCount ∧ t_typeFilter.testBit i = true ∧
        memProps.memoryTypes.getD i 0 &&& t_props = t_props) := by
  rcases hf : (List.range memProps.memoryTypeCount).find? (fun i =>
      decide (t_typeFilter &&& ((1 <<< i) % 2 ^ 32) ≠ 0) &&
      decide ((memProps.memoryTypes.getD i 0) &&& t_props = t_props)) with _ | k
  · have hv : findMemoryType memProps t_typeFilter t_props =
        Except.error (Exn.runtime_error "No suitable memory type on physical device") := by
      simp only [findMemoryType, hf]
    rw [List.find?_eq_none] at hf
    have hno : ¬ ∃ i, i < memProps.memoryTypeCount ∧ t_typeFilter.testBit i = true ∧
        memProps.memoryTypes.getD i 0 &&& t_props = t_props := by
      rintro ⟨i, hi, h1, h2⟩
      apply hf i (List.mem_range.2 hi)
      simp only [Bool.and_eq_true, decide_eq_true_eq]
      exact ⟨(and_shift_ne_zero _ _ (lt_of_lt_of_le hi h)).2 h1, h2⟩
    rw [hv]
    refine ⟨fun i => ⟨fun hh => by simp at hh, fun hh => absurd ⟨i, hh.1⟩ hno⟩,
      ⟨fun _ => hno, fun _ => ⟨_, rfl⟩⟩⟩
  · have hv : findMemoryType memProps t_typeFilter t_props = Except.ok k := by
      simp only [findMemoryType, hf]
    rw [List.find?_range_eq_some] at hf
    obtain ⟨hp, hk, hmin⟩ := hf
    simp only [Bool.and_eq_true, decide_eq_true_eq] at hp
    have hk' : k < memProps.memoryTypeCount := List.mem_range.1 hk
    have hgood : t_typeFilter.testBit k = true ∧
        memProps.memoryTypes.getD k 0 &&& t_props = t_props :=
      ⟨(and_shift_ne_zero _ _ (lt_of_lt_of_le hk' h)).1 hp.1, hp.2⟩
    have hbefore : ∀ j < k, ¬ (t_typeFilter.testBit j = true ∧
        memProps.memoryTypes.getD j 0 &&& t_props = t_props) := by
      intro j hj hh
      have := hmin j hj
      simp only [Bool.not_eq_true', Bool.and_eq_false_iff, decide_eq_false_iff_not] at this
      have hj32 : j < 32 := lt_of_lt_of_le (lt_trans hj hk') h
      rcases this with h1 | h1
      · exact h1 ((and_shift_ne_zero _ _ hj32).2 hh.1)
      · exact h1 hh.2
    rw [hv]
    refine ⟨fun i => ⟨fun hh => ?_, fun hh => ?_⟩, ⟨fun hh => ?_, fun hh => ?_⟩⟩
    · have : k = i := by simpa using hh
      subst this
      exact ⟨⟨hk', hgood⟩, hbefore⟩
    · have : k = i := by
        rcases lt_trichotomy k i with hlt | heq | hgt
        · exact absurd hgood (hh.2 k hlt)
        · exact heq
        · exact absurd hh.1.2 (hbefore i hgt)
      rw [this]
    · obtain ⟨e, he⟩ := hh
      simp at he
    · exact absurd ⟨k, hk', hgood⟩ hh

theorem findMemoryType_spec_witness :
    findMemoryType { memoryTypeCount := 3, memoryTypes := [1, 6, 7] } 6 6 = Except.ok 1 :=
  ((findMemoryType_spec { memoryTypeCount := 3, memoryTypes := [1, 6, 7] } 6 6
      (by decide)).1 1).2 ⟨by decide, by decide⟩

theorem findQueueFamilies_loop_cons (p : QueueFamily) (ps : List QueueFamily) (i : ℕ)
    (idx : QueueFamilyIndices) :
    findQueueFamilies.loop (p :: ps) i idx =
      if (QueueFamilyIndices.mk
            (if p.queueFlags &&& VK_QUEUE_GRAPHICS_BIT ≠ 0 then some i else idx.m_graphicsFamily)
            (if p.presentOK then some i else idx.m_presentFamily)).isComplete
      then QueueFamilyIndices.mk
            (if p.queueFlags &&& VK_QUEUE_GRAPHICS_BIT ≠ 0 then some i else idx.m_graphicsFamily)
            (if p.presentOK then some i else idx.m_presentFamily)
      else findQueueFamilies.loop ps (i + 1) (QueueFamilyIndices.mk
            (if p.queueFlags &&& VK_QUEUE_GRAPHICS_BIT ≠ 0 then some i else idx.m_graphicsFamily)
            (if p.presentOK then some i else idx.m_presentFamily)) := by
  rw [findQueueFamilies.loop]
  by_cases h1 : p.queueFlags &&& VK_QUEUE_GRAPHICS_BIT ≠ 0 <;>
    by_cases h2 : p.presentOK = true <;> simp [h1, h2]

theorem findQueueFamilies_loop_complete (ps : List QueueFamily) (i : ℕ)
    (idx : QueueFamilyIndices) :
    (findQueueFamilies.loop ps i idx).isComplete = true ↔
      (idx.m_graphicsFamily.isSome = true ∨
        ∃ f ∈ ps, f.queueFlags &&& VK_QUEUE_GRAPHICS_BIT ≠ 0) ∧
      (idx.m_presentFamily.isSome = true ∨ ∃ f ∈ ps, f.presentOK = true) := by
  induction ps generalizing i idx with
  | nil => simp [findQueueFamilies.loop, QueueFamilyIndices.isComplete]
  | cons p ps ih =>
    rw [findQueueFamilies_loop_cons]
    by_cases h1 : p.queueFlags &&& VK_QUEUE_GRAPHICS_BIT ≠ 0 <;>
      by_cases h2 : p.presentOK = true <;>
      simp only [h1, h2, if_true, if_false] <;>
      split_ifs with hc <;>
      simp_all [QueueFamilyIndices.isComplete]

theorem findQueueFamilies_loop_graphics (ps : List QueueFamily) (i : ℕ)
    (idx : QueueFamilyIndices) (g : ℕ)
    (h : (findQueueFamilies.loop ps i idx).m_graphicsFamily = some g) :
    idx.m_graphicsFamily = some g ∨
      ∃ f, i ≤ g ∧ ps[g - i]? = some f ∧ f.queueFlags &&& VK_QUEUE_GRAPHICS_BIT ≠ 0 := by
  induction ps generalizing i idx with
  | nil => left; simpa [findQueueFamilies.loop] using h
  | cons p ps ih =>
    rw [findQueueFamilies_loop_cons] at h
    have step : (if p.queueFlags &&& VK_QUEUE_GRAPHICS_BIT ≠ 0 then some i
        else idx.m_graphicsFamily) = some g →
        idx.m_graphicsFamily = some g ∨ ∃ f, i ≤ g ∧ (p :: ps)[g - i]? = some f ∧
          f.queueFlags &&& VK_QUEUE_GRAPHICS_BIT ≠ 0 := by
      intro hh
      by_cases h1 : p.queueFlags &&& VK_QUEUE_GRAPHICS_BIT ≠ 0
      · rw [if_pos h1] at hh
        have : i = g := by simpa using hh
        subst this
        exact Or.inr ⟨p, le_refl _, by simp, h1⟩
      · rw [if_neg h1] at hh
        exact Or.inl hh
    by_cases hc : (QueueFamilyIndices.mk
        (if p.queueFlags &&& VK_QUEUE_GRAPHICS_BIT ≠ 0 then some i else idx.m_graphicsFamily)
        (if p.presentOK then some i else idx.m_presentFamily)).isComplete = true
    · rw [if_pos hc] at h
      exact step h
    · rw [if_neg hc] at h
      rcases ih _ _ h with h' | ⟨f, hle, hf, hg⟩
      · exact step h'
      · refine Or.inr ⟨f, by omega, ?_, hg⟩
        have : g - i = (g - (i + 1)) + 1 := by omega
        rw [this, List.getElem?_cons_succ]
        exact hf

theorem findQueueFamilies_loop_present (ps : List QueueFamily) (i : ℕ)
    (idx : QueueFamilyIndices) (g : ℕ)
    (h : (findQueueFamilies.loop ps i idx).m_presentFamily = some g) :
    idx.m_presentFamily = some g ∨
      ∃ f, i ≤ g ∧ ps[g - i]? = some f ∧ f.presentOK = true := by
  induction ps generalizing i idx with
  | nil => left; simpa [findQueueFamilies.loop] using h
  | cons p ps ih =>
    rw [findQueueFamilies_loop_cons] at h
    have step : (if p.presentOK then some i else idx.m_presentFamily) = some g →
        idx.m_presentFamily = some g ∨ ∃ f, i ≤ g ∧ (p :: ps)[g - i]? = some f ∧
          f.presentOK = true := by
      intro hh
      by_cases h1 : p.presentOK = true
      · rw [if_pos h1] at hh
        have : i = g := by simpa using hh
        subst this
        exact Or.inr ⟨p, le_refl _, by simp, h1⟩
      · rw [if_neg h1] at hh
        exact Or.inl hh
    by_cases hc : (QueueFamilyIndices.mk
        (if p.queueFlags &&& VK_QUEUE_GRAPHICS_BIT ≠ 0 then some i else idx.m_graphicsFamily)
        (if p.presentOK then some i else idx.m_presentFamily)).isComplete = true
    · rw [if_pos hc] at h
      exact step h
    · rw [if_neg hc] at h
      rcases ih _ _ h with h' | ⟨f, hle, hf, hg⟩
      · exact step h'
      · refine Or.inr ⟨f, by omega, ?_, hg⟩
        have : g - i = (g - (i + 1)) + 1 := by omega
        rw [this, List.getElem?_cons_succ]
        exact hf

/-- C20: `findQueueFamilies` returns a complete result exactly when some family
is graphics-capable and some family supports presentation; an index present in
`m_graphicsFamily` is the index of a graphics-capable family, one present in
`m_presentFamily` is the index of a family that supports presentation, both
below the family count; and when such families exist both `.value()` accesses
return an index instead of raising. -/
theorem findQueueFamilies_spec (props : List QueueFamily) :
    ((findQueueFamilies props).isComplete = true ↔
      (∃ f ∈ props, f.queueFlags &&& VK_QUEUE_GRAPHICS_BIT ≠ 0) ∧
      (∃ f ∈ props, f.presentOK = true)) ∧
    (∀ g, (findQueueFamilies props).m_graphicsFamily = some g →
      g < props.length ∧
      ∃ f, props[g]? = some f ∧ f.queueFlags &&& VK_QUEUE_GRAPHICS_BIT ≠ 0) ∧
    (∀ p, (findQueueFamilies props).m_presentFamily = some p →
      p < props.length ∧ ∃ f, props[p]? = some f ∧ f.presentOK = true) ∧
    ((∃ f ∈ props, f.queueFlags &&& VK_QUEUE_GRAPHICS_BIT ≠ 0) ∧
        (∃ f ∈ props, f.presentOK = true) →
      ∀ m : Machine,
        (∃ g, Vk.value (findQueueFamilies props).m_graphicsFamily m = (m, Except.ok g)) ∧
        (∃ p, Vk.value (findQueueFamilies props).m_presentFamily m = (m, Except.ok p))) := by
  have hc : (findQueueFamilies props).isComplete = true ↔
      (∃ f ∈ props, f.queueFlags &&& VK_QUEUE_GRAPHICS_BIT ≠ 0) ∧
      (∃ f ∈ props, f.presentOK = true) := by
    unfold findQueueFamilies
    rw [findQueueFamilies_loop_complete]
    simp
  refine ⟨hc, fun g hg => ?_, fun p hp => ?_, fun hex m => ?_⟩
  · rcases findQueueFamilies_loop_graphics props 0 {} g hg with h | ⟨f, _, hf, hgr⟩
    · simp at h
    · rw [Nat.sub_zero] at hf
      exact ⟨(List.getElem?_eq_some_iff.1 hf).1, f, hf, hgr⟩
  · rcases findQueueFamilies_loop_present props 0 {} p hp with h | ⟨f, _, hf, hpr⟩
    · simp at h
    · rw [Nat.sub_zero] at hf
      exact ⟨(List.getElem?_eq_some_iff.1 hf).1, f, hf, hpr⟩
  · have := hc.2 hex
    simp only [QueueFamilyIndices.isComplete, Bool.and_eq_true, Option.isSome_iff_exists] at this
    obtain ⟨⟨g, hg⟩, ⟨p, hp⟩⟩ := this
    exact ⟨⟨g, by rw [hg]; rfl⟩, ⟨p, by rw [hp]; rfl⟩⟩
